import Mathlib

/-! # The texture caches of mx (`mx-texture-cache*.c`, `st-texture-cache.c`)

A shallow embedding of the two texture caches.  Machine `int`s are `Int`
with an explicit wrap to 32 bits on products; Cogl handles are natural
numbers with `0` for `COGL_INVALID_HANDLE`; hash tables are association
lists; the GLib, GdkPixbuf, Cogl and Clutter calls the caches make are
either small explicit models (reference counts, actors) or fields of an
environment record (`Env`).
-/

set_option autoImplicit false

/-! ## Machine integers -/

/-- Smallest value of a C `int` (`gint`). -/
def G_MININT : Int := -2147483648

/-- Largest value of a C `int` (`gint`). -/
def G_MAXINT : Int := 2147483647

/-- The value is representable as a C `int`. -/
def fits_int (x : Int) : Prop := G_MININT ≤ x ∧ x ≤ G_MAXINT

instance (x : Int) : Decidable (fits_int x) := by
  unfold fits_int; exact inferInstance

/-- Two's-complement wrap of a mathematical integer to 32 bits. -/
def wrap_int (x : Int) : Int := (x + 2147483648) % 4294967296 - 2147483648

/-- Product of two `int`s as the machine computes it. -/
def int_mul (a b : Int) : Int := wrap_int (a * b)

/-- Quotient of two `int`s: C division truncates toward zero.  The one
quotient that does not fit an `int`, `G_MININT / -1`, is undefined in C and
is left at its mathematical value here. -/
def int_div (a b : Int) : Int := Int.tdiv a b

/-- GLib's `MIN(a, b)`, that is `((a) < (b)) ? (a) : (b)`. -/
def MIN (a b : Int) : Int := if a < b then a else b

/-! ## `compute_pixbuf_scale` -/

/-- The function `compute_pixbuf_scale` of `mx-texture-cache-pixbuf.c`.  The
two out-parameters are passed in with their current contents and returned
after the `gboolean` result. -/
def Mx.compute_pixbuf_scale (width height available_width available_height : Int)
    (new_width new_height : Int) : Bool × Int × Int :=
  if width = 0 ∨ height = 0 then
    (false, new_width, new_height)
  else
    let scaled : Int × Int :=
      if available_width ≥ 0 ∧ available_height ≥ 0 then
        (MIN available_width (int_div (int_mul available_height width) height),
         MIN available_height (int_div (int_mul available_width height) width))
      else if available_width ≥ 0 then
        (available_width, int_div (int_mul available_width height) width)
      else if available_height ≥ 0 then
        (int_div (int_mul available_height width) height, available_height)
      else
        (0, 0)
    let scaled_width := scaled.1
    let scaled_height := scaled.2
    if scaled_width > 0 ∧ scaled_height > 0 ∧ scaled_width < width ∧ scaled_height < height then
      (true, scaled_width, scaled_height)
    else
      (false, new_width, new_height)

/-- The function `compute_pixbuf_scale` of `st-texture-cache.c` (a second copy
of the same text). -/
def St.compute_pixbuf_scale (width height available_width available_height : Int)
    (new_width new_height : Int) : Bool × Int × Int :=
  if width = 0 ∨ height = 0 then
    (false, new_width, new_height)
  else
    let scaled : Int × Int :=
      if available_width ≥ 0 ∧ available_height ≥ 0 then
        (MIN available_width (int_div (int_mul available_height width) height),
         MIN available_height (int_div (int_mul available_width height) width))
      else if available_width ≥ 0 then
        (available_width, int_div (int_mul available_width height) width)
      else if available_height ≥ 0 then
        (int_div (int_mul available_height width) height, available_height)
      else
        (0, 0)
    let scaled_width := scaled.1
    let scaled_height := scaled.2
    if scaled_width > 0 ∧ scaled_height > 0 ∧ scaled_width < width ∧ scaled_height < height then
      (true, scaled_width, scaled_height)
    else
      (false, new_width, new_height)

/-- The candidate size `(sw, sh)` of the reference definition of the scale
computation, written from the specification's words, over mathematical
integers with truncating division. -/
def spec_scaled_size (width height aw ah : Int) : Int × Int :=
  if 0 ≤ aw ∧ 0 ≤ ah then
    (min aw (Int.tdiv (ah * width) height), min ah (Int.tdiv (aw * height) width))
  else if 0 ≤ aw then
    (aw, Int.tdiv (aw * height) width)
  else if 0 ≤ ah then
    (Int.tdiv (ah * width) height, ah)
  else
    (0, 0)

/-- The reference definition of the scale computation: `TRUE` with the
candidate size exactly when the natural size is non-zero and the candidate
is positive and strictly smaller in both dimensions, otherwise `FALSE` with
the outputs untouched. -/
def spec_compute_scale (width height aw ah : Int) (new_width new_height : Int) :
    Bool × Int × Int :=
  let sw := (spec_scaled_size width height aw ah).1
  let sh := (spec_scaled_size width height aw ah).2
  if width ≠ 0 ∧ height ≠ 0 ∧ 0 < sw ∧ 0 < sh ∧ sw < width ∧ sh < height then
    (true, sw, sh)
  else
    (false, new_width, new_height)

/-! ## Cogl handles, pixbufs, actors -/

/-- A `CoglHandle`: an opaque pointer, here a number. -/
abbrev CoglHandle := Nat

/-- The null handle `COGL_INVALID_HANDLE`. -/
def COGL_INVALID_HANDLE : CoglHandle := 0

/-- A decoded `GdkPixbuf`, by the attributes the caches read. -/
structure GdkPixbuf where
  width : Int
  height : Int
  has_alpha : Bool
  rowstride : Int
  pixels : Nat
  deriving DecidableEq, Repr

/-- A `GError`, by its message. -/
abbrev GError := String

/-- A `ClutterTexture` actor, by the properties the caches set on it. -/
structure ClutterTexture where
  cogl_texture : CoglHandle
  opacity : Nat
  keep_aspect_ratio : Bool
  deriving DecidableEq, Repr

/-- The part of the process state that lives outside the caches: reference
counts of Cogl handles, the handles created so far (`1 .. n_handles`) with the
pixbuf and padding flag each was converted from, the actors, and two
instruments: the number of `impl_load_pixbuf_file` runs and the log of
`destroy_func (ident)` calls. -/
structure World where
  ref_count : CoglHandle → Int
  n_handles : Nat
  created : List (CoglHandle × GdkPixbuf × Bool)
  actors : Nat → ClutterTexture
  n_actors : Nat
  decodes : Nat
  notified : List (Nat × Nat)

/-- Cogl's `cogl_is_texture`: every non-null handle of this model is a
texture. -/
def cogl_is_texture (h : CoglHandle) : Bool := h ≠ COGL_INVALID_HANDLE

/-- Cogl's `cogl_handle_ref`: one more reference; the null handle is refused. -/
def cogl_handle_ref (w : World) (h : CoglHandle) : World :=
  if h = COGL_INVALID_HANDLE then w
  else { w with ref_count := Function.update w.ref_count h (w.ref_count h + 1) }

/-- Cogl's `cogl_handle_unref`: one reference fewer; the null handle is
refused. -/
def cogl_handle_unref (w : World) (h : CoglHandle) : World :=
  if h = COGL_INVALID_HANDLE then w
  else { w with ref_count := Function.update w.ref_count h (w.ref_count h - 1) }

/-- The static function `pixbuf_to_cogl_handle` (same text in both caches), as
far as handles go: a new texture handle with one reference, owned by the
caller.  Failure of the Cogl allocation is outside the model. -/
def pixbuf_to_cogl_handle (w : World) (pixbuf : GdkPixbuf) (add_padding : Bool) :
    World × CoglHandle :=
  let texture := w.n_handles + 1
  ({ w with
      ref_count := Function.update w.ref_count texture 1
      n_handles := texture
      created := w.created ++ [(texture, pixbuf, add_padding)] },
   texture)

/-- Clutter's `clutter_texture_set_cogl_texture`: refused unless the handle is a
texture; otherwise the actor takes a reference on the new handle, shows it,
and drops the reference on the handle it showed before. -/
def clutter_texture_set_cogl_texture (w : World) (texture : Nat) (cogl_tex : CoglHandle) :
    World :=
  if cogl_is_texture cogl_tex then
    let old := (w.actors texture).cogl_texture
    let w1 := cogl_handle_ref w cogl_tex
    let w2 := { w1 with
      actors := Function.update w1.actors texture
        { w1.actors texture with cogl_texture := cogl_tex } }
    cogl_handle_unref w2 old
  else w

/-- The call `g_object_set (texture, "opacity", value, NULL)`. -/
def set_opacity (w : World) (texture : Nat) (value : Nat) : World :=
  { w with actors := Function.update w.actors texture { w.actors texture with opacity := value } }

/-- The static function `create_default_texture` (same in both caches): a new
actor that keeps its aspect ratio and has opacity 0. -/
def create_default_texture (w : World) : World × Nat :=
  let texture := w.n_actors
  ({ w with
      actors := Function.update w.actors texture
        { cogl_texture := COGL_INVALID_HANDLE, opacity := 0, keep_aspect_ratio := true }
      n_actors := w.n_actors + 1 },
   texture)

/-- The static function `set_texture_cogl_texture` of `st-texture-cache.c`; the
loop body of `on_pixbuf_loaded` in `mx-texture-cache-pixbuf.c` is the same two
calls. -/
def set_texture_cogl_texture (w : World) (clutter_texture : Nat) (cogl_texture : CoglHandle) :
    World :=
  set_opacity (clutter_texture_set_cogl_texture w clutter_texture cogl_texture)
    clutter_texture 255

/-! ## Hash tables -/

/-- A `GHashTable` as an association list with at most one pair per key when
built by `g_hash_table_insert`. -/
abbrev GHashTable (K V : Type) := List (K × V)

/-- GLib's `g_hash_table_lookup`. -/
def g_hash_table_lookup {K V : Type} [DecidableEq K] : GHashTable K V → K → Option V
  | [], _ => none
  | (k', v) :: t, k => if k' = k then some v else g_hash_table_lookup t k

/-- GLib's `g_hash_table_insert`, on the table itself: the value of an existing
key is replaced, a new key is added.  The destroy notification for a replaced
value is issued by the caller's wrapper. -/
def g_hash_table_insert {K V : Type} [DecidableEq K] : GHashTable K V → K → V → GHashTable K V
  | [], k, v => [(k, v)]
  | (k', v') :: t, k, v =>
    if k' = k then (k, v) :: t else (k', v') :: g_hash_table_insert t k v

/-- GLib's `g_hash_table_remove`, on the table itself. -/
def g_hash_table_remove {K V : Type} [DecidableEq K] : GHashTable K V → K → GHashTable K V
  | [], _ => []
  | (k', v') :: t, k =>
    if k' = k then g_hash_table_remove t k else (k', v') :: g_hash_table_remove t k

/-- GLib's `g_hash_table_size`. -/
def g_hash_table_size {K V : Type} (t : GHashTable K V) : Nat := t.length

/-! ## Environment: GLib, GIO and the decoder -/

/-- The calls whose results depend on the file system, the working directory
and the image decoder. `is_uri` is `g_regex_match (priv->is_uri, uri, 0, NULL)`;
`g_file_get_uri` is `g_file_get_uri (g_file_new_for_path (path))`;
`impl_load_pixbuf_file uri aw ah` is the pixbuf returned by the static
function of that name and the `GError` it stores, if any. -/
structure Env where
  is_uri : String → Bool
  g_path_is_absolute : String → Bool
  g_get_current_dir : String
  g_build_filename : String → String → String
  g_filename_to_uri : String → Option String
  g_file_get_uri : String → String
  impl_load_pixbuf_file : String → Int → Int → Option GdkPixbuf × Option GError

/-- A way for a call to end other than by returning. -/
inductive Fault where
  | null_dereference
  | assertion_failed
  deriving DecidableEq, Repr

/-! ## The cache of `mx-texture-cache.c` -/

/-- The enumeration `MxTextureCachePolicy`. -/
inductive MxTextureCachePolicy where
  | MX_TEXTURE_CACHE_POLICY_NONE
  | MX_TEXTURE_CACHE_POLICY_FOREVER
  deriving DecidableEq, Repr

/-- The struct `MxTextureCacheMetaEntry`; `destroy_func` is `none` for a NULL
`GDestroyNotify`, otherwise a number naming the function. -/
structure MxTextureCacheMetaEntry where
  ident : Nat
  texture : CoglHandle
  destroy_func : Option Nat
  deriving DecidableEq, Repr

/-- The struct `MxTextureCacheItem`; `meta` is `none` for a NULL table. -/
structure MxTextureCacheItem where
  filename : String
  width : Int
  height : Int
  posX : Int
  posY : Int
  ptr : CoglHandle
  meta : Option (GHashTable Nat MxTextureCacheMetaEntry)
  deriving DecidableEq, Repr

/-- The struct `MxTextureCacheAsyncLoadData`, without the fields that
`mx-texture-cache.c` never sets (`checksum`, `icon`, `mimetype`, `colors`).
`width` and `height` are `guint`. -/
structure MxTextureCacheAsyncLoadData where
  policy : MxTextureCachePolicy
  key : String
  enforced_square : Bool
  width : Nat
  height : Nat
  textures : List Nat
  uri : Option String
  deriving DecidableEq, Repr

/-- The state of a `MxTextureCache`: `priv->cache`, `priv->outstanding_requests`
(request records by number), and the decode jobs handed to
`g_simple_async_result_run_in_thread` that have not completed yet. -/
structure MxTextureCache extends World where
  cache : GHashTable String MxTextureCacheItem
  outstanding_requests : GHashTable String Nat
  threads : List MxTextureCacheAsyncLoadData

/-- The static function `mx_texture_cache_item_new`: a zeroed item. -/
def mx_texture_cache_item_new : MxTextureCacheItem :=
  { filename := "", width := 0, height := 0, posX := 0, posY := 0,
    ptr := COGL_INVALID_HANDLE, meta := none }

/-- The static function `mx_texture_cache_destroy_meta_entry`. -/
def mx_texture_cache_destroy_meta_entry (w : World) (entry : MxTextureCacheMetaEntry) : World :=
  let w1 : World :=
    match entry.destroy_func with
    | some f => { w with notified := w.notified ++ [(f, entry.ident)] }
    | none => w
  if entry.texture ≠ COGL_INVALID_HANDLE then cogl_handle_unref w1 entry.texture else w1

/-- The static function `mx_texture_cache_item_free`; dropping the only
reference to the meta table destroys each of its entries. -/
def mx_texture_cache_item_free (w : World) (item : MxTextureCacheItem) : World :=
  let w1 := if item.ptr ≠ COGL_INVALID_HANDLE then cogl_handle_unref w item.ptr else w
  match item.meta with
  | some entries => entries.foldl (fun acc e => mx_texture_cache_destroy_meta_entry acc e.2) w1
  | none => w1

/-- The call `g_hash_table_insert (priv->cache, key, item)`: the table was
created with `mx_texture_cache_item_free` as its value destroy function, so an
item that is replaced is freed. -/
def cache_insert (s : MxTextureCache) (key : String) (item : MxTextureCacheItem) :
    MxTextureCache :=
  let w : World :=
    match g_hash_table_lookup s.cache key with
    | some old => mx_texture_cache_item_free s.toWorld old
    | none => s.toWorld
  { s with toWorld := w, cache := g_hash_table_insert s.cache key item }

/-- The static function `add_texture_to_cache`. -/
def add_texture_to_cache (s : MxTextureCache) (uri : String) (item : MxTextureCacheItem) :
    MxTextureCache :=
  cache_insert s uri item

/-- The static function `mx_texture_cache_resolve_relative_path`. -/
def mx_texture_cache_resolve_relative_path (env : Env) (path : String) : Option String :=
  if env.g_path_is_absolute path then none
  else some (env.g_build_filename env.g_get_current_dir path)

/-- The static function `mx_texture_cache_filename_to_uri`. -/
def mx_texture_cache_filename_to_uri (env : Env) (file : String) : Option String :=
  match mx_texture_cache_resolve_relative_path env file with
  | some new_file => env.g_filename_to_uri new_file
  | none => env.g_filename_to_uri file

/-- The static function `mx_texture_cache_get_item` of
`mx-texture-cache-compat.c`.  The item pointer it returns is given as the key
under which the item is stored, with the item.  `g_strconcat` stops at a NULL
`uri`, and `impl_load_pixbuf_file` returns NULL for a NULL `uri`. -/
def mx_texture_cache_get_item (env : Env) (s : MxTextureCache) (filename : String)
    (create_if_not_exists : Bool) : MxTextureCache × Option (String × MxTextureCacheItem) :=
  let uri := env.g_filename_to_uri filename
  let key := "compat:" ++ uri.getD ""
  let item := g_hash_table_lookup s.cache key
  let found := item.map (fun i => (key, i))
  let hit : Bool :=
    match item with
    | some i => decide (i.ptr ≠ COGL_INVALID_HANDLE)
    | none => false
  if hit then
    (s, found)
  else if create_if_not_exists then
    let s1 : MxTextureCache := { s with decodes := s.decodes + 1 }
    match uri with
    | none => (s1, found)
    | some u =>
      match (env.impl_load_pixbuf_file u (-1) (-1)).1 with
      | none => (s1, found)
      | some pixbuf =>
        let r := pixbuf_to_cogl_handle s1.toWorld pixbuf false
        let w := cogl_handle_ref r.1 r.2
        let new_item := { mx_texture_cache_item_new with ptr := r.2 }
        (add_texture_to_cache { s1 with toWorld := w } u new_item, some (u, new_item))
  else
    (s, found)

/-- The function `mx_texture_cache_get_cogl_texture`. -/
def mx_texture_cache_get_cogl_texture (env : Env) (s : MxTextureCache) (uri : String) :
    MxTextureCache × CoglHandle :=
  let r := mx_texture_cache_get_item env s uri true
  match r.2 with
  | some (_, item) => ({ r.1 with toWorld := cogl_handle_ref r.1.toWorld item.ptr }, item.ptr)
  | none => (r.1, COGL_INVALID_HANDLE)

/-- The function `mx_texture_cache_contains`. -/
def mx_texture_cache_contains (env : Env) (s : MxTextureCache) (uri : String) : Bool :=
  (mx_texture_cache_get_item env s uri false).2.isSome

/-- The function `mx_texture_cache_contains_meta`. -/
def mx_texture_cache_contains_meta (env : Env) (s : MxTextureCache) (uri : String)
    (ident : Nat) : Bool :=
  match (mx_texture_cache_get_item env s uri false).2 with
  | some (_, item) =>
    (match item.meta with
     | some entries => (g_hash_table_lookup entries ident).isSome
     | none => false)
  | none => false

/-- The argument `uri` of `mx_texture_cache_insert` and
`mx_texture_cache_insert_meta` after the step "Transform path to URI, if
necessary"; `none` when the function returns at that step. -/
def transform_path_to_uri (env : Env) (uri : String) : Option String :=
  if env.is_uri uri then some uri else mx_texture_cache_filename_to_uri env uri

/-- The function `mx_texture_cache_insert`. -/
def mx_texture_cache_insert (env : Env) (s : MxTextureCache) (uri : String)
    (texture : CoglHandle) : MxTextureCache :=
  if cogl_is_texture texture then
    match transform_path_to_uri env uri with
    | none => s
    | some uri1 =>
      let w := cogl_handle_ref s.toWorld texture
      let item := { mx_texture_cache_item_new with ptr := texture }
      add_texture_to_cache { s with toWorld := w } uri1 item
  else s

/-- The function `mx_texture_cache_insert_meta`.  The writes through the item
pointer (`item->meta = ...` and the insertion into that table) are written
back to the key under which the item is stored. -/
def mx_texture_cache_insert_meta (env : Env) (s : MxTextureCache) (uri : String)
    (ident : Nat) (texture : CoglHandle) (destroy_func : Option Nat) : MxTextureCache :=
  if cogl_is_texture texture then
    match transform_path_to_uri env uri with
    | none => s
    | some uri1 =>
      let r := mx_texture_cache_get_item env s uri1 false
      let located : MxTextureCache × String × MxTextureCacheItem :=
        match r.2 with
        | some (k, item) => (r.1, k, item)
        | none => (add_texture_to_cache r.1 uri1 mx_texture_cache_item_new, uri1,
                    mx_texture_cache_item_new)
      let s2 := located.1
      let k := located.2.1
      let item := located.2.2
      let entries := item.meta.getD []
      let w := cogl_handle_ref s2.toWorld texture
      let entry : MxTextureCacheMetaEntry :=
        { ident := ident, texture := texture, destroy_func := destroy_func }
      let w1 : World :=
        match g_hash_table_lookup entries ident with
        | some old => mx_texture_cache_destroy_meta_entry w old
        | none => w
      let item1 := { item with meta := some (g_hash_table_insert entries ident entry) }
      { s2 with toWorld := w1, cache := g_hash_table_insert s2.cache k item1 }
  else s

/-- The static function `mx_texture_cache_load_uri_sync_to_cogl_texture` of
`mx-texture-cache.c`.  The result is the state, the returned handle, and the
error stored through `error` (`none` when nothing is stored). -/
def mx_texture_cache_load_uri_sync_to_cogl_texture (env : Env) (s : MxTextureCache)
    (policy : MxTextureCachePolicy) (uri : String) (available_width available_height : Int) :
    MxTextureCache × CoglHandle × Option GError :=
  let texdata := COGL_INVALID_HANDLE
  let key := "uri:" ++ uri
  match g_hash_table_lookup s.cache key with
  | none =>
    let s1 : MxTextureCache := { s with decodes := s.decodes + 1 }
    let loaded := env.impl_load_pixbuf_file uri available_width available_height
    match loaded.1 with
    | none => (s1, texdata, loaded.2)
    | some pixbuf =>
      let r := pixbuf_to_cogl_handle s1.toWorld pixbuf false
      let texdata1 := r.2
      let s2 : MxTextureCache := { s1 with toWorld := r.1 }
      if policy = MxTextureCachePolicy.MX_TEXTURE_CACHE_POLICY_FOREVER then
        let item := { mx_texture_cache_item_new with ptr := texdata1 }
        let s3 : MxTextureCache := { s2 with toWorld := cogl_handle_ref s2.toWorld texdata1 }
        (cache_insert s3 key item, texdata1, loaded.2)
      else
        (s2, texdata1, loaded.2)
  | some _ =>
    ({ s with toWorld := cogl_handle_ref s.toWorld texdata }, texdata, none)

/-- The function `mx_texture_cache_load_file_to_cogl_texture`.  When the inner
call returns NULL the warning reads `error->message`; with `error` still NULL
that is a null dereference. -/
def mx_texture_cache_load_file_to_cogl_texture (env : Env) (s : MxTextureCache)
    (file_path : String) : Except Fault (MxTextureCache × CoglHandle) :=
  let uri := env.g_file_get_uri file_path
  let r := mx_texture_cache_load_uri_sync_to_cogl_texture env s
    MxTextureCachePolicy.MX_TEXTURE_CACHE_POLICY_FOREVER uri (-1) (-1)
  if r.2.1 = COGL_INVALID_HANDLE then
    match r.2.2 with
    | none => Except.error Fault.null_dereference
    | some _ => Except.ok (r.1, COGL_INVALID_HANDLE)
  else
    Except.ok (r.1, r.2.1)

/-- Conversion of an `int` to `guint` on assignment. -/
def to_guint (x : Int) : Nat := (x % 4294967296).toNat

/-- The static function `load_texture_async` of `mx-texture-cache.c`: the
request is handed to a worker thread; `on_pixbuf_loaded` runs when the thread
is done. -/
def load_texture_async (s : MxTextureCache) (data : MxTextureCacheAsyncLoadData) :
    MxTextureCache :=
  { s with threads := s.threads ++ [data] }

/-- The function `mx_texture_cache_load_uri_async`; the result is the state
and the actor returned. -/
def mx_texture_cache_load_uri_async (s : MxTextureCache) (uri : String)
    (available_width available_height : Int) : MxTextureCache × Nat :=
  let r := create_default_texture s.toWorld
  let texture := r.2
  let data : MxTextureCacheAsyncLoadData :=
    { policy := MxTextureCachePolicy.MX_TEXTURE_CACHE_POLICY_NONE
      key := "uri:" ++ uri
      enforced_square := false
      width := to_guint available_width
      height := to_guint available_height
      textures := [texture]
      uri := some uri }
  (load_texture_async { s with toWorld := r.1 } data, texture)

/-- What a `GSimpleAsyncResult` carries back from the worker thread. -/
structure AsyncResult where
  error : Option GError
  op_res : Option GdkPixbuf
  deriving DecidableEq, Repr

/-- The static function `load_pixbuf_thread` of `mx-texture-cache.c`; the
`guint` fields are converted back to `int` for the call. -/
def Mx.load_pixbuf_thread (env : Env) (data : MxTextureCacheAsyncLoadData) :
    Except Fault AsyncResult :=
  match data.uri with
  | some uri =>
    let loaded := env.impl_load_pixbuf_file uri (wrap_int data.width) (wrap_int data.height)
    match loaded.2 with
    | some error => Except.ok { error := some error, op_res := none }
    | none => Except.ok { error := none, op_res := loaded.1 }
  | none => Except.error Fault.assertion_failed

/-- The static function `load_pixbuf_async_finish` (same in both caches). -/
def load_pixbuf_async_finish (result : AsyncResult) : Option GdkPixbuf :=
  match result.error with
  | some _ => none
  | none => result.op_res

/-- The static function `on_pixbuf_loaded` of `mx-texture-cache-pixbuf.c`.
Releasing the memory of the request record is not part of the model. -/
def Mx.on_pixbuf_loaded (s : MxTextureCache) (result : AsyncResult)
    (data : MxTextureCacheAsyncLoadData) : MxTextureCache :=
  let s1 : MxTextureCache :=
    { s with outstanding_requests := g_hash_table_remove s.outstanding_requests data.key }
  match load_pixbuf_async_finish result with
  | none => s1
  | some pixbuf =>
    let r := pixbuf_to_cogl_handle s1.toWorld pixbuf data.enforced_square
    let texdata := r.2
    let s2 : MxTextureCache := { s1 with toWorld := r.1 }
    let s3 : MxTextureCache :=
      if data.policy ≠ MxTextureCachePolicy.MX_TEXTURE_CACHE_POLICY_NONE then
        if (g_hash_table_lookup s2.cache data.key).isNone then
          add_texture_to_cache { s2 with toWorld := cogl_handle_ref s2.toWorld texdata }
            data.key { mx_texture_cache_item_new with ptr := texdata }
        else s2
      else s2
    let w4 := data.textures.foldl (fun w texture => set_texture_cogl_texture w texture texdata)
      s3.toWorld
    let w5 := if texdata ≠ COGL_INVALID_HANDLE then cogl_handle_unref w4 texdata else w4
    { s3 with toWorld := w5 }

/-- One dispatched decode job run to its end: the worker thread
(`load_pixbuf_thread`, one run of the decoder) and then the completion
callback `on_pixbuf_loaded` on the main loop. -/
def Mx.complete_job (env : Env) (s : MxTextureCache) (data : MxTextureCacheAsyncLoadData) :
    Except Fault MxTextureCache :=
  match Mx.load_pixbuf_thread env data with
  | Except.error f => Except.error f
  | Except.ok result =>
    Except.ok (Mx.on_pixbuf_loaded
      { s with decodes := s.decodes + 1, threads := s.threads.erase data } result data)

/-! ## The cache of `st-texture-cache.c` -/

/-- The enumeration `MxStTextureCachePolicy`. -/
inductive MxStTextureCachePolicy where
  | MX_ST_TEXTURE_CACHE_POLICY_NONE
  | MX_ST_TEXTURE_CACHE_POLICY_FOREVER
  deriving DecidableEq, Repr

/-- The struct `AsyncTextureLoadData` of `st-texture-cache.c`, without the icon
fields (`icon`, `colors`), which no function of the file sets, and
`checksum`. -/
structure AsyncTextureLoadData where
  policy : MxStTextureCachePolicy
  key : String
  thumbnail : Bool
  enforced_square : Bool
  width : Nat
  height : Nat
  textures : List Nat
  mimetype : Option String
  uri : Option String
  deriving DecidableEq, Repr

/-- The state of a `MxStTextureCache`: `priv->keyed_cache` (key to texture
handle), `priv->outstanding_requests`, and the dispatched decode jobs. -/
structure MxStTextureCache extends World where
  keyed_cache : GHashTable String CoglHandle
  outstanding_requests : GHashTable String Nat
  threads : List AsyncTextureLoadData

/-- The call `g_hash_table_insert (cache->priv->keyed_cache, key, texdata)`: the
table was created with `cogl_handle_unref` as its value destroy function. -/
def keyed_cache_insert (s : MxStTextureCache) (key : String) (texdata : CoglHandle) :
    MxStTextureCache :=
  let w : World :=
    match g_hash_table_lookup s.keyed_cache key with
    | some old => cogl_handle_unref s.toWorld old
    | none => s.toWorld
  { s with toWorld := w, keyed_cache := g_hash_table_insert s.keyed_cache key texdata }

/-- The static function `mx_st_texture_cache_load_uri_sync_to_cogl_texture`.
The result is the state, the returned handle, and the error stored through
`error` (`none` when nothing is stored).  A lookup that finds no key and one
that finds a stored NULL both give NULL. -/
def mx_st_texture_cache_load_uri_sync_to_cogl_texture (env : Env) (s : MxStTextureCache)
    (policy : MxStTextureCachePolicy) (uri : String) (available_width available_height : Int) :
    MxStTextureCache × CoglHandle × Option GError :=
  let key := "uri:" ++ uri
  let texdata := (g_hash_table_lookup s.keyed_cache key).getD COGL_INVALID_HANDLE
  if texdata = COGL_INVALID_HANDLE then
    let s1 : MxStTextureCache := { s with decodes := s.decodes + 1 }
    let loaded := env.impl_load_pixbuf_file uri available_width available_height
    match loaded.1 with
    | none => (s1, texdata, loaded.2)
    | some pixbuf =>
      let r := pixbuf_to_cogl_handle s1.toWorld pixbuf false
      let texdata1 := r.2
      let s2 : MxStTextureCache := { s1 with toWorld := r.1 }
      if policy = MxStTextureCachePolicy.MX_ST_TEXTURE_CACHE_POLICY_FOREVER then
        let s3 : MxStTextureCache := { s2 with toWorld := cogl_handle_ref s2.toWorld texdata1 }
        (keyed_cache_insert s3 key texdata1, texdata1, loaded.2)
      else
        (s2, texdata1, loaded.2)
  else
    ({ s with toWorld := cogl_handle_ref s.toWorld texdata }, texdata, none)

/-- The static function `on_pixbuf_loaded` of `st-texture-cache.c`. -/
def St.on_pixbuf_loaded (s : MxStTextureCache) (result : AsyncResult)
    (data : AsyncTextureLoadData) : MxStTextureCache :=
  let s1 : MxStTextureCache :=
    { s with outstanding_requests := g_hash_table_remove s.outstanding_requests data.key }
  match load_pixbuf_async_finish result with
  | none => s1
  | some pixbuf =>
    let r := pixbuf_to_cogl_handle s1.toWorld pixbuf data.enforced_square
    let texdata := r.2
    let s2 : MxStTextureCache := { s1 with toWorld := r.1 }
    let s3 : MxStTextureCache :=
      if data.policy ≠ MxStTextureCachePolicy.MX_ST_TEXTURE_CACHE_POLICY_NONE then
        if (g_hash_table_lookup s2.keyed_cache data.key).isNone then
          keyed_cache_insert { s2 with toWorld := cogl_handle_ref s2.toWorld texdata }
            data.key texdata
        else s2
      else s2
    let w4 := data.textures.foldl (fun w texture => set_texture_cogl_texture w texture texdata)
      s3.toWorld
    let w5 := if texdata ≠ COGL_INVALID_HANDLE then cogl_handle_unref w4 texdata else w4
    { s3 with toWorld := w5 }

/-! ## A concrete environment and initial states, for worked examples -/

/-- A character of the class `[a-zA-Z0-9+.-]`. -/
def scheme_char (c : Char) : Bool := c.isAlphanum || c == '+' || c == '.' || c == '-'

/-- A match of the regular expression `^([a-zA-Z0-9+.-]+)://.*` that
`mx_texture_cache_init` compiles into `priv->is_uri`: a non-empty run of
scheme characters followed by `://`. -/
def is_uri_regex_match (s : String) : Bool :=
  let scheme := s.data.takeWhile scheme_char
  !scheme.isEmpty && "://".data.isPrefixOf (s.data.dropWhile scheme_char)

/-- A pixbuf of 64 by 48 pixels with an alpha channel. -/
def sample_pixbuf : GdkPixbuf :=
  { width := 64, height := 48, has_alpha := true, rowstride := 256, pixels := 1 }

/-- An environment with working directory `/home/user` in which the only
readable image is `/tmp/a.png`.  `g_filename_to_uri` accepts absolute paths
only, as GLib does, and is given for paths that need no escaping. -/
def sample_env : Env :=
  { is_uri := is_uri_regex_match
    g_path_is_absolute := fun p => p.data.head? == some '/'
    g_get_current_dir := "/home/user"
    g_build_filename := fun a b => a ++ "/" ++ b
    g_filename_to_uri := fun p => if p.data.head? == some '/' then some ("file://" ++ p) else none
    g_file_get_uri := fun p =>
      if p.data.head? == some '/' then "file://" ++ p else "file:///home/user/" ++ p
    impl_load_pixbuf_file := fun uri _ _ =>
      if uri = "file:///tmp/a.png" then (some sample_pixbuf, none)
      else (none, some "Error opening file") }

/-- The state of the process before any texture or actor exists. -/
def World.initial : World :=
  { ref_count := fun _ => 0
    n_handles := 0
    created := []
    actors := fun _ => { cogl_texture := COGL_INVALID_HANDLE, opacity := 255,
                         keep_aspect_ratio := false }
    n_actors := 0
    decodes := 0
    notified := [] }

/-- The function `mx_texture_cache_init`: empty tables. -/
def mx_texture_cache_init (w : World) : MxTextureCache :=
  { toWorld := w, cache := [], outstanding_requests := [], threads := [] }

/-- The function `mx_st_texture_cache_init`: empty tables. -/
def mx_st_texture_cache_init (w : World) : MxStTextureCache :=
  { toWorld := w, keyed_cache := [], outstanding_requests := [], threads := [] }

/-- A process state with two textures, handles 1 and 2, each with the one
reference its creator holds. -/
def sample_world : World :=
  (pixbuf_to_cogl_handle (pixbuf_to_cogl_handle World.initial sample_pixbuf false).1
    sample_pixbuf false).1

/-- The number of MetaEntries of an item whose texture is the handle `h`: the
references on `h` that the item owns besides the one of `ptr`. -/
def meta_refs (item : MxTextureCacheItem) (h : CoglHandle) : Nat :=
  match item.meta with
  | some entries => entries.countP (fun e => e.2.texture = h)
  | none => 0

/-- The references on the handle `h` that an item owns, that is, those that
`mx_texture_cache_item_free` releases: one if `h` is its base texture `ptr`,
and one for each MetaEntry whose texture is `h`. -/
def owned_refs (item : MxTextureCacheItem) (h : CoglHandle) : Nat :=
  (if h = item.ptr then 1 else 0) + meta_refs item h

/-- The empty cache over `sample_world` after
`mx_texture_cache_insert (cache, "file:///tmp/a.png", 1)`. -/
def sample_cache_inserted : MxTextureCache :=
  mx_texture_cache_insert sample_env (mx_texture_cache_init sample_world) "file:///tmp/a.png" 1

/-- The cache `sample_cache_inserted` after
`mx_texture_cache_insert_meta (cache, "file:///tmp/a.png", 7, 1, NULL)`. -/
def sample_cache_inserted_meta : MxTextureCache :=
  mx_texture_cache_insert_meta sample_env sample_cache_inserted "file:///tmp/a.png" 7 1 none

/-- A process state with two default actors, 0 and 1, and no texture yet. -/
def sample_waiting_world : World :=
  (create_default_texture (create_default_texture World.initial).1).1

/-- A request of `mx-texture-cache.c` with policy FOREVER on which the actors 0
and 1 wait. -/
def sample_request : MxTextureCacheAsyncLoadData :=
  { policy := MxTextureCachePolicy.MX_TEXTURE_CACHE_POLICY_FOREVER
    key := "uri:file:///tmp/a.png"
    enforced_square := false
    width := 64
    height := 64
    textures := [0, 1]
    uri := some "file:///tmp/a.png" }

/-- A thumbnail request as `mx_st_texture_cache_load_thumbnail` builds it, on
which the actor 0 waits. -/
def sample_thumbnail_request : AsyncTextureLoadData :=
  { policy := MxStTextureCachePolicy.MX_ST_TEXTURE_CACHE_POLICY_FOREVER
    key := "thumbnail-uri:uri=file:///tmp/a.png,size=64"
    thumbnail := true
    enforced_square := true
    width := 64
    height := 64
    textures := [0]
    mimetype := some "image/png"
    uri := some "file:///tmp/a.png" }

/-! ## `impl_load_pixbuf_file` and `decode_image` of `st-texture-cache.c` -/

/-- A byte buffer. -/
abbrev Bytes := List Nat

/-- The GLib, GIO and GdkPixbuf calls behind `impl_load_pixbuf_file`.
`decode_with_mime_type mime data` stands for
`gdk_pixbuf_loader_new_with_mime_type`, `gdk_pixbuf_loader_write`,
`gdk_pixbuf_loader_close` and `gdk_pixbuf_loader_get_pixbuf` in a row;
`g_file_load_contents uri` for `g_file_new_for_uri` and `g_file_load_contents`;
`impl_load_pixbuf_data` is the result of the static function of that name (the
pixbuf and the `GError` it stores, if any). -/
structure Decoder where
  g_uri_unescape_string : String → Option String
  g_base64_decode : String → Option Bytes
  decode_with_mime_type : String → Bytes → Except GError GdkPixbuf
  g_file_load_contents : String → Except GError Bytes
  impl_load_pixbuf_data : Bytes → Int → Int → Option GdkPixbuf × Option GError

/-- GLib's `g_str_has_prefix (str, pfx)`. -/
def g_str_has_prefix (str pfx : String) : Bool := pfx.data.isPrefixOf str.data

/-- The table `formats` of `decode_image`: data-URI prefix and mime type. -/
def data_uri_formats : List (String × String) :=
  [("data:image/x-icon;base64,", "image/x-icon"), ("data:image/png;base64,", "image/png")]

/-- The static function `decode_image` of `st-texture-cache.c`.  The loop keeps
`res` and its own local `error`; the error is only logged and freed, the
result is `res`. -/
def St.decode_image (d : Decoder) (val : String) : Option GdkPixbuf :=
  (data_uri_formats.foldl
    (fun (acc : Option GdkPixbuf × Option GError) (f : String × String) =>
      if g_str_has_prefix val f.1 then
        match (d.g_uri_unescape_string (String.mk (val.data.drop f.1.length))).bind
            d.g_base64_decode with
        | some data =>
          (match d.decode_with_mime_type f.2 data with
           | Except.ok res => (some res, acc.2)
           | Except.error e => (acc.1, some e))
        | none => acc
      else acc)
    (none, none)).1

/-- The static function `impl_load_pixbuf_file` of `st-texture-cache.c`: the
pixbuf returned and the error stored through `error` (`none` when nothing is
stored).  The `data:` branch returns without touching `error`. -/
def St.impl_load_pixbuf_file (d : Decoder) (uri : String)
    (available_width available_height : Int) : Option GdkPixbuf × Option GError :=
  if g_str_has_prefix uri "data:" then
    (St.decode_image d uri, none)
  else
    match d.g_file_load_contents uri with
    | Except.ok contents => d.impl_load_pixbuf_data contents available_width available_height
    | Except.error e => (none, some e)

/-- The function `mx_st_texture_cache_load_uri_sync`: the state, the actor
returned (`none` for NULL) and the error stored through `error`. -/
def mx_st_texture_cache_load_uri_sync (env : Env) (s : MxStTextureCache)
    (policy : MxStTextureCachePolicy) (uri : String) (available_width available_height : Int) :
    MxStTextureCache × Option Nat × Option GError :=
  let r := mx_st_texture_cache_load_uri_sync_to_cogl_texture env s policy uri
    available_width available_height
  let texdata := r.2.1
  if texdata = COGL_INVALID_HANDLE then
    (r.1, none, r.2.2)
  else
    let c := create_default_texture r.1.toWorld
    let w := set_texture_cogl_texture c.1 c.2 texdata
    ({ r.1 with toWorld := cogl_handle_unref w texdata }, some c.2, r.2.2)

/-- A decoder in which the file `file:///tmp/a.png` holds the four bytes that
decode to `sample_pixbuf`, nothing else decodes, and the base64 text `AAEC`
stands for the bytes 0, 1, 2.  `g_uri_unescape_string` is given for strings
without escapes. -/
def sample_decoder : Decoder :=
  { g_uri_unescape_string := fun s => some s
    g_base64_decode := fun s => if s = "AAEC" then some [0, 1, 2] else none
    decode_with_mime_type := fun _ data =>
      if data = [137, 80, 78, 71] then Except.ok sample_pixbuf
      else Except.error "Unrecognized image file format"
    g_file_load_contents := fun uri =>
      if uri = "file:///tmp/a.png" then Except.ok [137, 80, 78, 71]
      else Except.error "Error opening file"
    impl_load_pixbuf_data := fun data _ _ =>
      if data = [137, 80, 78, 71] then (some sample_pixbuf, none)
      else (none, some "Unrecognized image file format") }

/-- The environment `sample_env` with `impl_load_pixbuf_file` of
`st-texture-cache.c` over `sample_decoder` as its decoder. -/
def sample_env_with_decoder : Env :=
  { sample_env with impl_load_pixbuf_file := St.impl_load_pixbuf_file sample_decoder }

/-! ## `mx_texture_cache_load` and `mx_st_texture_cache_load` -/

/-- A `MxTextureCacheLoader` callback with its user data: given the cache and
the key it returns the cache as it leaves it, a texture handle (or
`COGL_INVALID_HANDLE`) and the error it stores, if any. -/
abbrev MxTextureCacheLoader :=
  MxTextureCache → String → MxTextureCache × CoglHandle × Option GError

/-- A `MxStTextureCacheLoader` callback with its user data. -/
abbrev MxStTextureCacheLoader :=
  MxStTextureCache → String → MxStTextureCache × CoglHandle × Option GError

/-- The function `mx_texture_cache_load`.  The parameter `policy` is not read
by the body. -/
def mx_texture_cache_load (s : MxTextureCache) (key : String)
    (_policy : MxTextureCachePolicy) (load : MxTextureCacheLoader) :
    MxTextureCache × CoglHandle × Option GError :=
  match g_hash_table_lookup s.cache key with
  | some item => (s, item.ptr, none)
  | none =>
    let r := load s key
    let texture := r.2.1
    if texture ≠ COGL_INVALID_HANDLE then
      let item := { mx_texture_cache_item_new with ptr := texture }
      (add_texture_to_cache r.1 key item, texture, r.2.2)
    else
      (r.1, COGL_INVALID_HANDLE, r.2.2)

/-- The function `mx_st_texture_cache_load`.  The parameter `policy` is not
read by the body. -/
def mx_st_texture_cache_load (s : MxStTextureCache) (key : String)
    (_policy : MxStTextureCachePolicy) (load : MxStTextureCacheLoader) :
    MxStTextureCache × CoglHandle × Option GError :=
  let texture := (g_hash_table_lookup s.keyed_cache key).getD COGL_INVALID_HANDLE
  if texture = COGL_INVALID_HANDLE then
    let r := load s key
    let texture1 := r.2.1
    if texture1 ≠ COGL_INVALID_HANDLE then
      let s1 := keyed_cache_insert r.1 key texture1
      ({ s1 with toWorld := cogl_handle_ref s1.toWorld texture1 }, texture1, r.2.2)
    else
      (r.1, COGL_INVALID_HANDLE, r.2.2)
  else
    ({ s with toWorld := cogl_handle_ref s.toWorld texture }, texture, none)

/-- A loader for `mx_texture_cache_load` that converts `sample_pixbuf` into a
new texture and leaves the cache alone. -/
def sample_loader : MxTextureCacheLoader := fun s _ =>
  ({ s with toWorld := (pixbuf_to_cogl_handle s.toWorld sample_pixbuf false).1 },
   (pixbuf_to_cogl_handle s.toWorld sample_pixbuf false).2, none)

/-- A loader for `mx_st_texture_cache_load` that converts `sample_pixbuf` into a
new texture and leaves the cache alone. -/
def sample_st_loader : MxStTextureCacheLoader := fun s _ =>
  ({ s with toWorld := (pixbuf_to_cogl_handle s.toWorld sample_pixbuf false).1 },
   (pixbuf_to_cogl_handle s.toWorld sample_pixbuf false).2, none)

/-! ## `on_image_size_prepared` and the size of the decoded image -/

/-- The struct `Dimensions`. -/
structure Dimensions where
  width : Int
  height : Int
  deriving DecidableEq, Repr

/-- The callback `on_image_size_prepared` of `mx-texture-cache-pixbuf.c`: the
size it passes to `gdk_pixbuf_loader_set_size`, or `none` when it does not
call it.  The locals `scaled_width` and `scaled_height` are uninitialised and
only read after `compute_pixbuf_scale` has set them; they start as 0 here. -/
def Mx.on_image_size_prepared (width height : Int) (data : Dimensions) : Option (Int × Int) :=
  let available_width := data.width
  let available_height := data.height
  let r := Mx.compute_pixbuf_scale width height available_width available_height 0 0
  if r.1 then some (r.2.1, r.2.2) else none

/-- The callback `on_image_size_prepared` of `st-texture-cache.c` (same text). -/
def St.on_image_size_prepared (width height : Int) (data : Dimensions) : Option (Int × Int) :=
  let available_width := data.width
  let available_height := data.height
  let r := St.compute_pixbuf_scale width height available_width available_height 0 0
  if r.1 then some (r.2.1, r.2.2) else none

/-- The size at which a `GdkPixbufLoader` decodes an image of natural size
`width` by `height`: the size set during "size-prepared", if one was set,
otherwise the natural size. -/
def loader_decode_size (width height : Int) (requested : Option (Int × Int)) : Int × Int :=
  requested.getD (width, height)

/-! ## Cache keys -/

/-- The macro `CACHE_PREFIX_GICON`. -/
def CACHE_PREFIX_GICON : String := "gicon:"

/-- The macro `CACHE_PREFIX_URI`. -/
def CACHE_PREFIX_URI : String := "uri:"

/-- The macro `CACHE_PREFIX_URI_FOR_CAIRO`. -/
def CACHE_PREFIX_URI_FOR_CAIRO : String := "uri-for-cairo:"

/-- The macro `CACHE_PREFIX_THUMBNAIL_URI`. -/
def CACHE_PREFIX_THUMBNAIL_URI : String := "thumbnail-uri:"

/-- The macro `CACHE_PREFIX_RAW_CHECKSUM`. -/
def CACHE_PREFIX_RAW_CHECKSUM : String := "raw-checksum:"

/-- The macro `CACHE_PREFIX_COMPRESSED_CHECKSUM`. -/
def CACHE_PREFIX_COMPRESSED_CHECKSUM : String := "compressed-checksum:"

/-- The macro `CACHE_PREFIX_COMPAT` of `mx-texture-cache-compat.c`. -/
def CACHE_PREFIX_COMPAT : String := "compat:"

/-- The character of a decimal digit. -/
def digit_char (d : Nat) : Char := Char.ofNat (48 + d)

/-- The decimal digits of a natural number, most significant first; `0` is
the one digit 0. -/
def decimal_nat (n : Nat) : List Char :=
  if n = 0 then ['0'] else (Nat.digits 10 n).reverse.map digit_char

/-- The characters `printf` writes for `%d`: a minus sign for a negative
number, then the decimal digits of the magnitude. -/
def decimal_chars (n : Int) : List Char :=
  if n < 0 then '-' :: decimal_nat n.natAbs else decimal_nat n.natAbs

/-- The text `printf` writes for `%d`. -/
def decimal (n : Int) : String := String.mk (decimal_chars n)

/-- What a cache key is built from, one constructor per namespace: the URI of
a synchronous or asynchronous load, of a cairo-surface load, of the compat
lookup in `mx_texture_cache_get_item`; the checksum of
`mx_st_texture_cache_load_from_raw`; checksum and size of
`mx_st_texture_cache_load_from_data`; URI and size of
`mx_st_texture_cache_load_thumbnail`. -/
inductive KeyRequest where
  | uri (u : String)
  | uri_for_cairo (u : String)
  | compat (u : String)
  | raw_checksum (checksum : String)
  | compressed_checksum (checksum : String) (size : Int)
  | thumbnail_uri (u : String) (size : Int)
  deriving DecidableEq, Repr

/-- The key built for a request: `g_strconcat (CACHE_PREFIX_URI, uri, NULL)`,
`g_strconcat (CACHE_PREFIX_URI_FOR_CAIRO, uri, NULL)`,
`g_strconcat (CACHE_PREFIX_COMPAT, uri, NULL)`,
`g_strdup_printf (CACHE_PREFIX_RAW_CHECKSUM "checksum=%s", checksum)`,
`g_strdup_printf (CACHE_PREFIX_COMPRESSED_CHECKSUM "checksum=%s,size=%d", checksum, size)`
and `g_strdup_printf (CACHE_PREFIX_THUMBNAIL_URI "uri=%s,size=%d", uri, size)`. -/
def cache_key : KeyRequest → String
  | KeyRequest.uri u => CACHE_PREFIX_URI ++ u
  | KeyRequest.uri_for_cairo u => CACHE_PREFIX_URI_FOR_CAIRO ++ u
  | KeyRequest.compat u => CACHE_PREFIX_COMPAT ++ u
  | KeyRequest.raw_checksum checksum => CACHE_PREFIX_RAW_CHECKSUM ++ "checksum=" ++ checksum
  | KeyRequest.compressed_checksum checksum size =>
    CACHE_PREFIX_COMPRESSED_CHECKSUM ++ "checksum=" ++ checksum ++ ",size=" ++ decimal size
  | KeyRequest.thumbnail_uri u size =>
    CACHE_PREFIX_THUMBNAIL_URI ++ "uri=" ++ u ++ ",size=" ++ decimal size

/-! ## `mx_st_texture_cache_load_from_raw` -/

/-- Cogl's `cogl_texture_new_from_data (width, height, COGL_TEXTURE_NONE, format,
COGL_PIXEL_FORMAT_ANY, rowstride, data)`, as far as handles go: a new texture
handle with one reference; the log keeps the parameters it was created with
(`has_alpha` stands for the format, RGBA_8888 or RGB_888, and `data` is a
number naming the contents of the byte buffer). -/
def cogl_texture_new_from_data (w : World) (width height : Int) (has_alpha : Bool)
    (rowstride : Int) (data : Nat) : World × CoglHandle :=
  let texture := w.n_handles + 1
  ({ w with
      ref_count := Function.update w.ref_count texture 1
      n_handles := texture
      created := w.created ++
        [(texture, { width := width, height := height, has_alpha := has_alpha,
                     rowstride := rowstride, pixels := data }, false)] },
   texture)

/-- The function `mx_st_texture_cache_load_from_raw`; the result is the state
and the actor returned.  The buffer `(data, len)` is a number naming its
contents and `g_compute_checksum_for_data` gives its SHA-1 text.  The call
`clutter_actor_set_size` is not part of the model. -/
def mx_st_texture_cache_load_from_raw (g_compute_checksum_for_data : Nat → String)
    (s : MxStTextureCache) (data : Nat) (has_alpha : Bool) (width height rowstride : Int) :
    MxStTextureCache × Nat :=
  let c := create_default_texture s.toWorld
  let texture := c.2
  let s1 : MxStTextureCache := { s with toWorld := c.1 }
  let checksum := g_compute_checksum_for_data data
  let key := CACHE_PREFIX_RAW_CHECKSUM ++ "checksum=" ++ checksum
  let texdata := (g_hash_table_lookup s1.keyed_cache key).getD COGL_INVALID_HANDLE
  if texdata = COGL_INVALID_HANDLE then
    let r := cogl_texture_new_from_data s1.toWorld width height has_alpha rowstride data
    let s2 := keyed_cache_insert { s1 with toWorld := r.1 } key r.2
    ({ s2 with toWorld := set_texture_cogl_texture s2.toWorld texture r.2 }, texture)
  else
    ({ s1 with toWorld := set_texture_cogl_texture s1.toWorld texture texdata }, texture)

/-- A checksum function for worked examples: buffer 7 and every other buffer
get two different SHA-1 texts. -/
def sample_checksum (data : Nat) : String :=
  if data = 7 then "2fd4e1c67a2d28fced849ee1bb76e7391b93eb12"
  else "da39a3ee5e6b4b0d3255bfef95601890afd80709"

/-! ## The texture built by `pixbuf_to_cogl_handle` -/

/-- GLib's `MAX(a, b)`, that is `((a) > (b)) ? (a) : (b)`. -/
def MAX (a b : Int) : Int := if a > b then a else b

/-- The texture `pixbuf_to_cogl_handle` builds: its width and height, and the
region of it that the pixels of the pixbuf are written to (`dst_x`, `dst_y`,
`dst_width`, `dst_height` of `cogl_texture_set_region`; the whole texture when
it is created from the data directly), and whether the data is read as
RGBA_8888 or RGB_888. -/
structure TextureLayout where
  width : Int
  height : Int
  dst_x : Int
  dst_y : Int
  dst_width : Int
  dst_height : Int
  has_alpha : Bool
  deriving DecidableEq, Repr

/-- The static function `pixbuf_to_cogl_handle` (same text in
`mx-texture-cache-pixbuf.c` and `st-texture-cache.c`), as far as the geometry
of the texture goes.  `size` is a `guint`, so `size - width` and the division
by 2 are unsigned, and the quotients are passed on as `int`. -/
def pixbuf_to_cogl_handle_layout (pixbuf : GdkPixbuf) (add_padding : Bool) : TextureLayout :=
  let width := pixbuf.width
  let height := pixbuf.height
  let size : Nat := to_guint (MAX width height)
  if !add_padding || width = height then
    { width := width, height := height, dst_x := 0, dst_y := 0,
      dst_width := width, dst_height := height, has_alpha := pixbuf.has_alpha }
  else
    { width := size, height := size,
      dst_x := wrap_int ((to_guint ((size : Int) - width) / 2 : Nat) : Int),
      dst_y := wrap_int ((to_guint ((size : Int) - height) / 2 : Nat) : Int),
      dst_width := width, dst_height := height, has_alpha := pixbuf.has_alpha }

/-! ## The candidate size of `compute_pixbuf_scale` -/

/-- The pair `(scaled_width, scaled_height)` that `compute_pixbuf_scale`
computes before it decides whether to scale: the `if` / `else if` chain on the
available sizes (the same text in `mx-texture-cache-pixbuf.c` and in
`st-texture-cache.c`). -/
def compute_pixbuf_scale_candidate (width height available_width available_height : Int) :
    Int × Int :=
  if available_width ≥ 0 ∧ available_height ≥ 0 then
    (MIN available_width (int_div (int_mul available_height width) height),
     MIN available_height (int_div (int_mul available_width height) width))
  else if available_width ≥ 0 then
    (available_width, int_div (int_mul available_width height) width)
  else if available_height ≥ 0 then
    (int_div (int_mul available_height width) height, available_height)
  else
    (0, 0)

/-! ## Sliced images (`st-texture-cache.c`) -/

/-- A pixbuf made by `gdk_pixbuf_new_subpixbuf`: the rectangle of the source
image that it shows. -/
structure SubPixbuf where
  src_x : Int
  src_y : Int
  width : Int
  height : Int
  deriving DecidableEq, Repr

/-- The call `gdk_pixbuf_new_subpixbuf (pix, src_x, src_y, width, height)` on an
image of `pix_width` by `pix_height` pixels: GdkPixbuf returns NULL unless the
rectangle lies inside the image. -/
def gdk_pixbuf_new_subpixbuf (pix_width pix_height src_x src_y width height : Int) :
    Option SubPixbuf :=
  if src_x ≥ 0 ∧ src_x + width ≤ pix_width ∧ src_y ≥ 0 ∧ src_y + height ≤ pix_height then
    some { src_x := src_x, src_y := src_y, width := width, height := height }
  else
    none

/-- The inner loop of `load_sliced_image`,
`for (x = 0; x < width; x += data->grid_height)`, started at `x` with the list
`res` built so far. `none` means that the loop has not ended after `fuel`
iterations; a failed `g_assert (pixbuf != NULL)` is the fault. -/
def load_sliced_image_row (width height grid_width grid_height y : Int) :
    Nat → Int → List SubPixbuf → Option (Except Fault (List SubPixbuf))
  | 0, x, res => if x < width then none else some (.ok res)
  | fuel + 1, x, res =>
    if x < width then
      match gdk_pixbuf_new_subpixbuf width height x y grid_width grid_height with
      | none => some (.error Fault.assertion_failed)
      | some pixbuf =>
        load_sliced_image_row width height grid_width grid_height y fuel (x + grid_height)
          (res ++ [pixbuf])
    else
      some (.ok res)

/-- The outer loop of `load_sliced_image`,
`for (y = 0; y < height; y += data->grid_width)`, started at `y`. -/
def load_sliced_image_rows (width height grid_width grid_height : Int) :
    Nat → Int → List SubPixbuf → Option (Except Fault (List SubPixbuf))
  | 0, y, res => if y < height then none else some (.ok res)
  | fuel + 1, y, res =>
    if y < height then
      match load_sliced_image_row width height grid_width grid_height y (fuel + 1) 0 res with
      | none => none
      | some (.error e) => some (.error e)
      | some (.ok res') =>
        load_sliced_image_rows width height grid_width grid_height fuel (y + grid_width) res'
    else
      some (.ok res)

/-- The thread function `load_sliced_image` of `st-texture-cache.c`. `pix` is
the size of the image that `gdk_pixbuf_new_from_file` decoded (`none` when it
failed: the function returns with no result list). The counters are
unbounded integers. -/
def load_sliced_image (fuel : Nat) (pix : Option (Int × Int)) (grid_width grid_height : Int) :
    Option (Except Fault (List SubPixbuf)) :=
  match pix with
  | none => some (.ok [])
  | some (width, height) =>
    load_sliced_image_rows width height grid_width grid_height fuel 0 []

/-- The division of a `width` by `height` image by the grid as the
specification states it: `(width / grid_width) * (height / grid_height)`
rectangles in row-major order, the one of column `i` and row `j` at
`(i * grid_width, j * grid_height)`. -/
def spec_load_sliced_image (width height grid_width grid_height : Int) : List SubPixbuf :=
  (List.range (height / grid_height).toNat).flatMap fun (j : Nat) =>
    (List.range (width / grid_width).toNat).map fun (i : Nat) =>
      { src_x := (i : Int) * grid_width, src_y := (j : Int) * grid_height,
        width := grid_width, height := grid_height }

/-! ## `impl_load_pixbuf_data`: decoding with the embedded orientation -/

/-- The bytes given to `impl_load_pixbuf_data`, as far as a `GdkPixbufLoader`
depends on them: the natural size of the image, whether its embedded
orientation is a quarter turn (90 or 270 degrees), and the error of
`gdk_pixbuf_loader_write` / `gdk_pixbuf_loader_close` when the bytes do not
decode. -/
structure EncodedImage where
  width : Int
  height : Int
  quarter_turn : Bool
  failure : Option GError
  deriving DecidableEq, Repr

/-- One run of a `GdkPixbufLoader` over the bytes (`gdk_pixbuf_loader_write`,
`gdk_pixbuf_loader_close`, `gdk_pixbuf_loader_get_pixbuf`) with a
"size-prepared" handler: the size of the pixbuf, or the error. The loader
decodes at exactly the size the handler chose. -/
def gdk_pixbuf_loader_run (image : EncodedImage)
    (size_prepared : Int → Int → Option (Int × Int)) : Except GError (Int × Int) :=
  match image.failure with
  | some e => .error e
  | none => .ok (loader_decode_size image.width image.height
      (size_prepared image.width image.height))

/-- The size of `gdk_pixbuf_apply_embedded_orientation (pixbuf)`: a quarter turn
exchanges width and height, any other orientation keeps them. -/
def gdk_pixbuf_apply_embedded_orientation (image : EncodedImage) (size : Int × Int) :
    Int × Int :=
  if image.quarter_turn then (size.2, size.1) else size

/-- What a call of `impl_load_pixbuf_data` leaves: the size of the returned
pixbuf (`none` for NULL), the `GError` it set, and the number of loaders it
ran over the bytes. -/
structure LoadedPixbufData where
  pixbuf : Option (Int × Int)
  error : Option GError
  loader_runs : Nat
  deriving DecidableEq, Repr

/-- The function `impl_load_pixbuf_data` of `mx-texture-cache-pixbuf.c`. -/
def Mx.impl_load_pixbuf_data (image : EncodedImage) (available_width available_height : Int) :
    LoadedPixbufData :=
  let available_dimensions : Dimensions :=
    { width := available_width, height := available_height }
  match gdk_pixbuf_loader_run image
      (fun w h => Mx.on_image_size_prepared w h available_dimensions) with
  | .error e => { pixbuf := none, error := some e, loader_runs := 1 }
  | .ok pixbuf =>
    let width_before_rotation := pixbuf.1
    let rotated_pixbuf := gdk_pixbuf_apply_embedded_orientation image pixbuf
    let width_after_rotation := rotated_pixbuf.1
    if width_before_rotation ≠ width_after_rotation then
      let available_dimensions : Dimensions :=
        { width := available_height, height := available_width }
      match gdk_pixbuf_loader_run image
          (fun w h => Mx.on_image_size_prepared w h available_dimensions) with
      | .error e => { pixbuf := none, error := some e, loader_runs := 2 }
      | .ok pixbuf =>
        { pixbuf := some (gdk_pixbuf_apply_embedded_orientation image pixbuf),
          error := none, loader_runs := 2 }
    else
      { pixbuf := some rotated_pixbuf, error := none, loader_runs := 1 }

/-- The function `impl_load_pixbuf_data` of `st-texture-cache.c` (same text). -/
def St.impl_load_pixbuf_data (image : EncodedImage) (available_width available_height : Int) :
    LoadedPixbufData :=
  let available_dimensions : Dimensions :=
    { width := available_width, height := available_height }
  match gdk_pixbuf_loader_run image
      (fun w h => St.on_image_size_prepared w h available_dimensions) with
  | .error e => { pixbuf := none, error := some e, loader_runs := 1 }
  | .ok pixbuf =>
    let width_before_rotation := pixbuf.1
    let rotated_pixbuf := gdk_pixbuf_apply_embedded_orientation image pixbuf
    let width_after_rotation := rotated_pixbuf.1
    if width_before_rotation ≠ width_after_rotation then
      let available_dimensions : Dimensions :=
        { width := available_height, height := available_width }
      match gdk_pixbuf_loader_run image
          (fun w h => St.on_image_size_prepared w h available_dimensions) with
      | .error e => { pixbuf := none, error := some e, loader_runs := 2 }
      | .ok pixbuf =>
        { pixbuf := some (gdk_pixbuf_apply_embedded_orientation image pixbuf),
          error := none, loader_runs := 2 }
    else
      { pixbuf := some rotated_pixbuf, error := none, loader_runs := 1 }

/-- The size the specification compares with: the bytes decoded once with the
available width and height exchanged, then the orientation applied. -/
def spec_decode_swapped (image : EncodedImage) (available_width available_height : Int) :
    Int × Int :=
  gdk_pixbuf_apply_embedded_orientation image
    (loader_decode_size image.width image.height
      (Mx.on_image_size_prepared image.width image.height
        { width := available_height, height := available_width }))

/-! ## A texture bound to a pixbuf property (`mx-texture-cache-bind.c`) -/

/-- Clutter's `clutter_texture_new`: a new texture actor that shows nothing
yet; a new actor is fully opaque. -/
def clutter_texture_new (w : World) : World × Nat :=
  let texture := w.n_actors
  ({ w with
      actors := Function.update w.actors texture
        { cogl_texture := COGL_INVALID_HANDLE, opacity := 255, keep_aspect_ratio := false }
      n_actors := w.n_actors + 1 },
   texture)

/-- Clutter's `clutter_actor_set_opacity`. -/
def clutter_actor_set_opacity (w : World) (actor : Nat) (opacity : Nat) : World :=
  { w with actors := Function.update w.actors actor { w.actors actor with opacity := opacity } }

/-- The struct `MxTextureCachePropertyBind`, without the back pointer to the
cache; `notify_signal_id` is kept as whether the handler is still connected
to the source. -/
structure MxTextureCachePropertyBind where
  texture : Nat
  source : Nat
  weakref_active : Bool
  deriving DecidableEq, Repr

/-- The static function `mx_texture_cache_reset_texture`; `value` is what
`g_object_get (bind->source, propname, &pixbuf, NULL)` reads, `none` for
NULL. -/
def mx_texture_cache_reset_texture (w : World) (bind : MxTextureCachePropertyBind)
    (value : Option GdkPixbuf) : World :=
  match value with
  | some pixbuf =>
    let (w1, texdata) := pixbuf_to_cogl_handle w pixbuf false
    let w2 := clutter_texture_set_cogl_texture w1 bind.texture texdata
    let w3 := cogl_handle_unref w2 texdata
    clutter_actor_set_opacity w3 bind.texture 255
  | none => clutter_actor_set_opacity w bind.texture 0

/-- The signal handler `mx_texture_cache_on_pixbuf_notify`. -/
def mx_texture_cache_on_pixbuf_notify (w : World) (bind : MxTextureCachePropertyBind)
    (value : Option GdkPixbuf) : World :=
  mx_texture_cache_reset_texture w bind value

/-- A binding made by `mx_texture_cache_bind_pixbuf_property`, with the world
it lives in and whether its handler is connected to `notify::<property>` of
the source. -/
structure BoundProperty where
  world : World
  bind : MxTextureCachePropertyBind
  connected : Bool

/-- The weak-reference callback `mx_texture_cache_bind_weak_notify`, run when
the texture actor is finalised. -/
def mx_texture_cache_bind_weak_notify (b : BoundProperty) : BoundProperty :=
  { b with bind := { b.bind with weakref_active := false }, connected := false }

/-- The function `mx_texture_cache_bind_pixbuf_property`; `value` is the value
of the property of `object` at the time of the call.  The returned actor is
`bind.texture`. -/
def mx_texture_cache_bind_pixbuf_property (w : World) (object : Nat)
    (value : Option GdkPixbuf) : BoundProperty :=
  let (w1, texture) := clutter_texture_new w
  let bind : MxTextureCachePropertyBind :=
    { texture := texture, source := object, weakref_active := true }
  let w2 := mx_texture_cache_reset_texture w1 bind value
  { world := w2, bind := bind, connected := true }

/-- GObject's emission of `notify::<property>` on the source after the
property changed to `value`: the handler runs if it is still connected. -/
def notify_property (b : BoundProperty) (value : Option GdkPixbuf) : BoundProperty :=
  if b.connected then
    { b with world := mx_texture_cache_on_pixbuf_notify b.world b.bind value }
  else b

/-! ## Thumbnails (`impl_load_thumbnail` of `st-texture-cache.c`) -/

/-- The state of a `GnomeDesktopThumbnailFactory`: the saved thumbnails (the
path of the thumbnail file for a URI and modification time), the
failed-thumbnail markers, and an instrument counting the runs of
`gnome_desktop_thumbnail_factory_generate_thumbnail`. -/
structure ThumbnailFactory where
  thumbnails : List ((String × Int) × String)
  failed : List (String × Int)
  generated : Nat
  deriving DecidableEq, Repr

/-- The calls of `impl_load_thumbnail` that depend on files: the modification
time that `g_file_query_info` reports (`none` when it gives no info), whether
the factory can thumbnail a file, the thumbnailer itself, the path at which
the factory saves a thumbnail, and `gdk_pixbuf_new_from_file_at_size`. -/
structure ThumbnailEnv where
  query_mtime : String → Option Int
  can_thumbnail : String → String → Int → Bool
  generate_thumbnail : String → String → Option GdkPixbuf
  thumbnail_path : String → String
  gdk_pixbuf_new_from_file_at_size : String → Nat → Nat → Option GdkPixbuf × Option GError

/-- The call `gnome_desktop_thumbnail_factory_lookup`. -/
def gnome_desktop_thumbnail_factory_lookup (f : ThumbnailFactory) (uri : String) (mtime : Int) :
    Option String :=
  g_hash_table_lookup f.thumbnails (uri, mtime)

/-- The call `gnome_desktop_thumbnail_factory_has_valid_failed_thumbnail`. -/
def gnome_desktop_thumbnail_factory_has_valid_failed_thumbnail (f : ThumbnailFactory)
    (uri : String) (mtime : Int) : Bool :=
  decide ((uri, mtime) ∈ f.failed)

/-- The call `gnome_desktop_thumbnail_factory_generate_thumbnail`. -/
def gnome_desktop_thumbnail_factory_generate_thumbnail (env : ThumbnailEnv)
    (f : ThumbnailFactory) (uri mime_type : String) : ThumbnailFactory × Option GdkPixbuf :=
  ({ f with generated := f.generated + 1 }, env.generate_thumbnail uri mime_type)

/-- The call `gnome_desktop_thumbnail_factory_save_thumbnail`. -/
def gnome_desktop_thumbnail_factory_save_thumbnail (env : ThumbnailEnv) (f : ThumbnailFactory)
    (uri : String) (mtime : Int) : ThumbnailFactory :=
  { f with thumbnails := g_hash_table_insert f.thumbnails (uri, mtime) (env.thumbnail_path uri) }

/-- The call `gnome_desktop_thumbnail_factory_create_failed_thumbnail`. -/
def gnome_desktop_thumbnail_factory_create_failed_thumbnail (f : ThumbnailFactory)
    (uri : String) (mtime : Int) : ThumbnailFactory :=
  { f with failed := (uri, mtime) :: f.failed }

/-- The modification time `impl_load_thumbnail` uses for `uri`: that of the
file info, 0 without one. -/
def thumbnail_mtime (env : ThumbnailEnv) (uri : String) : Int :=
  match env.query_mtime uri with
  | some t => t
  | none => 0

/-- The static function `impl_load_thumbnail`: the factory afterwards, the
pixbuf it returns and the `GError` it sets (the caller passes an unset one). -/
def impl_load_thumbnail (env : ThumbnailEnv) (f : ThumbnailFactory) (uri mime_type : String)
    (size : Nat) : ThumbnailFactory × Option GdkPixbuf × Option GError :=
  let mtime := thumbnail_mtime env uri
  match gnome_desktop_thumbnail_factory_lookup f uri mtime with
  | some existing_thumbnail =>
    let r := env.gdk_pixbuf_new_from_file_at_size existing_thumbnail size size
    (f, r.1, r.2)
  | none =>
    if gnome_desktop_thumbnail_factory_has_valid_failed_thumbnail f uri mtime then
      (f, none, some "Has failed thumbnail")
    else if env.can_thumbnail uri mime_type mtime then
      let (f1, pixbuf) := gnome_desktop_thumbnail_factory_generate_thumbnail env f uri mime_type
      match pixbuf with
      | some p => (gnome_desktop_thumbnail_factory_save_thumbnail env f1 uri mtime, some p, none)
      | none =>
        (gnome_desktop_thumbnail_factory_create_failed_thumbnail f1 uri mtime, none,
          some "Failed to generate thumbnail")
    else
      (f, none, none)

/-- A thumbnail environment for the examples: every file has modification
time 7 and can be thumbnailed, but the thumbnailer produces nothing. -/
def sample_thumbnail_env : ThumbnailEnv where
  query_mtime := fun _ => some 7
  can_thumbnail := fun _ _ _ => true
  generate_thumbnail := fun _ _ => none
  thumbnail_path := fun uri => "/thumbnails/" ++ uri
  gdk_pixbuf_new_from_file_at_size := fun _ _ _ => (none, some "no such file")

/-! ## Reading a meta texture (`mx-texture-cache-compat.c`) -/

/-- The function `mx_texture_cache_get_meta_cogl_texture`.  The entry found in
the meta table is read (`entry->texture`) without a NULL test: a missing
identifier is a NULL dereference. -/
def mx_texture_cache_get_meta_cogl_texture (env : Env) (s : MxTextureCache) (uri : String)
    (ident : Nat) : Except Fault (MxTextureCache × CoglHandle) :=
  let r := mx_texture_cache_get_item env s uri true
  match r.2 with
  | some (_, item) =>
    match item.meta with
    | some entries =>
      match g_hash_table_lookup entries ident with
      | none => .error Fault.null_dereference
      | some entry =>
        if entry.texture ≠ COGL_INVALID_HANDLE then
          .ok ({ r.1 with toWorld := cogl_handle_ref r.1.toWorld entry.texture }, entry.texture)
        else
          .ok (r.1, COGL_INVALID_HANDLE)
    | none => .ok (r.1, COGL_INVALID_HANDLE)
  | none => .ok (r.1, COGL_INVALID_HANDLE)

/-- The function `mx_texture_cache_get_meta_texture`; the result is the new
actor, `none` for NULL. -/
def mx_texture_cache_get_meta_texture (env : Env) (s : MxTextureCache) (uri : String)
    (ident : Nat) : Except Fault (MxTextureCache × Option Nat) :=
  let r := mx_texture_cache_get_item env s uri true
  match r.2 with
  | some (_, item) =>
    match item.meta with
    | some entries =>
      match g_hash_table_lookup entries ident with
      | none => .error Fault.null_dereference
      | some entry =>
        if entry.texture ≠ COGL_INVALID_HANDLE then
          let (w1, texture) := clutter_texture_new r.1.toWorld
          let w2 := clutter_texture_set_cogl_texture w1 texture entry.texture
          .ok ({ r.1 with toWorld := w2 }, some texture)
        else
          .ok (r.1, none)
    | none => .ok (r.1, none)
  | none => .ok (r.1, none)

/-- A cache after two calls of the public interface on the empty cache over
`sample_world`: `mx_texture_cache_load` with the key `compat:` and
`sample_loader`, then `mx_texture_cache_insert_meta` of texture 1 for the URI
`file:///tmp/a.png` and the identifier 7. -/
def sample_cache_after_insert_meta : MxTextureCache :=
  mx_texture_cache_insert_meta sample_env
    (mx_texture_cache_load (mx_texture_cache_init sample_world) "compat:"
      MxTextureCachePolicy.MX_TEXTURE_CACHE_POLICY_FOREVER sample_loader).1
    "file:///tmp/a.png" 7 1 none

/-! ## The legacy cache file (`mx_texture_cache_load_cache`) -/

/-- Cogl's `cogl_texture_new_from_sub_texture (full_texture, x, y, width,
height)`, as far as handles go: a new handle with one reference, which keeps
a reference on the texture it is cut from. -/
def cogl_texture_new_from_sub_texture (w : World) (full_texture : CoglHandle)
    (_sub_x _sub_y _sub_width _sub_height : Int) : World × CoglHandle :=
  let texture := w.n_handles + 1
  let w1 : World :=
    { w with
      ref_count := Function.update w.ref_count texture 1
      n_handles := texture }
  (cogl_handle_ref w1 full_texture, texture)

/-- A legacy cache file as `fread` sees it: the complete records, each one
`MxTextureCacheItem` struct as it was written, and the bytes after the last
complete record, given by what a short read of them leaves in the buffer it
reads into (the identity when the file ends with a complete record). -/
structure CacheFile where
  records : List MxTextureCacheItem
  trailing : MxTextureCacheItem → MxTextureCacheItem

/-- The loop `while (!feof (file))` of `mx_texture_cache_load_cache` over the
records that are left.  At the end of the records `fread` returns 0 and the
loop frees the element it read into and breaks. -/
def mx_texture_cache_load_cache_loop (env : Env) (full_texture : CoglHandle)
    (trailing : MxTextureCacheItem → MxTextureCacheItem) :
    List MxTextureCacheItem → MxTextureCache → MxTextureCache
  | [], s =>
    { s with toWorld := mx_texture_cache_item_free s.toWorld (trailing mx_texture_cache_item_new) }
  | element :: rest, s =>
    match mx_texture_cache_filename_to_uri env element.filename with
    | none =>
      mx_texture_cache_load_cache_loop env full_texture trailing rest
        { s with toWorld := mx_texture_cache_item_free s.toWorld element }
    | some uri =>
      if (g_hash_table_lookup s.cache uri).isSome then
        mx_texture_cache_load_cache_loop env full_texture trailing rest
          { s with toWorld := mx_texture_cache_item_free s.toWorld element }
      else
        let r := cogl_texture_new_from_sub_texture s.toWorld full_texture element.posX
          element.posY element.width element.height
        mx_texture_cache_load_cache_loop env full_texture trailing rest
          (cache_insert { s with toWorld := r.1 } uri { element with ptr := r.2 })

/-- The function `mx_texture_cache_load_cache`.  `file` is `none` when `fopen`
fails; `head` is the content of the local variable `head` before the first
`fread` (it is not initialised).  The first `fread` returns 1 or 0, and 0
(no complete record) sets the end-of-file indicator. -/
def mx_texture_cache_load_cache (env : Env) (s : MxTextureCache) (file : Option CacheFile)
    (head : MxTextureCacheItem) : MxTextureCache :=
  match file with
  | none => s
  | some f =>
    let first : Int × MxTextureCacheItem × List MxTextureCacheItem :=
      match f.records with
      | r :: rest => (1, r, rest)
      | [] => (0, f.trailing head, [])
    let ret := first.1
    let head := first.2.1
    if ret < 0 then s
    else if (g_hash_table_lookup s.cache head.filename).isSome then s
    else
      let r := mx_texture_cache_get_cogl_texture env s head.filename
      let full_texture := r.2
      if full_texture = COGL_INVALID_HANDLE then r.1
      else if ret = 0 then r.1
      else mx_texture_cache_load_cache_loop env full_texture f.trailing first.2.2 r.1

/-- The keys of a cache, in table order. -/
def cache_keys (s : MxTextureCache) : List String := s.cache.map Prod.fst

/-- A cache file cut off inside its first record: no complete record, and the
bytes present fill the `filename` field with `/tmp/a.png`. -/
def sample_truncated_cache_file : CacheFile where
  records := []
  trailing := fun buffer => { buffer with filename := "/tmp/a.png" }

/-- An empty cache file. -/
def sample_empty_cache_file : CacheFile where
  records := []
  trailing := fun buffer => buffer

/-- A cache file of one record, the head naming the image `/tmp/a.png`. -/
def sample_cache_file : CacheFile where
  records := [{ mx_texture_cache_item_new with filename := "/tmp/a.png" }]
  trailing := fun buffer => buffer

/-! ## The theme context (`st-theme-context.c`)

The resolution is a C `double`.  The code only stores it and compares it with
`==`, so the type of resolutions `R` and the comparison `double_eq` are
parameters; nothing is assumed about the comparison (a NaN is not `==` to
itself).  Handlers connected to the "changed" signal are outside the model:
an emission is counted. -/

/-- The struct `_MxStThemeContext`: the font by its description, the root node
and the theme by the number of the object (`none` for NULL). -/
structure MxStThemeContext (R : Type) where
  resolution : R
  font : String
  root_node : Option Nat
  theme : Option Nat

/-- A theme context with the objects around it: the theme argument of every
node created so far (node `n` is entry `n` of the list), the reference counts
of themes and nodes, and the number of "changed" emissions. -/
structure ThemeState (R : Type) where
  context : MxStThemeContext R
  nodes : List (Option Nat)
  theme_refs : Nat → Int
  node_refs : Nat → Int
  changed_emitted : Nat

/-- The macro `DEFAULT_FONT`. -/
def DEFAULT_FONT : String := "sans-serif 10"

/-- The function `mx_st_theme_context_init` on a zeroed object;
`default_resolution` is the macro `DEFAULT_RESOLUTION` (96.). -/
def mx_st_theme_context_init {R : Type} (default_resolution : R) : ThemeState R :=
  { context := { resolution := default_resolution, font := DEFAULT_FONT, root_node := none,
                 theme := none }
    nodes := []
    theme_refs := fun _ => 0
    node_refs := fun _ => 0
    changed_emitted := 0 }

/-- Modelled from the spec: `mx_st_theme_node_new` is declared in
`st-theme-node.h` and its body is not among the sources.  The call
`mx_st_theme_node_new (context, NULL, theme, G_TYPE_NONE, NULL, NULL, NULL,
NULL)` is taken as the creation of a new node, with one reference, that
records the theme it was created with. -/
def mx_st_theme_node_new {R : Type} (s : ThemeState R) (theme : Option Nat) :
    ThemeState R × Nat :=
  let node := s.nodes.length
  ({ s with nodes := s.nodes ++ [theme], node_refs := Function.update s.node_refs node 1 }, node)

/-- The static function `mx_st_theme_context_changed`. -/
def mx_st_theme_context_changed {R : Type} (s : ThemeState R) : ThemeState R :=
  let old_root := s.context.root_node
  let s1 : ThemeState R := { s with context := { s.context with root_node := none } }
  let s2 : ThemeState R := { s1 with changed_emitted := s1.changed_emitted + 1 }
  match old_root with
  | some node => { s2 with node_refs := Function.update s2.node_refs node (s2.node_refs node - 1) }
  | none => s2

/-- The function `mx_st_theme_context_set_theme`. -/
def mx_st_theme_context_set_theme {R : Type} (s : ThemeState R) (theme : Option Nat) :
    ThemeState R :=
  if s.context.theme ≠ theme then
    let s1 : ThemeState R :=
      match s.context.theme with
      | some old => { s with theme_refs := Function.update s.theme_refs old (s.theme_refs old - 1) }
      | none => s
    let s2 : ThemeState R := { s1 with context := { s1.context with theme := theme } }
    let s3 : ThemeState R :=
      match s2.context.theme with
      | some new => { s2 with theme_refs := Function.update s2.theme_refs new (s2.theme_refs new + 1) }
      | none => s2
    mx_st_theme_context_changed s3
  else s

/-- The function `mx_st_theme_context_get_theme`. -/
def mx_st_theme_context_get_theme {R : Type} (s : ThemeState R) : Option Nat :=
  s.context.theme

/-- The function `mx_st_theme_context_set_resolution`. -/
def mx_st_theme_context_set_resolution {R : Type} (double_eq : R → R → Bool)
    (s : ThemeState R) (resolution : R) : ThemeState R :=
  if double_eq resolution s.context.resolution then s
  else
    mx_st_theme_context_changed { s with context := { s.context with resolution := resolution } }

/-- The function `mx_st_theme_context_set_default_resolution`. -/
def mx_st_theme_context_set_default_resolution {R : Type} (double_eq : R → R → Bool)
    (default_resolution : R) (s : ThemeState R) : ThemeState R :=
  if double_eq s.context.resolution default_resolution then s
  else
    mx_st_theme_context_changed
      { s with context := { s.context with resolution := default_resolution } }

/-- The function `mx_st_theme_context_set_font`; two descriptions are the same
pointer or `pango_font_description_equal` exactly when they describe the same
font. -/
def mx_st_theme_context_set_font {R : Type} (s : ThemeState R) (font : String) :
    ThemeState R :=
  if s.context.font = font then s
  else mx_st_theme_context_changed { s with context := { s.context with font := font } }

/-- The function `mx_st_theme_context_get_root_node`. -/
def mx_st_theme_context_get_root_node {R : Type} (s : ThemeState R) : ThemeState R × Nat :=
  match s.context.root_node with
  | none =>
    let r := mx_st_theme_node_new s s.context.theme
    ({ r.1 with context := { r.1.context with root_node := some r.2 } }, r.2)
  | some node => (s, node)

/-- A call of one of the functions of `st-theme-context.c` that write to the
context. -/
inductive ThemeContextCall (R : Type) where
  | set_theme (theme : Option Nat)
  | set_resolution (resolution : R)
  | set_default_resolution
  | set_font (font : String)
  | get_root_node

/-- The state after one call. -/
def theme_context_call {R : Type} (double_eq : R → R → Bool) (default_resolution : R)
    (s : ThemeState R) : ThemeContextCall R → ThemeState R
  | .set_theme theme => mx_st_theme_context_set_theme s theme
  | .set_resolution resolution => mx_st_theme_context_set_resolution double_eq s resolution
  | .set_default_resolution =>
    mx_st_theme_context_set_default_resolution double_eq default_resolution s
  | .set_font font => mx_st_theme_context_set_font s font
  | .get_root_node => (mx_st_theme_context_get_root_node s).1

/-- The state reached from a new context by a sequence of calls. -/
def theme_context_run {R : Type} (double_eq : R → R → Bool) (default_resolution : R)
    (calls : List (ThemeContextCall R)) : ThemeState R :=
  calls.foldl (theme_context_call double_eq default_resolution)
    (mx_st_theme_context_init default_resolution)

/-- The cached root node, if there is one, was created with the current theme
of the context. -/
def root_node_has_current_theme {R : Type} (s : ThemeState R) : Prop :=
  ∀ node, s.context.root_node = some node → s.nodes.get? node = some s.context.theme
/-! # Theorems -/

theorem wrap_int_of_fits (x : Int) (h : fits_int x) : wrap_int x = x := by
  unfold fits_int G_MININT G_MAXINT at h
  unfold wrap_int
  omega

theorem MIN_eq_min (a b : Int) : MIN a b = min a b := by
  unfold MIN
  split
  · omega
  · omega

/-- C3. `compute_pixbuf_scale` (both copies) equals the reference definition
on all inputs whose computed products fit an `int`, and gives the three
listed results: (200,100,100,-1) scales to (100,50), (100,100,500,500) does
not scale, (200,100,50,80) scales to (50,25). -/
theorem compute_pixbuf_scale_refines_spec (width height aw ah nw nh : Int)
    (hw : 0 ≤ ah → fits_int (ah * width)) (hh : 0 ≤ aw → fits_int (aw * height)) :
    Mx.compute_pixbuf_scale width height aw ah nw nh = spec_compute_scale width height aw ah nw nh
    ∧ St.compute_pixbuf_scale width height aw ah nw nh
        = spec_compute_scale width height aw ah nw nh
    ∧ Mx.compute_pixbuf_scale 200 100 100 (-1) nw nh = (true, 100, 50)
    ∧ Mx.compute_pixbuf_scale 100 100 500 500 nw nh = (false, nw, nh)
    ∧ Mx.compute_pixbuf_scale 200 100 50 80 nw nh = (true, 50, 25) := by
  have key : Mx.compute_pixbuf_scale width height aw ah nw nh
      = spec_compute_scale width height aw ah nw nh := by
    unfold Mx.compute_pixbuf_scale spec_compute_scale spec_scaled_size int_mul int_div
    by_cases h0 : width = 0 ∨ height = 0
    · rw [if_pos h0]
      rw [if_neg (by rcases h0 with h | h <;> simp [h])]
    · rw [if_neg h0]
      have hw0 : width ≠ 0 := fun h => h0 (Or.inl h)
      have hh0 : height ≠ 0 := fun h => h0 (Or.inr h)
      by_cases ha : 0 ≤ aw <;> by_cases hb : 0 ≤ ah
      · simp only [ge_iff_le, ha, hb, and_self, if_true, wrap_int_of_fits _ (hw hb),
          wrap_int_of_fits _ (hh ha), MIN_eq_min, hw0, hh0, ne_eq, not_false_eq_true, true_and]
      · simp only [ge_iff_le, ha, hb, and_false, if_false, if_true,
          wrap_int_of_fits _ (hh ha), hw0, hh0, ne_eq, not_false_eq_true, true_and]
      · simp only [ge_iff_le, ha, hb, false_and, if_false, if_true,
          wrap_int_of_fits _ (hw hb), hw0, hh0, ne_eq, not_false_eq_true, true_and]
      · simp only [ge_iff_le, ha, hb, and_self, if_false, hw0, hh0, ne_eq,
          not_false_eq_true, true_and]
  refine ⟨key, ?_, ?_, ?_, ?_⟩
  · have : St.compute_pixbuf_scale width height aw ah nw nh
        = Mx.compute_pixbuf_scale width height aw ah nw nh := rfl
    rw [this, key]
  · have e : Int.tdiv 10000 200 = 50 := by decide
    simp [Mx.compute_pixbuf_scale, int_mul, int_div, wrap_int, MIN, e]
  · have e : Int.tdiv 50000 100 = 500 := by decide
    simp [Mx.compute_pixbuf_scale, int_mul, int_div, wrap_int, MIN, e]
  · have e1 : Int.tdiv 16000 100 = 160 := by decide
    have e2 : Int.tdiv 5000 200 = 25 := by decide
    simp [Mx.compute_pixbuf_scale, int_mul, int_div, wrap_int, MIN, e1, e2]

/-- C3, applied: natural size 1920 by 1080 in a 640 by 480 box. -/
theorem compute_pixbuf_scale_refines_spec_witness :
    (0 ≤ (480 : Int) → fits_int (480 * 1920)) ∧ (0 ≤ (640 : Int) → fits_int (640 * 1080))
    ∧ Mx.compute_pixbuf_scale 1920 1080 640 480 7 9 = spec_compute_scale 1920 1080 640 480 7 9
    ∧ spec_compute_scale 1920 1080 640 480 7 9 = (true, 640, 360) :=
  ⟨fun _ => by decide, fun _ => by decide,
   (compute_pixbuf_scale_refines_spec 1920 1080 640 480 7 9
      (fun _ => by decide) (fun _ => by decide)).1,
   by decide⟩

/-! ## Hash tables -/

theorem g_hash_table_lookup_insert_self {K V : Type} [DecidableEq K] (t : GHashTable K V)
    (k : K) (v : V) : g_hash_table_lookup (g_hash_table_insert t k v) k = some v := by
  induction t with
  | nil => simp [g_hash_table_insert, g_hash_table_lookup]
  | cons p t ih =>
    obtain ⟨k', v'⟩ := p
    by_cases h : k' = k
    · simp [g_hash_table_insert, g_hash_table_lookup, h]
    · simp [g_hash_table_insert, g_hash_table_lookup, h, ih]

theorem g_hash_table_lookup_insert_of_ne {K V : Type} [DecidableEq K] (t : GHashTable K V)
    (k k2 : K) (v : V) (hne : k2 ≠ k) :
    g_hash_table_lookup (g_hash_table_insert t k v) k2 = g_hash_table_lookup t k2 := by
  have hne2 : ¬ k = k2 := fun h => hne h.symm
  induction t with
  | nil => simp [g_hash_table_insert, g_hash_table_lookup, hne2]
  | cons p t ih =>
    obtain ⟨k', v'⟩ := p
    by_cases h : k' = k
    · subst h
      simp [g_hash_table_insert, g_hash_table_lookup, hne2]
    · simp [g_hash_table_insert, g_hash_table_lookup, h, ih]

theorem g_hash_table_size_insert_of_present {K V : Type} [DecidableEq K] (t : GHashTable K V)
    (k : K) (v old : V) (hold : g_hash_table_lookup t k = some old) :
    g_hash_table_size (g_hash_table_insert t k v) = g_hash_table_size t := by
  induction t with
  | nil => simp [g_hash_table_lookup] at hold
  | cons p t ih =>
    obtain ⟨k', v'⟩ := p
    by_cases h : k' = k
    · simp [g_hash_table_insert, g_hash_table_size, h]
    · simp [g_hash_table_lookup, h] at hold
      have := ih hold
      simp [g_hash_table_size] at this
      simp [g_hash_table_insert, g_hash_table_size, h, this]

theorem g_hash_table_size_insert_of_absent {K V : Type} [DecidableEq K] (t : GHashTable K V)
    (k : K) (v : V) (habs : g_hash_table_lookup t k = none) :
    g_hash_table_size (g_hash_table_insert t k v) = g_hash_table_size t + 1 := by
  induction t with
  | nil => simp [g_hash_table_insert, g_hash_table_size]
  | cons p t ih =>
    obtain ⟨k', v'⟩ := p
    by_cases h : k' = k
    · simp [g_hash_table_lookup, h] at habs
    · simp [g_hash_table_lookup, h] at habs
      have := ih habs
      simp [g_hash_table_size] at this
      simp [g_hash_table_insert, g_hash_table_size, h, this]

/-! ## The synchronous load of `st-texture-cache.c` -/

theorem st_sync_miss_forever (env : Env) (s : MxStTextureCache) (u : String)
    (aw ah : Int) (pixbuf : GdkPixbuf)
    (habsent : g_hash_table_lookup s.keyed_cache ("uri:" ++ u) = none)
    (hdecode : (env.impl_load_pixbuf_file u aw ah).1 = some pixbuf) :
    (mx_st_texture_cache_load_uri_sync_to_cogl_texture env s
        MxStTextureCachePolicy.MX_ST_TEXTURE_CACHE_POLICY_FOREVER u aw ah).2.1 = s.n_handles + 1
    ∧ (mx_st_texture_cache_load_uri_sync_to_cogl_texture env s
        MxStTextureCachePolicy.MX_ST_TEXTURE_CACHE_POLICY_FOREVER u aw ah).1.decodes
      = s.decodes + 1
    ∧ g_hash_table_lookup
        (mx_st_texture_cache_load_uri_sync_to_cogl_texture env s
          MxStTextureCachePolicy.MX_ST_TEXTURE_CACHE_POLICY_FOREVER u aw ah).1.keyed_cache
        ("uri:" ++ u) = some (s.n_handles + 1) := by
  simp [mx_st_texture_cache_load_uri_sync_to_cogl_texture, habsent, hdecode,
    pixbuf_to_cogl_handle, keyed_cache_insert, g_hash_table_lookup_insert_self,
    cogl_handle_ref, COGL_INVALID_HANDLE]

theorem st_sync_hit (env : Env) (s : MxStTextureCache) (policy : MxStTextureCachePolicy)
    (u : String) (aw ah : Int) (h : CoglHandle)
    (hl : g_hash_table_lookup s.keyed_cache ("uri:" ++ u) = some h)
    (hne : h ≠ COGL_INVALID_HANDLE) :
    mx_st_texture_cache_load_uri_sync_to_cogl_texture env s policy u aw ah
      = ({ s with toWorld := cogl_handle_ref s.toWorld h }, h, none) := by
  simp [mx_st_texture_cache_load_uri_sync_to_cogl_texture, hl, hne]

/-- C1. With the key `"uri:" ++ u` absent, policy FOREVER and a decode that
yields a pixbuf, `mx_st_texture_cache_load_uri_sync_to_cogl_texture` runs the
decoder once, returns a valid handle and leaves the keyed cache mapping the
key to that handle; a following call for the same `u` (any policy, any
available size) runs the decoder zero times and returns that same handle with
its reference count one higher. -/
theorem st_load_uri_sync_forever_then_cached (env : Env) (s : MxStTextureCache) (u : String)
    (aw ah : Int) (pixbuf : GdkPixbuf)
    (habsent : g_hash_table_lookup s.keyed_cache ("uri:" ++ u) = none)
    (hdecode : (env.impl_load_pixbuf_file u aw ah).1 = some pixbuf) :
    (mx_st_texture_cache_load_uri_sync_to_cogl_texture env s
        MxStTextureCachePolicy.MX_ST_TEXTURE_CACHE_POLICY_FOREVER u aw ah).2.1
      ≠ COGL_INVALID_HANDLE
    ∧ (mx_st_texture_cache_load_uri_sync_to_cogl_texture env s
        MxStTextureCachePolicy.MX_ST_TEXTURE_CACHE_POLICY_FOREVER u aw ah).1.decodes
      = s.decodes + 1
    ∧ g_hash_table_lookup
        (mx_st_texture_cache_load_uri_sync_to_cogl_texture env s
          MxStTextureCachePolicy.MX_ST_TEXTURE_CACHE_POLICY_FOREVER u aw ah).1.keyed_cache
        ("uri:" ++ u)
      = some (mx_st_texture_cache_load_uri_sync_to_cogl_texture env s
          MxStTextureCachePolicy.MX_ST_TEXTURE_CACHE_POLICY_FOREVER u aw ah).2.1
    ∧ ∀ (policy : MxStTextureCachePolicy) (aw2 ah2 : Int),
        (mx_st_texture_cache_load_uri_sync_to_cogl_texture env
            (mx_st_texture_cache_load_uri_sync_to_cogl_texture env s
              MxStTextureCachePolicy.MX_ST_TEXTURE_CACHE_POLICY_FOREVER u aw ah).1
            policy u aw2 ah2).1.decodes
          = (mx_st_texture_cache_load_uri_sync_to_cogl_texture env s
              MxStTextureCachePolicy.MX_ST_TEXTURE_CACHE_POLICY_FOREVER u aw ah).1.decodes
        ∧ (mx_st_texture_cache_load_uri_sync_to_cogl_texture env
            (mx_st_texture_cache_load_uri_sync_to_cogl_texture env s
              MxStTextureCachePolicy.MX_ST_TEXTURE_CACHE_POLICY_FOREVER u aw ah).1
            policy u aw2 ah2).2.1
          = (mx_st_texture_cache_load_uri_sync_to_cogl_texture env s
              MxStTextureCachePolicy.MX_ST_TEXTURE_CACHE_POLICY_FOREVER u aw ah).2.1
        ∧ (mx_st_texture_cache_load_uri_sync_to_cogl_texture env
            (mx_st_texture_cache_load_uri_sync_to_cogl_texture env s
              MxStTextureCachePolicy.MX_ST_TEXTURE_CACHE_POLICY_FOREVER u aw ah).1
            policy u aw2 ah2).1.ref_count
            (mx_st_texture_cache_load_uri_sync_to_cogl_texture env s
              MxStTextureCachePolicy.MX_ST_TEXTURE_CACHE_POLICY_FOREVER u aw ah).2.1
          = (mx_st_texture_cache_load_uri_sync_to_cogl_texture env s
              MxStTextureCachePolicy.MX_ST_TEXTURE_CACHE_POLICY_FOREVER u aw ah).1.ref_count
              (mx_st_texture_cache_load_uri_sync_to_cogl_texture env s
                MxStTextureCachePolicy.MX_ST_TEXTURE_CACHE_POLICY_FOREVER u aw ah).2.1 + 1 := by
  obtain ⟨hh, hd, hl⟩ := st_sync_miss_forever env s u aw ah pixbuf habsent hdecode
  have hne : s.n_handles + 1 ≠ COGL_INVALID_HANDLE := by simp [COGL_INVALID_HANDLE]
  refine ⟨by rw [hh]; exact hne, hd, by rw [hh]; exact hl, ?_⟩
  intro policy aw2 ah2
  rw [st_sync_hit env _ policy u aw2 ah2 (s.n_handles + 1) hl hne, hh]
  simp [cogl_handle_ref, COGL_INVALID_HANDLE]

/-- C1, applied: the first load of `file:///tmp/a.png` into an empty cache, then
a second load with policy NONE and another available size. -/
theorem st_load_uri_sync_forever_then_cached_witness :
    g_hash_table_lookup (mx_st_texture_cache_init World.initial).keyed_cache
        ("uri:" ++ "file:///tmp/a.png") = none
    ∧ (sample_env.impl_load_pixbuf_file "file:///tmp/a.png" (-1) (-1)).1 = some sample_pixbuf
    ∧ (mx_st_texture_cache_load_uri_sync_to_cogl_texture sample_env
        (mx_st_texture_cache_init World.initial)
        MxStTextureCachePolicy.MX_ST_TEXTURE_CACHE_POLICY_FOREVER "file:///tmp/a.png"
        (-1) (-1)).2.1 ≠ COGL_INVALID_HANDLE
    ∧ (mx_st_texture_cache_load_uri_sync_to_cogl_texture sample_env
          (mx_st_texture_cache_load_uri_sync_to_cogl_texture sample_env
            (mx_st_texture_cache_init World.initial)
            MxStTextureCachePolicy.MX_ST_TEXTURE_CACHE_POLICY_FOREVER "file:///tmp/a.png"
            (-1) (-1)).1
          MxStTextureCachePolicy.MX_ST_TEXTURE_CACHE_POLICY_NONE "file:///tmp/a.png" 32 32).2.1
        = (mx_st_texture_cache_load_uri_sync_to_cogl_texture sample_env
            (mx_st_texture_cache_init World.initial)
            MxStTextureCachePolicy.MX_ST_TEXTURE_CACHE_POLICY_FOREVER "file:///tmp/a.png"
            (-1) (-1)).2.1 :=
  ⟨rfl, by decide,
   (st_load_uri_sync_forever_then_cached sample_env (mx_st_texture_cache_init World.initial)
      "file:///tmp/a.png" (-1) (-1) sample_pixbuf rfl (by decide)).1,
   ((st_load_uri_sync_forever_then_cached sample_env (mx_st_texture_cache_init World.initial)
      "file:///tmp/a.png" (-1) (-1) sample_pixbuf rfl (by decide)).2.2.2
      MxStTextureCachePolicy.MX_ST_TEXTURE_CACHE_POLICY_NONE 32 32).2.1⟩

/-! ## The synchronous load of `mx-texture-cache.c` -/

theorem mx_sync_hit (env : Env) (s : MxTextureCache) (policy : MxTextureCachePolicy)
    (u : String) (aw ah : Int) (item : MxTextureCacheItem)
    (hl : g_hash_table_lookup s.cache ("uri:" ++ u) = some item) :
    (mx_texture_cache_load_uri_sync_to_cogl_texture env s policy u aw ah).2.1
        = COGL_INVALID_HANDLE
    ∧ (mx_texture_cache_load_uri_sync_to_cogl_texture env s policy u aw ah).2.2 = none := by
  simp [mx_texture_cache_load_uri_sync_to_cogl_texture, hl]

theorem mx_load_file_hit_faults (env : Env) (s : MxTextureCache) (file_path : String)
    (item : MxTextureCacheItem)
    (hl : g_hash_table_lookup s.cache ("uri:" ++ env.g_file_get_uri file_path) = some item) :
    mx_texture_cache_load_file_to_cogl_texture env s file_path
      = Except.error Fault.null_dereference := by
  obtain ⟨h1, h2⟩ := mx_sync_hit env s
    MxTextureCachePolicy.MX_TEXTURE_CACHE_POLICY_FOREVER (env.g_file_get_uri file_path)
    (-1) (-1) item hl
  simp [mx_texture_cache_load_file_to_cogl_texture, h1, h2]

/-- C2, on the code: in an empty cache the first
`mx_texture_cache_load_file_to_cogl_texture` of the readable file `/tmp/a.png`
returns handle 1 and caches it under `uri:file:///tmp/a.png`; the second call
for the same path finds the item, never reads its `ptr`, gets
`COGL_INVALID_HANDLE` from the inner function with no error stored, and
dereferences the NULL error. -/
theorem mx_load_file_second_call_invalid :
    ∃ s1 : MxTextureCache,
      mx_texture_cache_load_file_to_cogl_texture sample_env
          (mx_texture_cache_init World.initial) "/tmp/a.png" = Except.ok (s1, 1)
      ∧ g_hash_table_lookup s1.cache "uri:file:///tmp/a.png"
          = some { mx_texture_cache_item_new with ptr := 1 }
      ∧ (mx_texture_cache_load_uri_sync_to_cogl_texture sample_env s1
          MxTextureCachePolicy.MX_TEXTURE_CACHE_POLICY_FOREVER "file:///tmp/a.png"
          (-1) (-1)).2.1 = COGL_INVALID_HANDLE
      ∧ mx_texture_cache_load_file_to_cogl_texture sample_env s1 "/tmp/a.png"
          = Except.error Fault.null_dereference := by
  refine ⟨(mx_texture_cache_load_uri_sync_to_cogl_texture sample_env
      (mx_texture_cache_init World.initial)
      MxTextureCachePolicy.MX_TEXTURE_CACHE_POLICY_FOREVER "file:///tmp/a.png" (-1) (-1)).1,
    rfl, ?_, ?_, ?_⟩
  · decide
  · exact (mx_sync_hit sample_env _ _ "file:///tmp/a.png" (-1) (-1)
      { mx_texture_cache_item_new with ptr := 1 } (by decide)).1
  · exact mx_load_file_hit_faults sample_env _ "/tmp/a.png"
      { mx_texture_cache_item_new with ptr := 1 } (by decide)

/-! ## Asynchronous loads of `mx-texture-cache.c` -/

/-- C4, as stated, fails: two `mx_texture_cache_load_uri_async` calls for
`file:///tmp/a.png` on an empty cache, the second while the first is still
outstanding, leave two decode jobs in flight for the same key (not one), and
the outstanding-requests table has no request to attach to. -/
theorem load_uri_async_twice_starts_two_jobs :
    ((mx_texture_cache_load_uri_async
        (mx_texture_cache_load_uri_async (mx_texture_cache_init World.initial)
          "file:///tmp/a.png" (-1) (-1)).1
        "file:///tmp/a.png" (-1) (-1)).1.threads.map (fun d => d.key))
      = ["uri:file:///tmp/a.png", "uri:file:///tmp/a.png"]
    ∧ ¬ ((mx_texture_cache_load_uri_async
        (mx_texture_cache_load_uri_async (mx_texture_cache_init World.initial)
          "file:///tmp/a.png" (-1) (-1)).1
        "file:///tmp/a.png" (-1) (-1)).1.threads.length
        = (mx_texture_cache_init World.initial).threads.length + 1)
    ∧ g_hash_table_lookup
        (mx_texture_cache_load_uri_async (mx_texture_cache_init World.initial)
          "file:///tmp/a.png" (-1) (-1)).1.outstanding_requests
        "uri:file:///tmp/a.png" = none := by
  refine ⟨by decide, by decide, by decide⟩

/-- C4, amended. Each `mx_texture_cache_load_uri_async` call starts a decode job
of its own and registers nothing in the outstanding-requests table: after two
calls for the same `u` there are two more jobs in flight, both for key
`"uri:" ++ u`, each holding only the actor its call returned, and the two
actors differ.  When both decodes succeed, completing the two jobs runs the
decoder twice and gives each actor the handle converted by its own job (two
different handles) and opacity 255, and the cache store is as before. -/
theorem load_uri_async_twice_amended (env : Env) (s s1 s2 : MxTextureCache) (u : String)
    (aw ah aw2 ah2 : Int) (a1 a2 : Nat)
    (hcall1 : mx_texture_cache_load_uri_async s u aw ah = (s1, a1))
    (hcall2 : mx_texture_cache_load_uri_async s1 u aw2 ah2 = (s2, a2)) :
    a1 ≠ a2
    ∧ s2.outstanding_requests = s.outstanding_requests
    ∧ ∃ d1 d2 : MxTextureCacheAsyncLoadData,
        s2.threads = s.threads ++ [d1, d2]
        ∧ d1.key = "uri:" ++ u ∧ d2.key = "uri:" ++ u
        ∧ d1.textures = [a1] ∧ d2.textures = [a2]
        ∧ ∀ p1 p2 : GdkPixbuf,
            env.impl_load_pixbuf_file u (wrap_int (to_guint aw)) (wrap_int (to_guint ah))
              = (some p1, none) →
            env.impl_load_pixbuf_file u (wrap_int (to_guint aw2)) (wrap_int (to_guint ah2))
              = (some p2, none) →
            ∃ s3 s4 : MxTextureCache,
              Mx.complete_job env s2 d1 = Except.ok s3
              ∧ Mx.complete_job env s3 d2 = Except.ok s4
              ∧ s4.decodes = s.decodes + 2
              ∧ s4.cache = s.cache
              ∧ s4.actors a1 = { cogl_texture := s.n_handles + 1, opacity := 255,
                                 keep_aspect_ratio := true }
              ∧ s4.actors a2 = { cogl_texture := s.n_handles + 2, opacity := 255,
                                 keep_aspect_ratio := true } := by
  simp only [mx_texture_cache_load_uri_async, load_texture_async, create_default_texture,
    Prod.mk.injEq] at hcall1
  obtain ⟨hs1, ha1⟩ := hcall1
  subst hs1
  simp only [mx_texture_cache_load_uri_async, load_texture_async, create_default_texture,
    Prod.mk.injEq] at hcall2
  obtain ⟨hs2, ha2⟩ := hcall2
  subst hs2
  subst ha1 ha2
  refine ⟨by simp, rfl,
    { policy := MxTextureCachePolicy.MX_TEXTURE_CACHE_POLICY_NONE, key := "uri:" ++ u,
      enforced_square := false, width := to_guint aw, height := to_guint ah,
      textures := [s.n_actors], uri := some u },
    { policy := MxTextureCachePolicy.MX_TEXTURE_CACHE_POLICY_NONE, key := "uri:" ++ u,
      enforced_square := false, width := to_guint aw2, height := to_guint ah2,
      textures := [s.n_actors + 1], uri := some u },
    by simp, rfl, rfl, rfl, rfl, ?_⟩
  intro p1 p2 hp1 hp2
  have ht1 : Mx.load_pixbuf_thread env
      { policy := MxTextureCachePolicy.MX_TEXTURE_CACHE_POLICY_NONE, key := "uri:" ++ u,
        enforced_square := false, width := to_guint aw, height := to_guint ah,
        textures := [s.n_actors], uri := some u }
      = Except.ok { error := none, op_res := some p1 } := by
    simp [Mx.load_pixbuf_thread, hp1]
  have ht2 : Mx.load_pixbuf_thread env
      { policy := MxTextureCachePolicy.MX_TEXTURE_CACHE_POLICY_NONE, key := "uri:" ++ u,
        enforced_square := false, width := to_guint aw2, height := to_guint ah2,
        textures := [s.n_actors + 1], uri := some u }
      = Except.ok { error := none, op_res := some p2 } := by
    simp [Mx.load_pixbuf_thread, hp2]
  simp only [Mx.complete_job, ht1, ht2]
  refine ⟨_, _, rfl, rfl, ?_⟩
  simp [Mx.on_pixbuf_loaded, load_pixbuf_async_finish, pixbuf_to_cogl_handle,
    set_texture_cogl_texture, clutter_texture_set_cogl_texture, set_opacity, cogl_handle_ref,
    cogl_handle_unref, cogl_is_texture, COGL_INVALID_HANDLE]

/-- C4 amended, applied: two asynchronous loads of `file:///tmp/a.png` on an empty
cache return the actors 0 and 1. -/
theorem load_uri_async_twice_amended_witness :
    mx_texture_cache_load_uri_async (mx_texture_cache_init World.initial)
        "file:///tmp/a.png" (-1) (-1)
      = ((mx_texture_cache_load_uri_async (mx_texture_cache_init World.initial)
            "file:///tmp/a.png" (-1) (-1)).1, 0)
    ∧ mx_texture_cache_load_uri_async
        (mx_texture_cache_load_uri_async (mx_texture_cache_init World.initial)
            "file:///tmp/a.png" (-1) (-1)).1 "file:///tmp/a.png" (-1) (-1)
      = ((mx_texture_cache_load_uri_async
            (mx_texture_cache_load_uri_async (mx_texture_cache_init World.initial)
              "file:///tmp/a.png" (-1) (-1)).1 "file:///tmp/a.png" (-1) (-1)).1, 1)
    ∧ (0 : Nat) ≠ 1
    ∧ (mx_texture_cache_load_uri_async
          (mx_texture_cache_load_uri_async (mx_texture_cache_init World.initial)
            "file:///tmp/a.png" (-1) (-1)).1 "file:///tmp/a.png" (-1) (-1)).1.outstanding_requests
        = (mx_texture_cache_init World.initial).outstanding_requests :=
  ⟨rfl, rfl,
   (load_uri_async_twice_amended sample_env (mx_texture_cache_init World.initial) _ _
      "file:///tmp/a.png" (-1) (-1) (-1) (-1) 0 1 rfl rfl).1,
   (load_uri_async_twice_amended sample_env (mx_texture_cache_init World.initial) _ _
      "file:///tmp/a.png" (-1) (-1) (-1) (-1) 0 1 rfl rfl).2.1⟩

/-! ## `mx_texture_cache_insert`, `mx_texture_cache_contains`, `mx_texture_cache_get_cogl_texture` -/

/-- C5, on the code: `mx_texture_cache_insert` stores texture 1 under the key
`file:///tmp/a.png` (given as a URI or as the path `/tmp/a.png`), but
`mx_texture_cache_get_item` looks up `compat:` followed by the converted name,
so `mx_texture_cache_contains` is FALSE right after the insert, and
`mx_texture_cache_get_cogl_texture` returns NULL for the URI and, for the
path, decodes the file and returns the new handle 3, not the inserted one. -/
theorem mx_insert_then_contains_false :
    g_hash_table_lookup
        (mx_texture_cache_insert sample_env (mx_texture_cache_init sample_world)
          "file:///tmp/a.png" 1).cache "file:///tmp/a.png"
      = some { mx_texture_cache_item_new with ptr := 1 }
    ∧ mx_texture_cache_contains sample_env
        (mx_texture_cache_insert sample_env (mx_texture_cache_init sample_world)
          "file:///tmp/a.png" 1) "file:///tmp/a.png" = false
    ∧ (mx_texture_cache_get_cogl_texture sample_env
        (mx_texture_cache_insert sample_env (mx_texture_cache_init sample_world)
          "file:///tmp/a.png" 1) "file:///tmp/a.png").2 = COGL_INVALID_HANDLE
    ∧ g_hash_table_lookup
        (mx_texture_cache_insert sample_env (mx_texture_cache_init sample_world)
          "/tmp/a.png" 1).cache "file:///tmp/a.png"
      = some { mx_texture_cache_item_new with ptr := 1 }
    ∧ mx_texture_cache_contains sample_env
        (mx_texture_cache_insert sample_env (mx_texture_cache_init sample_world)
          "/tmp/a.png" 1) "/tmp/a.png" = false
    ∧ (mx_texture_cache_get_cogl_texture sample_env
        (mx_texture_cache_insert sample_env (mx_texture_cache_init sample_world)
          "/tmp/a.png" 1) "/tmp/a.png").2 = 3
    ∧ (mx_texture_cache_get_cogl_texture sample_env
        (mx_texture_cache_insert sample_env (mx_texture_cache_init sample_world)
          "/tmp/a.png" 1) "/tmp/a.png").1.decodes = 1 := by
  refine ⟨by decide, by decide, by decide, by decide, by decide, by decide, by decide⟩

/-- C6, on the code: the first `mx_texture_cache_get_cogl_texture ("/tmp/a.png")`
on an empty cache decodes the file and returns handle 1, stored under
`file:///tmp/a.png`; the second call looks up `compat:file:///tmp/a.png`, misses,
runs the decoder again and returns the new handle 2, replacing the entry. -/
theorem mx_get_cogl_texture_twice_decodes_twice :
    (mx_texture_cache_get_cogl_texture sample_env (mx_texture_cache_init World.initial)
        "/tmp/a.png").2 = 1
    ∧ (mx_texture_cache_get_cogl_texture sample_env (mx_texture_cache_init World.initial)
        "/tmp/a.png").1.decodes = 1
    ∧ (mx_texture_cache_get_cogl_texture sample_env
        (mx_texture_cache_get_cogl_texture sample_env (mx_texture_cache_init World.initial)
          "/tmp/a.png").1 "/tmp/a.png").2 = 2
    ∧ (mx_texture_cache_get_cogl_texture sample_env
        (mx_texture_cache_get_cogl_texture sample_env (mx_texture_cache_init World.initial)
          "/tmp/a.png").1 "/tmp/a.png").1.decodes = 2
    ∧ (mx_texture_cache_get_cogl_texture sample_env
        (mx_texture_cache_get_cogl_texture sample_env (mx_texture_cache_init World.initial)
          "/tmp/a.png").1 "/tmp/a.png").1.cache
      = [("file:///tmp/a.png", { mx_texture_cache_item_new with ptr := 2 })] := by
  refine ⟨by decide, by decide, by decide, by decide, by decide⟩

/-- C8, on the code: after `mx_texture_cache_insert ("file:///tmp/a.png", 1)`,
`mx_texture_cache_insert_meta` for identifier 7 with texture 2 does not find
the entry (it looks up a `compat:` key), puts a zeroed item in its place -
the base texture 1 is released and the entry's `ptr` is NULL - and
`mx_texture_cache_contains_meta` is FALSE afterwards; a further insert_meta
for identifier 8 again replaces the entry, destroying the MetaEntry of 7. -/
theorem mx_insert_meta_replaces_entry :
    g_hash_table_lookup
        (mx_texture_cache_insert_meta sample_env
          (mx_texture_cache_insert sample_env (mx_texture_cache_init sample_world)
            "file:///tmp/a.png" 1)
          "file:///tmp/a.png" 7 2 none).cache "file:///tmp/a.png"
      = some { mx_texture_cache_item_new with
                meta := some [(7, { ident := 7, texture := 2, destroy_func := none })] }
    ∧ (mx_texture_cache_insert sample_env (mx_texture_cache_init sample_world)
          "file:///tmp/a.png" 1).ref_count 1 = 2
    ∧ (mx_texture_cache_insert_meta sample_env
          (mx_texture_cache_insert sample_env (mx_texture_cache_init sample_world)
            "file:///tmp/a.png" 1)
          "file:///tmp/a.png" 7 2 none).ref_count 1 = 1
    ∧ mx_texture_cache_contains_meta sample_env
        (mx_texture_cache_insert_meta sample_env
          (mx_texture_cache_insert sample_env (mx_texture_cache_init sample_world)
            "file:///tmp/a.png" 1)
          "file:///tmp/a.png" 7 2 none) "file:///tmp/a.png" 7 = false
    ∧ g_hash_table_lookup
        (mx_texture_cache_insert_meta sample_env
          (mx_texture_cache_insert_meta sample_env
            (mx_texture_cache_insert sample_env (mx_texture_cache_init sample_world)
              "file:///tmp/a.png" 1)
            "file:///tmp/a.png" 7 2 none)
          "file:///tmp/a.png" 8 2 none).cache "file:///tmp/a.png"
      = some { mx_texture_cache_item_new with
                meta := some [(8, { ident := 8, texture := 2, destroy_func := none })] } := by
  refine ⟨by decide, by decide, by decide, by decide, by decide⟩

/-! ## Reference counts -/

theorem ref_count_cogl_handle_ref (w : World) (h x : CoglHandle) :
    (cogl_handle_ref w h).ref_count x
      = w.ref_count x + (if x = h ∧ h ≠ COGL_INVALID_HANDLE then 1 else 0) := by
  unfold cogl_handle_ref
  by_cases h0 : h = COGL_INVALID_HANDLE
  · simp [h0]
  · by_cases hx : x = h
    · subst hx
      simp [h0]
    · simp [h0, hx, Function.update_noteq hx]

theorem ref_count_cogl_handle_unref (w : World) (h x : CoglHandle) :
    (cogl_handle_unref w h).ref_count x
      = w.ref_count x - (if x = h ∧ h ≠ COGL_INVALID_HANDLE then 1 else 0) := by
  unfold cogl_handle_unref
  by_cases h0 : h = COGL_INVALID_HANDLE
  · simp [h0]
  · by_cases hx : x = h
    · subst hx
      simp [h0]
    · simp [h0, hx, Function.update_noteq hx]

theorem ref_count_destroy_meta_entry (w : World) (e : MxTextureCacheMetaEntry)
    (x : CoglHandle) (hx : x ≠ COGL_INVALID_HANDLE) :
    (mx_texture_cache_destroy_meta_entry w e).ref_count x
      = w.ref_count x - (if e.texture = x then 1 else 0) := by
  unfold mx_texture_cache_destroy_meta_entry
  by_cases h0 : e.texture = COGL_INVALID_HANDLE
  · have hne : ¬ COGL_INVALID_HANDLE = x := fun h => hx h.symm
    cases hd : e.destroy_func <;> simp [h0, hne]
  · by_cases hex : e.texture = x
    · cases hd : e.destroy_func <;>
        simp [h0, hex, ref_count_cogl_handle_unref, hx, hex ▸ h0]
    · have hxe : ¬ x = e.texture := fun h => hex h.symm
      cases hd : e.destroy_func <;>
        simp [h0, hex, hxe, ref_count_cogl_handle_unref]

theorem ref_count_destroy_meta_entries (entries : GHashTable Nat MxTextureCacheMetaEntry)
    (w : World) (x : CoglHandle) (hx : x ≠ COGL_INVALID_HANDLE) :
    (entries.foldl (fun acc e => mx_texture_cache_destroy_meta_entry acc e.2) w).ref_count x
      = w.ref_count x - (entries.countP (fun e => e.2.texture = x) : Nat) := by
  induction entries generalizing w with
  | nil => simp
  | cons e t ih =>
    rw [List.foldl_cons, ih, ref_count_destroy_meta_entry _ _ _ hx, List.countP_cons]
    by_cases he : e.2.texture = x
    · simp [he]
      ring
    · simp [he]

theorem ref_count_item_free (w : World) (item : MxTextureCacheItem) (x : CoglHandle)
    (hx : x ≠ COGL_INVALID_HANDLE) :
    (mx_texture_cache_item_free w item).ref_count x
      = w.ref_count x - (if x = item.ptr then 1 else 0) - (meta_refs item x : Nat) := by
  unfold mx_texture_cache_item_free meta_refs
  by_cases hp : item.ptr = COGL_INVALID_HANDLE
  · cases hm : item.meta with
    | none => simp [hp, hx]
    | some entries => simp [hp, hx, ref_count_destroy_meta_entries _ _ _ hx]
  · cases hm : item.meta with
    | none => simp [hp, ref_count_cogl_handle_unref]
    | some entries =>
      simp [hp, ref_count_destroy_meta_entries _ _ _ hx, ref_count_cogl_handle_unref]

theorem mx_insert_over_entry (env : Env) (s : MxTextureCache) (u key : String)
    (t2 : CoglHandle) (old : MxTextureCacheItem)
    (hkey : transform_path_to_uri env u = some key)
    (hold : g_hash_table_lookup s.cache key = some old)
    (ht2 : cogl_is_texture t2 = true) :
    (mx_texture_cache_insert env s u t2).cache
        = g_hash_table_insert s.cache key { mx_texture_cache_item_new with ptr := t2 }
    ∧ (mx_texture_cache_insert env s u t2).toWorld
        = mx_texture_cache_item_free (cogl_handle_ref s.toWorld t2) old
    ∧ (∀ h : CoglHandle, h ≠ COGL_INVALID_HANDLE →
        (mx_texture_cache_insert env s u t2).ref_count h
          = s.ref_count h + (if h = t2 then 1 else 0) - (owned_refs old h : Nat)) := by
  have hn2 : t2 ≠ COGL_INVALID_HANDLE := by simpa [cogl_is_texture] using ht2
  have hcache : (mx_texture_cache_insert env s u t2).cache
      = g_hash_table_insert s.cache key { mx_texture_cache_item_new with ptr := t2 } := by
    simp [mx_texture_cache_insert, ht2, hkey, add_texture_to_cache, cache_insert]
  have hworld : (mx_texture_cache_insert env s u t2).toWorld
      = mx_texture_cache_item_free (cogl_handle_ref s.toWorld t2) old := by
    simp [mx_texture_cache_insert, ht2, hkey, add_texture_to_cache, cache_insert, hold]
  refine ⟨hcache, hworld, ?_⟩
  intro h hh
  rw [hworld, ref_count_item_free _ _ _ hh, ref_count_cogl_handle_ref]
  unfold owned_refs
  push_cast
  simp only [hn2, ne_eq, not_false_eq_true, and_true]
  split <;> split <;> ring

/-- C7. When the key of `u` holds an entry owning texture `t1` (the entry owns
one reference on `t1`, as its base texture or through its MetaEntry, and no
other), `mx_texture_cache_insert (u, t2)` leaves the entry count and every
other key's entry unchanged, makes the key map to an item with `ptr = t2`,
takes one new reference on `t2` and frees the old entry, which releases its
reference on `t1` once: the count of every handle changes by
`[h = t2] - [h = t1]`, so `t2` gains one and `t1` loses one, with net change 0
when `t1 = t2`.  The new entry again owns one reference, on `t2`. -/
theorem mx_insert_over_entry_owning_texture (env : Env) (s : MxTextureCache)
    (u key : String) (t1 t2 : CoglHandle) (old : MxTextureCacheItem)
    (hkey : transform_path_to_uri env u = some key)
    (hold : g_hash_table_lookup s.cache key = some old)
    (hown : ∀ h : CoglHandle, h ≠ COGL_INVALID_HANDLE →
      owned_refs old h = if h = t1 then 1 else 0)
    (ht1 : cogl_is_texture t1 = true)
    (ht2 : cogl_is_texture t2 = true) :
    g_hash_table_size (mx_texture_cache_insert env s u t2).cache = g_hash_table_size s.cache
    ∧ (∀ k : String, k ≠ key →
        g_hash_table_lookup (mx_texture_cache_insert env s u t2).cache k
          = g_hash_table_lookup s.cache k)
    ∧ g_hash_table_lookup (mx_texture_cache_insert env s u t2).cache key
        = some { mx_texture_cache_item_new with ptr := t2 }
    ∧ (mx_texture_cache_insert env s u t2).toWorld
        = mx_texture_cache_item_free (cogl_handle_ref s.toWorld t2) old
    ∧ (∀ h : CoglHandle, h ≠ COGL_INVALID_HANDLE →
        (mx_texture_cache_insert env s u t2).ref_count h
          = s.ref_count h + (if h = t2 then 1 else 0) - (if h = t1 then 1 else 0))
    ∧ (t1 ≠ t2 →
        (mx_texture_cache_insert env s u t2).ref_count t2 = s.ref_count t2 + 1
        ∧ (mx_texture_cache_insert env s u t2).ref_count t1 = s.ref_count t1 - 1)
    ∧ (t1 = t2 → (mx_texture_cache_insert env s u t2).ref_count t1 = s.ref_count t1)
    ∧ (∀ h : CoglHandle, h ≠ COGL_INVALID_HANDLE →
        owned_refs { mx_texture_cache_item_new with ptr := t2 } h = if h = t2 then 1 else 0) := by
  have hn1 : t1 ≠ COGL_INVALID_HANDLE := by simpa [cogl_is_texture] using ht1
  have hn2 : t2 ≠ COGL_INVALID_HANDLE := by simpa [cogl_is_texture] using ht2
  obtain ⟨hcache, hworld, hrc0⟩ := mx_insert_over_entry env s u key t2 old hkey hold ht2
  have hrc : ∀ h : CoglHandle, h ≠ COGL_INVALID_HANDLE →
      (mx_texture_cache_insert env s u t2).ref_count h
        = s.ref_count h + (if h = t2 then 1 else 0) - (if h = t1 then 1 else 0) := by
    intro h hh
    rw [hrc0 h hh, hown h hh]
    split <;> simp
  refine ⟨?_, ?_, ?_, hworld, hrc, ?_, ?_, ?_⟩
  · rw [hcache]
    exact g_hash_table_size_insert_of_present _ _ _ _ hold
  · intro k hk
    rw [hcache]
    exact g_hash_table_lookup_insert_of_ne _ _ _ _ hk
  · rw [hcache]
    exact g_hash_table_lookup_insert_self _ _ _
  · intro hne
    have hne2 : ¬ t2 = t1 := fun h => hne h.symm
    rw [hrc t2 hn2, hrc t1 hn1]
    simp [hne, hne2]
  · intro heq
    subst heq
    rw [hrc t1 hn1]
    simp
  · intro h _
    simp [owned_refs, meta_refs, mx_texture_cache_item_new]

/-- C7, applied to two states made by public calls.  After an insert of
texture 1 the entry owns 1 as its base texture: inserting texture 2 gives 2
one reference more and 1 one fewer.  After a further `insert_meta` of texture
1 the entry owns 1 through its MetaEntry: inserting 1 again leaves the count
of 1 as it was. -/
theorem mx_insert_over_entry_owning_texture_witness :
    g_hash_table_lookup sample_cache_inserted.cache "file:///tmp/a.png"
      = some { mx_texture_cache_item_new with ptr := 1 }
    ∧ ((mx_texture_cache_insert sample_env sample_cache_inserted "file:///tmp/a.png" 2).ref_count 2
        = sample_cache_inserted.ref_count 2 + 1
      ∧ (mx_texture_cache_insert sample_env sample_cache_inserted "file:///tmp/a.png" 2).ref_count 1
        = sample_cache_inserted.ref_count 1 - 1)
    ∧ g_hash_table_lookup sample_cache_inserted_meta.cache "file:///tmp/a.png"
      = some { mx_texture_cache_item_new with
                meta := some [(7, { ident := 7, texture := 1, destroy_func := none })] }
    ∧ (mx_texture_cache_insert sample_env sample_cache_inserted_meta
          "file:///tmp/a.png" 1).ref_count 1
        = sample_cache_inserted_meta.ref_count 1 :=
  ⟨by decide,
   (mx_insert_over_entry_owning_texture sample_env sample_cache_inserted
      "file:///tmp/a.png" "file:///tmp/a.png" 1 2 { mx_texture_cache_item_new with ptr := 1 }
      (by decide) (by decide)
      (by
        intro h hh
        simp [owned_refs, meta_refs, mx_texture_cache_item_new])
      (by decide) (by decide)).2.2.2.2.2.1 (by decide),
   by decide,
   (mx_insert_over_entry_owning_texture sample_env sample_cache_inserted_meta
      "file:///tmp/a.png" "file:///tmp/a.png" 1 1
      { mx_texture_cache_item_new with
        meta := some [(7, { ident := 7, texture := 1, destroy_func := none })] }
      (by decide) (by decide)
      (by
        intro h hh
        have hh0 : ¬ h = 0 := hh
        by_cases h1 : h = 1
        · subst h1
          decide
        · have h1' : ¬ 1 = h := fun e => h1 e.symm
          simp [owned_refs, meta_refs, mx_texture_cache_item_new, COGL_INVALID_HANDLE, hh0,
            h1, h1', List.countP_cons])
      (by decide) (by decide)).2.2.2.2.2.2.1 rfl⟩

/-! ## Delivery of a texture to the waiting actors -/

theorem actors_cogl_handle_ref (w : World) (h : CoglHandle) :
    (cogl_handle_ref w h).actors = w.actors := by
  unfold cogl_handle_ref
  split <;> rfl

theorem actors_cogl_handle_unref (w : World) (h : CoglHandle) :
    (cogl_handle_unref w h).actors = w.actors := by
  unfold cogl_handle_unref
  split <;> rfl

theorem actors_set_texture_cogl_texture (w : World) (t0 t : Nat) (h : CoglHandle)
    (hh : h ≠ COGL_INVALID_HANDLE) :
    (set_texture_cogl_texture w t0 h).actors t
      = if t = t0 then { w.actors t0 with cogl_texture := h, opacity := 255 }
        else w.actors t := by
  unfold set_texture_cogl_texture set_opacity clutter_texture_set_cogl_texture
  simp only [cogl_is_texture, hh, ne_eq, not_false_eq_true, decide_True, if_true]
  by_cases ht : t = t0
  · subst ht
    simp [actors_cogl_handle_unref, actors_cogl_handle_ref]
  · simp [ht, Function.update_noteq ht, actors_cogl_handle_unref, actors_cogl_handle_ref]

theorem ref_count_set_texture_cogl_texture (w : World) (t0 : Nat) (h x : CoglHandle)
    (hh : h ≠ COGL_INVALID_HANDLE) :
    (set_texture_cogl_texture w t0 h).ref_count x
      = w.ref_count x + (if x = h then 1 else 0)
          - (if x = (w.actors t0).cogl_texture
                ∧ (w.actors t0).cogl_texture ≠ COGL_INVALID_HANDLE then 1 else 0) := by
  unfold set_texture_cogl_texture set_opacity clutter_texture_set_cogl_texture
  simp only [cogl_is_texture, hh, ne_eq, not_false_eq_true, decide_True, if_true]
  rw [ref_count_cogl_handle_unref]
  simp only [ref_count_cogl_handle_ref, hh, ne_eq, not_false_eq_true, and_true]

theorem actors_deliver (ts : List Nat) (w : World) (h : CoglHandle) (t : Nat)
    (hh : h ≠ COGL_INVALID_HANDLE) :
    (ts.foldl (fun acc texture => set_texture_cogl_texture acc texture h) w).actors t
      = if t ∈ ts then { w.actors t with cogl_texture := h, opacity := 255 }
        else w.actors t := by
  induction ts generalizing w with
  | nil => simp
  | cons t0 ts ih =>
    rw [List.foldl_cons, ih, actors_set_texture_cogl_texture _ _ _ _ hh]
    by_cases h0 : t = t0
    · subst h0
      by_cases hm : t ∈ ts <;> simp [hm]
    · by_cases hm : t ∈ ts <;> simp [hm, h0]

theorem ref_count_deliver (ts : List Nat) (w : World) (h : CoglHandle)
    (hh : h ≠ COGL_INVALID_HANDLE) (hnodup : ts.Nodup)
    (hold : ∀ t ∈ ts, (w.actors t).cogl_texture ≠ h) :
    (ts.foldl (fun acc texture => set_texture_cogl_texture acc texture h) w).ref_count h
      = w.ref_count h + (ts.length : Nat) := by
  induction ts generalizing w with
  | nil => simp
  | cons t0 ts ih =>
    have hnd := List.nodup_cons.mp hnodup
    have hold0 : ¬ h = (w.actors t0).cogl_texture :=
      fun e => hold t0 (List.mem_cons_self _ _) e.symm
    rw [List.foldl_cons, ih _ hnd.2, ref_count_set_texture_cogl_texture _ _ _ _ hh]
    · simp [hold0]
      ring
    · intro t ht
      have hne : t ≠ t0 := fun e => hnd.1 (e ▸ ht)
      rw [actors_set_texture_cogl_texture _ _ _ _ hh, if_neg hne]
      exact hold t (List.mem_cons_of_mem _ ht)

/-! ## `on_pixbuf_loaded` -/

theorem mx_on_pixbuf_loaded_none (s : MxTextureCache) (result : AsyncResult)
    (data : MxTextureCacheAsyncLoadData) (pixbuf : GdkPixbuf)
    (hpol : data.policy = MxTextureCachePolicy.MX_TEXTURE_CACHE_POLICY_NONE)
    (hres : load_pixbuf_async_finish result = some pixbuf) :
    (Mx.on_pixbuf_loaded s result data).cache = s.cache
    ∧ (Mx.on_pixbuf_loaded s result data).toWorld
      = cogl_handle_unref
          (data.textures.foldl
            (fun acc texture => set_texture_cogl_texture acc texture (s.n_handles + 1))
            (pixbuf_to_cogl_handle s.toWorld pixbuf data.enforced_square).1)
          (s.n_handles + 1) := by
  simp [Mx.on_pixbuf_loaded, hres, hpol, pixbuf_to_cogl_handle, COGL_INVALID_HANDLE]

theorem mx_get_item_lookup_only (env : Env) (s s2 : MxTextureCache) (filename : String)
    (hc : s2.cache = s.cache) :
    (mx_texture_cache_get_item env s2 filename false).2
      = (mx_texture_cache_get_item env s filename false).2 := by
  simp only [mx_texture_cache_get_item, hc]
  split <;> simp

/-- C9. For a request with policy NONE whose decode yields a pixbuf,
`on_pixbuf_loaded` leaves the cache store as it was (an absent key stays
absent and `mx_texture_cache_contains` answers as before, so FALSE stays
FALSE), while every texture waiting on the request shows the newly converted
handle and has opacity 255; and every request that
`mx_texture_cache_load_uri_async` dispatches has policy NONE. -/
theorem on_pixbuf_loaded_policy_none (s : MxTextureCache) (result : AsyncResult)
    (data : MxTextureCacheAsyncLoadData) (pixbuf : GdkPixbuf)
    (hpol : data.policy = MxTextureCachePolicy.MX_TEXTURE_CACHE_POLICY_NONE)
    (hres : load_pixbuf_async_finish result = some pixbuf) :
    (Mx.on_pixbuf_loaded s result data).cache = s.cache
    ∧ (∀ k : String, g_hash_table_lookup s.cache k = none →
        g_hash_table_lookup (Mx.on_pixbuf_loaded s result data).cache k = none)
    ∧ (∀ (env : Env) (u : String), mx_texture_cache_contains env s u = false →
        mx_texture_cache_contains env (Mx.on_pixbuf_loaded s result data) u = false)
    ∧ (∀ t ∈ data.textures,
        ((Mx.on_pixbuf_loaded s result data).actors t).cogl_texture = s.n_handles + 1
        ∧ s.n_handles + 1 ≠ COGL_INVALID_HANDLE
        ∧ ((Mx.on_pixbuf_loaded s result data).actors t).opacity = 255)
    ∧ (∀ (s0 : MxTextureCache) (u : String) (aw ah : Int),
        ∀ d ∈ (mx_texture_cache_load_uri_async s0 u aw ah).1.threads,
          d ∈ s0.threads ∨ d.policy = MxTextureCachePolicy.MX_TEXTURE_CACHE_POLICY_NONE) := by
  obtain ⟨hc, hw⟩ := mx_on_pixbuf_loaded_none s result data pixbuf hpol hres
  have hne : s.n_handles + 1 ≠ COGL_INVALID_HANDLE := by simp [COGL_INVALID_HANDLE]
  refine ⟨hc, ?_, ?_, ?_, ?_⟩
  · intro k hk
    rw [hc]
    exact hk
  · intro env u hu
    unfold mx_texture_cache_contains at hu ⊢
    rw [mx_get_item_lookup_only env s _ u hc]
    exact hu
  · intro t ht
    have ha : (Mx.on_pixbuf_loaded s result data).actors t
        = (Mx.on_pixbuf_loaded s result data).toWorld.actors t := rfl
    rw [ha, hw, actors_cogl_handle_unref, actors_deliver _ _ _ _ hne, if_pos ht]
    exact ⟨rfl, hne, rfl⟩
  · intro s0 u aw ah d hd
    simp only [mx_texture_cache_load_uri_async, load_texture_async, List.mem_append,
      List.mem_singleton] at hd
    rcases hd with hd | hd
    · exact Or.inl hd
    · exact Or.inr (by rw [hd])

/-- C9, applied: the request of one `mx_texture_cache_load_uri_async` call on an
empty cache, completed with `sample_pixbuf`. -/
theorem on_pixbuf_loaded_policy_none_witness :
    (MxTextureCacheAsyncLoadData.mk MxTextureCachePolicy.MX_TEXTURE_CACHE_POLICY_NONE
        "uri:file:///tmp/a.png" false 4294967295 4294967295 [0] (some "file:///tmp/a.png")).policy
      = MxTextureCachePolicy.MX_TEXTURE_CACHE_POLICY_NONE
    ∧ load_pixbuf_async_finish { error := none, op_res := some sample_pixbuf }
        = some sample_pixbuf
    ∧ (Mx.on_pixbuf_loaded
        (mx_texture_cache_load_uri_async (mx_texture_cache_init World.initial)
          "file:///tmp/a.png" (-1) (-1)).1
        { error := none, op_res := some sample_pixbuf }
        (MxTextureCacheAsyncLoadData.mk MxTextureCachePolicy.MX_TEXTURE_CACHE_POLICY_NONE
          "uri:file:///tmp/a.png" false 4294967295 4294967295 [0]
          (some "file:///tmp/a.png"))).cache
      = (mx_texture_cache_load_uri_async (mx_texture_cache_init World.initial)
          "file:///tmp/a.png" (-1) (-1)).1.cache :=
  ⟨rfl, rfl,
   (on_pixbuf_loaded_policy_none
      (mx_texture_cache_load_uri_async (mx_texture_cache_init World.initial)
        "file:///tmp/a.png" (-1) (-1)).1
      { error := none, op_res := some sample_pixbuf }
      (MxTextureCacheAsyncLoadData.mk MxTextureCachePolicy.MX_TEXTURE_CACHE_POLICY_NONE
        "uri:file:///tmp/a.png" false 4294967295 4294967295 [0] (some "file:///tmp/a.png"))
      sample_pixbuf rfl rfl).1⟩

theorem mx_on_pixbuf_loaded_insert (s : MxTextureCache) (result : AsyncResult)
    (data : MxTextureCacheAsyncLoadData) (pixbuf : GdkPixbuf)
    (hpol : data.policy ≠ MxTextureCachePolicy.MX_TEXTURE_CACHE_POLICY_NONE)
    (hres : load_pixbuf_async_finish result = some pixbuf)
    (habs : g_hash_table_lookup s.cache data.key = none) :
    (Mx.on_pixbuf_loaded s result data).cache
      = g_hash_table_insert s.cache data.key
          { mx_texture_cache_item_new with ptr := s.n_handles + 1 }
    ∧ (Mx.on_pixbuf_loaded s result data).toWorld
      = cogl_handle_unref
          (data.textures.foldl
            (fun acc texture => set_texture_cogl_texture acc texture (s.n_handles + 1))
            (cogl_handle_ref (pixbuf_to_cogl_handle s.toWorld pixbuf data.enforced_square).1
              (s.n_handles + 1)))
          (s.n_handles + 1) := by
  simp [Mx.on_pixbuf_loaded, hres, hpol, pixbuf_to_cogl_handle, COGL_INVALID_HANDLE, habs,
    add_texture_to_cache, cache_insert]

theorem mx_on_pixbuf_loaded_present (s : MxTextureCache) (result : AsyncResult)
    (data : MxTextureCacheAsyncLoadData) (pixbuf : GdkPixbuf) (old : MxTextureCacheItem)
    (hres : load_pixbuf_async_finish result = some pixbuf)
    (hold : g_hash_table_lookup s.cache data.key = some old) :
    (Mx.on_pixbuf_loaded s result data).cache = s.cache := by
  by_cases hpol : data.policy = MxTextureCachePolicy.MX_TEXTURE_CACHE_POLICY_NONE
  · simp [Mx.on_pixbuf_loaded, hres, hpol]
  · simp [Mx.on_pixbuf_loaded, hres, hpol, pixbuf_to_cogl_handle, hold]

theorem st_on_pixbuf_loaded_insert (s : MxStTextureCache) (result : AsyncResult)
    (data : AsyncTextureLoadData) (pixbuf : GdkPixbuf)
    (hpol : data.policy ≠ MxStTextureCachePolicy.MX_ST_TEXTURE_CACHE_POLICY_NONE)
    (hres : load_pixbuf_async_finish result = some pixbuf)
    (habs : g_hash_table_lookup s.keyed_cache data.key = none) :
    (St.on_pixbuf_loaded s result data).keyed_cache
      = g_hash_table_insert s.keyed_cache data.key (s.n_handles + 1)
    ∧ (St.on_pixbuf_loaded s result data).toWorld
      = cogl_handle_unref
          (data.textures.foldl
            (fun acc texture => set_texture_cogl_texture acc texture (s.n_handles + 1))
            (cogl_handle_ref (pixbuf_to_cogl_handle s.toWorld pixbuf data.enforced_square).1
              (s.n_handles + 1)))
          (s.n_handles + 1) := by
  simp [St.on_pixbuf_loaded, hres, hpol, pixbuf_to_cogl_handle, COGL_INVALID_HANDLE, habs,
    keyed_cache_insert]

theorem st_on_pixbuf_loaded_present (s : MxStTextureCache) (result : AsyncResult)
    (data : AsyncTextureLoadData) (pixbuf : GdkPixbuf) (old : CoglHandle)
    (hres : load_pixbuf_async_finish result = some pixbuf)
    (hold : g_hash_table_lookup s.keyed_cache data.key = some old) :
    (St.on_pixbuf_loaded s result data).keyed_cache = s.keyed_cache := by
  by_cases hpol : data.policy = MxStTextureCachePolicy.MX_ST_TEXTURE_CACHE_POLICY_NONE
  · simp [St.on_pixbuf_loaded, hres, hpol]
  · simp [St.on_pixbuf_loaded, hres, hpol, pixbuf_to_cogl_handle, hold]

theorem ref_count_after_delivery (w : World) (pixbuf : GdkPixbuf) (sq : Bool) (ts : List Nat)
    (hnodup : ts.Nodup) (hact : ∀ a : Nat, (w.actors a).cogl_texture ≤ w.n_handles) :
    (cogl_handle_unref
        (ts.foldl (fun acc texture => set_texture_cogl_texture acc texture (w.n_handles + 1))
          (cogl_handle_ref (pixbuf_to_cogl_handle w pixbuf sq).1 (w.n_handles + 1)))
        (w.n_handles + 1)).ref_count (w.n_handles + 1) = 1 + (ts.length : Nat) := by
  have hne : w.n_handles + 1 ≠ COGL_INVALID_HANDLE := by simp [COGL_INVALID_HANDLE]
  rw [ref_count_cogl_handle_unref, ref_count_deliver _ _ _ hne hnodup,
    ref_count_cogl_handle_ref]
  · simp [pixbuf_to_cogl_handle, COGL_INVALID_HANDLE]
    ring
  · intro t _
    rw [actors_cogl_handle_ref]
    exact Nat.ne_of_lt (Nat.lt_succ_of_le (hact t))

theorem actors_after_delivery (w : World) (pixbuf : GdkPixbuf) (sq : Bool) (ts : List Nat)
    (t : Nat) (ht : t ∈ ts) :
    ((cogl_handle_unref
        (ts.foldl (fun acc texture => set_texture_cogl_texture acc texture (w.n_handles + 1))
          (cogl_handle_ref (pixbuf_to_cogl_handle w pixbuf sq).1 (w.n_handles + 1)))
        (w.n_handles + 1)).actors t).cogl_texture = w.n_handles + 1 := by
  have hne : w.n_handles + 1 ≠ COGL_INVALID_HANDLE := by simp [COGL_INVALID_HANDLE]
  rw [actors_cogl_handle_unref, actors_deliver _ _ _ _ hne, if_pos ht]

/-- C10. For a request with policy other than NONE whose decode yields a
pixbuf, after `on_pixbuf_loaded` (of `mx-texture-cache-pixbuf.c` and of
`st-texture-cache.c`) the request's key is present in the cache.  If it was
absent it now maps to the newly converted handle, every waiting texture shows
that handle, and with distinct waiting textures (none of which can show a
handle that does not exist yet) the handle's reference count is one, the
cache's, plus one per waiting texture.  If it was present the cache store is
left as it was. -/
theorem on_pixbuf_loaded_policy_caches (result : AsyncResult) (pixbuf : GdkPixbuf)
    (hres : load_pixbuf_async_finish result = some pixbuf) :
    (∀ (s : MxTextureCache) (data : MxTextureCacheAsyncLoadData),
      data.policy ≠ MxTextureCachePolicy.MX_TEXTURE_CACHE_POLICY_NONE →
      (g_hash_table_lookup (Mx.on_pixbuf_loaded s result data).cache data.key).isSome = true
      ∧ (g_hash_table_lookup s.cache data.key = none →
          g_hash_table_lookup (Mx.on_pixbuf_loaded s result data).cache data.key
            = some { mx_texture_cache_item_new with ptr := s.n_handles + 1 }
          ∧ (∀ t ∈ data.textures,
              ((Mx.on_pixbuf_loaded s result data).actors t).cogl_texture = s.n_handles + 1)
          ∧ (data.textures.Nodup → (∀ a : Nat, (s.actors a).cogl_texture ≤ s.n_handles) →
              (Mx.on_pixbuf_loaded s result data).ref_count (s.n_handles + 1)
                = 1 + (data.textures.length : Nat)))
      ∧ (∀ old : MxTextureCacheItem, g_hash_table_lookup s.cache data.key = some old →
          (Mx.on_pixbuf_loaded s result data).cache = s.cache))
    ∧ (∀ (s : MxStTextureCache) (data : AsyncTextureLoadData),
      data.policy ≠ MxStTextureCachePolicy.MX_ST_TEXTURE_CACHE_POLICY_NONE →
      (g_hash_table_lookup (St.on_pixbuf_loaded s result data).keyed_cache data.key).isSome
        = true
      ∧ (g_hash_table_lookup s.keyed_cache data.key = none →
          g_hash_table_lookup (St.on_pixbuf_loaded s result data).keyed_cache data.key
            = some (s.n_handles + 1)
          ∧ (∀ t ∈ data.textures,
              ((St.on_pixbuf_loaded s result data).actors t).cogl_texture = s.n_handles + 1)
          ∧ (data.textures.Nodup → (∀ a : Nat, (s.actors a).cogl_texture ≤ s.n_handles) →
              (St.on_pixbuf_loaded s result data).ref_count (s.n_handles + 1)
                = 1 + (data.textures.length : Nat)))
      ∧ (∀ old : CoglHandle, g_hash_table_lookup s.keyed_cache data.key = some old →
          (St.on_pixbuf_loaded s result data).keyed_cache = s.keyed_cache)) := by
  constructor
  · intro s data hpol
    have hpresent : ∀ old : MxTextureCacheItem,
        g_hash_table_lookup s.cache data.key = some old →
        (Mx.on_pixbuf_loaded s result data).cache = s.cache :=
      fun old hold => mx_on_pixbuf_loaded_present s result data pixbuf old hres hold
    have habsent : g_hash_table_lookup s.cache data.key = none →
        g_hash_table_lookup (Mx.on_pixbuf_loaded s result data).cache data.key
          = some { mx_texture_cache_item_new with ptr := s.n_handles + 1 } := by
      intro habs
      rw [(mx_on_pixbuf_loaded_insert s result data pixbuf hpol hres habs).1]
      exact g_hash_table_lookup_insert_self _ _ _
    refine ⟨?_, ?_, hpresent⟩
    · cases hl : g_hash_table_lookup s.cache data.key with
      | none => rw [habsent hl]; rfl
      | some old => rw [hpresent old hl, hl]; rfl
    · intro habs
      have hw := (mx_on_pixbuf_loaded_insert s result data pixbuf hpol hres habs).2
      refine ⟨habsent habs, ?_, ?_⟩
      · intro t ht
        have ha : (Mx.on_pixbuf_loaded s result data).actors t
            = (Mx.on_pixbuf_loaded s result data).toWorld.actors t := rfl
        rw [ha, hw]
        exact actors_after_delivery s.toWorld pixbuf _ _ t ht
      · intro hnodup hact
        have hr : (Mx.on_pixbuf_loaded s result data).ref_count (s.n_handles + 1)
            = (Mx.on_pixbuf_loaded s result data).toWorld.ref_count (s.n_handles + 1) := rfl
        rw [hr, hw]
        exact ref_count_after_delivery s.toWorld pixbuf _ _ hnodup hact
  · intro s data hpol
    have hpresent : ∀ old : CoglHandle,
        g_hash_table_lookup s.keyed_cache data.key = some old →
        (St.on_pixbuf_loaded s result data).keyed_cache = s.keyed_cache :=
      fun old hold => st_on_pixbuf_loaded_present s result data pixbuf old hres hold
    have habsent : g_hash_table_lookup s.keyed_cache data.key = none →
        g_hash_table_lookup (St.on_pixbuf_loaded s result data).keyed_cache data.key
          = some (s.n_handles + 1) := by
      intro habs
      rw [(st_on_pixbuf_loaded_insert s result data pixbuf hpol hres habs).1]
      exact g_hash_table_lookup_insert_self _ _ _
    refine ⟨?_, ?_, hpresent⟩
    · cases hl : g_hash_table_lookup s.keyed_cache data.key with
      | none => rw [habsent hl]; rfl
      | some old => rw [hpresent old hl, hl]; rfl
    · intro habs
      have hw := (st_on_pixbuf_loaded_insert s result data pixbuf hpol hres habs).2
      refine ⟨habsent habs, ?_, ?_⟩
      · intro t ht
        have ha : (St.on_pixbuf_loaded s result data).actors t
            = (St.on_pixbuf_loaded s result data).toWorld.actors t := rfl
        rw [ha, hw]
        exact actors_after_delivery s.toWorld pixbuf _ _ t ht
      · intro hnodup hact
        have hr : (St.on_pixbuf_loaded s result data).ref_count (s.n_handles + 1)
            = (St.on_pixbuf_loaded s result data).toWorld.ref_count (s.n_handles + 1) := rfl
        rw [hr, hw]
        exact ref_count_after_delivery s.toWorld pixbuf _ _ hnodup hact

theorem sample_waiting_world_actors (a : Nat) :
    (sample_waiting_world.actors a).cogl_texture ≤ sample_waiting_world.n_handles := by
  simp only [sample_waiting_world, create_default_texture, World.initial, Function.update]
  split <;> (try split) <;> simp [COGL_INVALID_HANDLE]

/-- C10, applied: a FOREVER request with two waiting actors on an empty
`MxTextureCache`, and a thumbnail request with one waiting actor on an empty
`MxStTextureCache`; the new handle 1 ends with 3 and 2 references. -/
theorem on_pixbuf_loaded_policy_caches_witness :
    load_pixbuf_async_finish { error := none, op_res := some sample_pixbuf }
        = some sample_pixbuf
    ∧ g_hash_table_lookup
        (Mx.on_pixbuf_loaded (mx_texture_cache_init sample_waiting_world)
          { error := none, op_res := some sample_pixbuf } sample_request).cache
        sample_request.key
        = some { mx_texture_cache_item_new with ptr := 1 }
    ∧ (Mx.on_pixbuf_loaded (mx_texture_cache_init sample_waiting_world)
          { error := none, op_res := some sample_pixbuf } sample_request).ref_count 1
        = 1 + ((2 : Nat) : Int)
    ∧ (St.on_pixbuf_loaded (mx_st_texture_cache_init sample_waiting_world)
          { error := none, op_res := some sample_pixbuf } sample_thumbnail_request).ref_count 1
        = 1 + ((1 : Nat) : Int) :=
  ⟨rfl,
   (((on_pixbuf_loaded_policy_caches { error := none, op_res := some sample_pixbuf }
      sample_pixbuf rfl).1 (mx_texture_cache_init sample_waiting_world) sample_request
      (by decide)).2.1 rfl).1,
   (((on_pixbuf_loaded_policy_caches { error := none, op_res := some sample_pixbuf }
      sample_pixbuf rfl).1 (mx_texture_cache_init sample_waiting_world) sample_request
      (by decide)).2.1 rfl).2.2 (by decide) sample_waiting_world_actors,
   (((on_pixbuf_loaded_policy_caches { error := none, op_res := some sample_pixbuf }
      sample_pixbuf rfl).2 (mx_st_texture_cache_init sample_waiting_world)
      sample_thumbnail_request (by decide)).2.1 rfl).2.2 (by decide)
      sample_waiting_world_actors⟩

/-! ## Failed decodes -/

theorem g_hash_table_lookup_remove_self {K V : Type} [DecidableEq K] (t : GHashTable K V)
    (k : K) : g_hash_table_lookup (g_hash_table_remove t k) k = none := by
  induction t with
  | nil => simp [g_hash_table_remove, g_hash_table_lookup]
  | cons p t ih =>
    obtain ⟨k', v'⟩ := p
    by_cases h : k' = k
    · simp [g_hash_table_remove, h, ih]
    · simp [g_hash_table_remove, g_hash_table_lookup, h, ih]

/-- C11. When the worker reports an error or produces no pixbuf, the result it
hands over makes `load_pixbuf_async_finish` return NULL; and for every
request and policy, `on_pixbuf_loaded` with such a result leaves the cache
store unchanged, touches no actor (a waiting texture created with opacity 0
still has opacity 0 and no texture) and no reference count, and the
request's key is not in the outstanding-requests table afterwards. -/
theorem on_pixbuf_loaded_decode_failed (s : MxTextureCache) (result : AsyncResult)
    (data : MxTextureCacheAsyncLoadData)
    (hfail : load_pixbuf_async_finish result = none) :
    (Mx.on_pixbuf_loaded s result data).cache = s.cache
    ∧ (Mx.on_pixbuf_loaded s result data).actors = s.actors
    ∧ (∀ t ∈ data.textures, (s.actors t).opacity = 0 →
        ((Mx.on_pixbuf_loaded s result data).actors t).opacity = 0
        ∧ ((Mx.on_pixbuf_loaded s result data).actors t).cogl_texture
            = (s.actors t).cogl_texture)
    ∧ (Mx.on_pixbuf_loaded s result data).ref_count = s.ref_count
    ∧ (Mx.on_pixbuf_loaded s result data).n_handles = s.n_handles
    ∧ g_hash_table_lookup (Mx.on_pixbuf_loaded s result data).outstanding_requests data.key
        = none
    ∧ (∀ (env : Env) (d : MxTextureCacheAsyncLoadData) (uri : String), d.uri = some uri →
        ((env.impl_load_pixbuf_file uri (wrap_int d.width) (wrap_int d.height)).2 ≠ none
          ∨ (env.impl_load_pixbuf_file uri (wrap_int d.width) (wrap_int d.height)).1 = none) →
        ∃ r : AsyncResult, Mx.load_pixbuf_thread env d = Except.ok r
          ∧ load_pixbuf_async_finish r = none) := by
  have hs : Mx.on_pixbuf_loaded s result data
      = { s with outstanding_requests := g_hash_table_remove s.outstanding_requests data.key } := by
    simp [Mx.on_pixbuf_loaded, hfail]
  rw [hs]
  refine ⟨rfl, rfl, fun t _ h0 => ⟨h0, rfl⟩, rfl, rfl, g_hash_table_lookup_remove_self _ _, ?_⟩
  intro env d uri hd hbad
  cases he : (env.impl_load_pixbuf_file uri (wrap_int d.width) (wrap_int d.height)).2 with
  | some e =>
    exact ⟨{ error := some e, op_res := none }, by simp [Mx.load_pixbuf_thread, hd, he],
      by simp [load_pixbuf_async_finish]⟩
  | none =>
    rcases hbad with hb | hb
    · exact absurd he hb
    · exact ⟨{ error := none, op_res := none }, by simp [Mx.load_pixbuf_thread, hd, he, hb],
        by simp [load_pixbuf_async_finish]⟩

/-- C11, applied: the request of a `mx_texture_cache_load_uri_async` call for an
unreadable file, registered by hand in the outstanding-requests table. -/
theorem on_pixbuf_loaded_decode_failed_witness :
    load_pixbuf_async_finish { error := some "Error opening file", op_res := none } = none
    ∧ g_hash_table_lookup
        (Mx.on_pixbuf_loaded
          { mx_texture_cache_init sample_waiting_world with
            outstanding_requests := [("uri:file:///tmp/a.png", 1)] }
          { error := some "Error opening file", op_res := none }
          sample_request).outstanding_requests sample_request.key = none
    ∧ (Mx.on_pixbuf_loaded
          { mx_texture_cache_init sample_waiting_world with
            outstanding_requests := [("uri:file:///tmp/a.png", 1)] }
          { error := some "Error opening file", op_res := none }
          sample_request).cache
        = (mx_texture_cache_init sample_waiting_world).cache :=
  ⟨rfl,
   (on_pixbuf_loaded_decode_failed
      { mx_texture_cache_init sample_waiting_world with
        outstanding_requests := [("uri:file:///tmp/a.png", 1)] }
      { error := some "Error opening file", op_res := none } sample_request rfl).2.2.2.2.2.1,
   (on_pixbuf_loaded_decode_failed
      { mx_texture_cache_init sample_waiting_world with
        outstanding_requests := [("uri:file:///tmp/a.png", 1)] }
      { error := some "Error opening file", op_res := none } sample_request rfl).1⟩

/-- C12. With the key `"uri:" ++ uri` absent and no pixbuf from
`impl_load_pixbuf_file`, both synchronous loads return `COGL_INVALID_HANDLE`
for every policy and available size, and the cache store (and every reference
count) afterwards equals the one before. -/
theorem load_uri_sync_failure_is_atomic (env : Env) (uri : String) (aw ah : Int)
    (hfail : (env.impl_load_pixbuf_file uri aw ah).1 = none) :
    (∀ (s : MxTextureCache) (policy : MxTextureCachePolicy),
      g_hash_table_lookup s.cache ("uri:" ++ uri) = none →
      (mx_texture_cache_load_uri_sync_to_cogl_texture env s policy uri aw ah).2.1
          = COGL_INVALID_HANDLE
      ∧ (mx_texture_cache_load_uri_sync_to_cogl_texture env s policy uri aw ah).1.cache
          = s.cache
      ∧ (mx_texture_cache_load_uri_sync_to_cogl_texture env s policy uri aw ah).1.ref_count
          = s.ref_count)
    ∧ (∀ (s : MxStTextureCache) (policy : MxStTextureCachePolicy),
      g_hash_table_lookup s.keyed_cache ("uri:" ++ uri) = none →
      (mx_st_texture_cache_load_uri_sync_to_cogl_texture env s policy uri aw ah).2.1
          = COGL_INVALID_HANDLE
      ∧ (mx_st_texture_cache_load_uri_sync_to_cogl_texture env s policy uri aw ah).1.keyed_cache
          = s.keyed_cache
      ∧ (mx_st_texture_cache_load_uri_sync_to_cogl_texture env s policy uri aw ah).1.ref_count
          = s.ref_count) := by
  constructor
  · intro s policy habs
    simp [mx_texture_cache_load_uri_sync_to_cogl_texture, habs, hfail]
  · intro s policy habs
    simp [mx_st_texture_cache_load_uri_sync_to_cogl_texture, habs, hfail]

/-- C12, applied: loading the unreadable `file:///tmp/missing.png` into empty
caches. -/
theorem load_uri_sync_failure_is_atomic_witness :
    (sample_env.impl_load_pixbuf_file "file:///tmp/missing.png" 32 32).1 = none
    ∧ (mx_texture_cache_load_uri_sync_to_cogl_texture sample_env
        (mx_texture_cache_init World.initial)
        MxTextureCachePolicy.MX_TEXTURE_CACHE_POLICY_FOREVER
        "file:///tmp/missing.png" 32 32).2.1 = COGL_INVALID_HANDLE
    ∧ (mx_st_texture_cache_load_uri_sync_to_cogl_texture sample_env
        (mx_st_texture_cache_init World.initial)
        MxStTextureCachePolicy.MX_ST_TEXTURE_CACHE_POLICY_FOREVER
        "file:///tmp/missing.png" 32 32).1.keyed_cache
      = (mx_st_texture_cache_init World.initial).keyed_cache :=
  ⟨by decide,
   ((load_uri_sync_failure_is_atomic sample_env "file:///tmp/missing.png" 32 32
      (by decide)).1 (mx_texture_cache_init World.initial)
      MxTextureCachePolicy.MX_TEXTURE_CACHE_POLICY_FOREVER rfl).1,
   ((load_uri_sync_failure_is_atomic sample_env "file:///tmp/missing.png" 32 32
      (by decide)).2 (mx_st_texture_cache_init World.initial)
      MxStTextureCachePolicy.MX_ST_TEXTURE_CACHE_POLICY_FOREVER rfl).2.1⟩

/-! ## Errors of the synchronous load -/

theorem st_impl_load_pixbuf_file_data_uri (d : Decoder) (uri : String) (aw ah : Int)
    (hdata : g_str_has_prefix uri "data:" = true) :
    (St.impl_load_pixbuf_file d uri aw ah).2 = none := by
  simp [St.impl_load_pixbuf_file, hdata]

theorem st_load_uri_sync_data_uri_failure (env : Env) (d : Decoder) (s : MxStTextureCache)
    (policy : MxStTextureCachePolicy) (uri : String) (aw ah : Int)
    (hdata : g_str_has_prefix uri "data:" = true)
    (hmiss : g_hash_table_lookup s.keyed_cache ("uri:" ++ uri) = none)
    (hbad : St.decode_image d uri = none) :
    (mx_st_texture_cache_load_uri_sync
        { env with impl_load_pixbuf_file := St.impl_load_pixbuf_file d } s policy uri aw ah).2
      = (none, none) := by
  simp [mx_st_texture_cache_load_uri_sync, mx_st_texture_cache_load_uri_sync_to_cogl_texture,
    hmiss, St.impl_load_pixbuf_file, hdata, hbad]

/-- C13, on the code: for the data URIs `data:text/plain,hello` (unsupported
media type) and `data:image/png;base64,AAEC` (payload that is no PNG),
`mx_st_texture_cache_load_uri_sync` on an empty cache returns NULL and stores
no error: `impl_load_pixbuf_file` returns `decode_image (uri)` without passing
`error` on.  For the unreadable `file:///tmp/missing.png` it returns NULL with
the error set. -/
theorem st_load_uri_sync_data_uri_error_unset :
    (mx_st_texture_cache_load_uri_sync sample_env_with_decoder
        (mx_st_texture_cache_init World.initial)
        MxStTextureCachePolicy.MX_ST_TEXTURE_CACHE_POLICY_FOREVER
        "data:text/plain,hello" (-1) (-1)).2 = (none, none)
    ∧ (mx_st_texture_cache_load_uri_sync sample_env_with_decoder
        (mx_st_texture_cache_init World.initial)
        MxStTextureCachePolicy.MX_ST_TEXTURE_CACHE_POLICY_FOREVER
        "data:image/png;base64,AAEC" (-1) (-1)).2 = (none, none)
    ∧ (mx_st_texture_cache_load_uri_sync sample_env_with_decoder
        (mx_st_texture_cache_init World.initial)
        MxStTextureCachePolicy.MX_ST_TEXTURE_CACHE_POLICY_FOREVER
        "file:///tmp/missing.png" (-1) (-1)).2 = (none, some "Error opening file") := by
  refine ⟨by decide, by decide, by decide⟩

/-! ## The generic loaders -/

theorem mx_texture_cache_load_retains (s : MxTextureCache) (key : String)
    (policy : MxTextureCachePolicy) (load : MxTextureCacheLoader)
    (habs : g_hash_table_lookup s.cache key = none)
    (htex : (load s key).2.1 ≠ COGL_INVALID_HANDLE) :
    (mx_texture_cache_load s key policy load).2.1 = (load s key).2.1
    ∧ g_hash_table_lookup (mx_texture_cache_load s key policy load).1.cache key
        = some { mx_texture_cache_item_new with ptr := (load s key).2.1 } := by
  simp [mx_texture_cache_load, habs, htex, add_texture_to_cache, cache_insert,
    g_hash_table_lookup_insert_self]

theorem mx_st_texture_cache_load_retains (s : MxStTextureCache) (key : String)
    (policy : MxStTextureCachePolicy) (load : MxStTextureCacheLoader)
    (habs : g_hash_table_lookup s.keyed_cache key = none)
    (htex : (load s key).2.1 ≠ COGL_INVALID_HANDLE) :
    (mx_st_texture_cache_load s key policy load).2.1 = (load s key).2.1
    ∧ g_hash_table_lookup (mx_st_texture_cache_load s key policy load).1.keyed_cache key
        = some (load s key).2.1 := by
  simp [mx_st_texture_cache_load, habs, htex, keyed_cache_insert,
    g_hash_table_lookup_insert_self]

/-- C14, on the code: with the key `stock-icon:gtk-ok` absent and a loader that
returns the new texture 1, `mx_texture_cache_load` and
`mx_st_texture_cache_load` called with policy NONE return texture 1 and
retain it: the key is present in the cache store afterwards, exactly as with
policy FOREVER. -/
theorem texture_cache_load_policy_none_retains :
    (mx_texture_cache_load (mx_texture_cache_init World.initial) "stock-icon:gtk-ok"
        MxTextureCachePolicy.MX_TEXTURE_CACHE_POLICY_NONE sample_loader).2.1 = 1
    ∧ g_hash_table_lookup
        (mx_texture_cache_load (mx_texture_cache_init World.initial) "stock-icon:gtk-ok"
          MxTextureCachePolicy.MX_TEXTURE_CACHE_POLICY_NONE sample_loader).1.cache
        "stock-icon:gtk-ok" = some { mx_texture_cache_item_new with ptr := 1 }
    ∧ g_hash_table_lookup
        (mx_texture_cache_load (mx_texture_cache_init World.initial) "stock-icon:gtk-ok"
          MxTextureCachePolicy.MX_TEXTURE_CACHE_POLICY_FOREVER sample_loader).1.cache
        "stock-icon:gtk-ok" = some { mx_texture_cache_item_new with ptr := 1 }
    ∧ (mx_st_texture_cache_load (mx_st_texture_cache_init World.initial) "stock-icon:gtk-ok"
        MxStTextureCachePolicy.MX_ST_TEXTURE_CACHE_POLICY_NONE sample_st_loader).2.1 = 1
    ∧ g_hash_table_lookup
        (mx_st_texture_cache_load (mx_st_texture_cache_init World.initial) "stock-icon:gtk-ok"
          MxStTextureCachePolicy.MX_ST_TEXTURE_CACHE_POLICY_NONE sample_st_loader).1.keyed_cache
        "stock-icon:gtk-ok" = some 1
    ∧ g_hash_table_lookup
        (mx_st_texture_cache_load (mx_st_texture_cache_init World.initial) "stock-icon:gtk-ok"
          MxStTextureCachePolicy.MX_ST_TEXTURE_CACHE_POLICY_FOREVER
          sample_st_loader).1.keyed_cache
        "stock-icon:gtk-ok" = some 1 := by
  refine ⟨by decide, by decide, by decide, by decide, by decide, by decide⟩

/-! ## Policy and the cache lookup of the synchronous load -/

/-- C15, as stated, fails: after `file:///tmp/a.png` has been loaded with policy
FOREVER, a load of the same URI with policy NONE finds the key, returns the
cached handle 1 and does not run the decoder (the count stays at 1). -/
theorem st_load_uri_sync_none_uses_cache :
    g_hash_table_lookup
        (mx_st_texture_cache_load_uri_sync_to_cogl_texture sample_env
          (mx_st_texture_cache_init World.initial)
          MxStTextureCachePolicy.MX_ST_TEXTURE_CACHE_POLICY_FOREVER
          "file:///tmp/a.png" (-1) (-1)).1.keyed_cache "uri:file:///tmp/a.png" = some 1
    ∧ (mx_st_texture_cache_load_uri_sync_to_cogl_texture sample_env
        (mx_st_texture_cache_load_uri_sync_to_cogl_texture sample_env
          (mx_st_texture_cache_init World.initial)
          MxStTextureCachePolicy.MX_ST_TEXTURE_CACHE_POLICY_FOREVER
          "file:///tmp/a.png" (-1) (-1)).1
        MxStTextureCachePolicy.MX_ST_TEXTURE_CACHE_POLICY_NONE
        "file:///tmp/a.png" (-1) (-1)).2.1 = 1
    ∧ (mx_st_texture_cache_load_uri_sync_to_cogl_texture sample_env
        (mx_st_texture_cache_init World.initial)
        MxStTextureCachePolicy.MX_ST_TEXTURE_CACHE_POLICY_FOREVER
        "file:///tmp/a.png" (-1) (-1)).1.decodes = 1
    ∧ ¬ ((mx_st_texture_cache_load_uri_sync_to_cogl_texture sample_env
        (mx_st_texture_cache_load_uri_sync_to_cogl_texture sample_env
          (mx_st_texture_cache_init World.initial)
          MxStTextureCachePolicy.MX_ST_TEXTURE_CACHE_POLICY_FOREVER
          "file:///tmp/a.png" (-1) (-1)).1
        MxStTextureCachePolicy.MX_ST_TEXTURE_CACHE_POLICY_NONE
        "file:///tmp/a.png" (-1) (-1)).1.decodes = 1 + 1) := by
  refine ⟨by decide, by decide, by decide, by decide⟩

theorem decodes_cogl_handle_ref (w : World) (h : CoglHandle) :
    (cogl_handle_ref w h).decodes = w.decodes := by
  unfold cogl_handle_ref
  split <;> rfl

theorem decodes_cogl_handle_unref (w : World) (h : CoglHandle) :
    (cogl_handle_unref w h).decodes = w.decodes := by
  unfold cogl_handle_unref
  split <;> rfl

theorem decodes_keyed_cache_insert (s : MxStTextureCache) (key : String) (h : CoglHandle) :
    (keyed_cache_insert s key h).decodes = s.decodes := by
  unfold keyed_cache_insert
  cases g_hash_table_lookup s.keyed_cache key with
  | none => rfl
  | some old => exact decodes_cogl_handle_unref _ _

theorem st_sync_miss_decoded (env : Env) (s : MxStTextureCache)
    (policy : MxStTextureCachePolicy) (uri : String) (aw ah : Int) (pixbuf : GdkPixbuf)
    (hmiss : (g_hash_table_lookup s.keyed_cache ("uri:" ++ uri)).getD COGL_INVALID_HANDLE
      = COGL_INVALID_HANDLE)
    (hdecode : (env.impl_load_pixbuf_file uri aw ah).1 = some pixbuf) :
    (mx_st_texture_cache_load_uri_sync_to_cogl_texture env s policy uri aw ah).2
        = (s.n_handles + 1, (env.impl_load_pixbuf_file uri aw ah).2)
    ∧ (mx_st_texture_cache_load_uri_sync_to_cogl_texture env s policy uri aw ah).1.created
        = s.created ++ [(s.n_handles + 1, pixbuf, false)]
    ∧ (mx_st_texture_cache_load_uri_sync_to_cogl_texture env s policy uri aw ah).1.keyed_cache
        = (if policy = MxStTextureCachePolicy.MX_ST_TEXTURE_CACHE_POLICY_FOREVER
            then g_hash_table_insert s.keyed_cache ("uri:" ++ uri) (s.n_handles + 1)
            else s.keyed_cache)
    ∧ (mx_st_texture_cache_load_uri_sync_to_cogl_texture env s policy uri aw ah).1.ref_count
          (s.n_handles + 1)
        = (if policy = MxStTextureCachePolicy.MX_ST_TEXTURE_CACHE_POLICY_FOREVER
            then 2 else 1) := by
  have hold : ∀ w : World,
      (match g_hash_table_lookup s.keyed_cache ("uri:" ++ uri) with
        | some old => cogl_handle_unref w old
        | none => w) = w := by
    intro w
    cases hl : g_hash_table_lookup s.keyed_cache ("uri:" ++ uri) with
    | none => rfl
    | some old =>
      rw [hl] at hmiss
      have h0 : old = COGL_INVALID_HANDLE := hmiss
      simp [h0, cogl_handle_unref]
  unfold mx_st_texture_cache_load_uri_sync_to_cogl_texture
  simp only [hmiss, if_true, hdecode]
  by_cases hpol : policy = MxStTextureCachePolicy.MX_ST_TEXTURE_CACHE_POLICY_FOREVER
  · simp only [hpol, if_true]
    unfold keyed_cache_insert
    simp only [hold]
    simp [pixbuf_to_cogl_handle, cogl_handle_ref, COGL_INVALID_HANDLE]
  · simp only [hpol, if_false]
    simp [pixbuf_to_cogl_handle]

theorem st_sync_miss_not_decoded (env : Env) (s : MxStTextureCache)
    (policy : MxStTextureCachePolicy) (uri : String) (aw ah : Int)
    (hmiss : (g_hash_table_lookup s.keyed_cache ("uri:" ++ uri)).getD COGL_INVALID_HANDLE
      = COGL_INVALID_HANDLE)
    (hdecode : (env.impl_load_pixbuf_file uri aw ah).1 = none) :
    mx_st_texture_cache_load_uri_sync_to_cogl_texture env s policy uri aw ah
      = ({ s with decodes := s.decodes + 1 }, COGL_INVALID_HANDLE,
          (env.impl_load_pixbuf_file uri aw ah).2) := by
  unfold mx_st_texture_cache_load_uri_sync_to_cogl_texture
  simp only [hmiss, if_true, hdecode]

/-- C15, amended. `mx_st_texture_cache_load_uri_sync_to_cogl_texture` looks the
key up whatever the policy: when `"uri:" ++ uri` is present with a non-NULL
handle, that handle is returned with one more reference, without decoding
and without changing the cache store, for every policy, NONE included; when
the lookup gives nothing (key absent or NULL stored) the decoder is run once
on the calling thread, for every policy.  The policy only decides whether a
newly decoded texture is inserted: on such a miss the returned handle and
error are the same for any two policies; a decoded pixbuf becomes the new
handle, which is returned, and the cache store maps the key to it (holding a
second reference) exactly for FOREVER and is unchanged otherwise; a failed
decode returns NULL and leaves the cache store unchanged. -/
theorem st_load_uri_sync_lookup_ignores_policy (env : Env) (s : MxStTextureCache)
    (policy : MxStTextureCachePolicy) (uri : String) (aw ah : Int) :
    (∀ h : CoglHandle, g_hash_table_lookup s.keyed_cache ("uri:" ++ uri) = some h →
      h ≠ COGL_INVALID_HANDLE →
      (mx_st_texture_cache_load_uri_sync_to_cogl_texture env s policy uri aw ah).2.1 = h
      ∧ (mx_st_texture_cache_load_uri_sync_to_cogl_texture env s policy uri aw ah).1.decodes
          = s.decodes
      ∧ (mx_st_texture_cache_load_uri_sync_to_cogl_texture env s policy uri aw ah).1.keyed_cache
          = s.keyed_cache
      ∧ (mx_st_texture_cache_load_uri_sync_to_cogl_texture env s policy uri aw ah).1.ref_count h
          = s.ref_count h + 1)
    ∧ ((g_hash_table_lookup s.keyed_cache ("uri:" ++ uri)).getD COGL_INVALID_HANDLE
          = COGL_INVALID_HANDLE →
      (mx_st_texture_cache_load_uri_sync_to_cogl_texture env s policy uri aw ah).1.decodes
          = s.decodes + 1
      ∧ (∀ other : MxStTextureCachePolicy,
          (mx_st_texture_cache_load_uri_sync_to_cogl_texture env s other uri aw ah).2
            = (mx_st_texture_cache_load_uri_sync_to_cogl_texture env s policy uri aw ah).2
          ∧ (mx_st_texture_cache_load_uri_sync_to_cogl_texture env s other uri aw ah).1.decodes
            = (mx_st_texture_cache_load_uri_sync_to_cogl_texture env s policy uri aw
                ah).1.decodes
          ∧ (mx_st_texture_cache_load_uri_sync_to_cogl_texture env s other uri aw ah).1.created
            = (mx_st_texture_cache_load_uri_sync_to_cogl_texture env s policy uri aw
                ah).1.created)
      ∧ (∀ pixbuf : GdkPixbuf, (env.impl_load_pixbuf_file uri aw ah).1 = some pixbuf →
          (mx_st_texture_cache_load_uri_sync_to_cogl_texture env s policy uri aw ah).2.1
            = s.n_handles + 1
          ∧ (mx_st_texture_cache_load_uri_sync_to_cogl_texture env s policy uri aw ah).1.created
            = s.created ++ [(s.n_handles + 1, pixbuf, false)]
          ∧ (policy = MxStTextureCachePolicy.MX_ST_TEXTURE_CACHE_POLICY_FOREVER →
              (mx_st_texture_cache_load_uri_sync_to_cogl_texture env s policy uri aw
                  ah).1.keyed_cache
                = g_hash_table_insert s.keyed_cache ("uri:" ++ uri) (s.n_handles + 1)
              ∧ g_hash_table_lookup
                  (mx_st_texture_cache_load_uri_sync_to_cogl_texture env s policy uri aw
                    ah).1.keyed_cache ("uri:" ++ uri) = some (s.n_handles + 1)
              ∧ (mx_st_texture_cache_load_uri_sync_to_cogl_texture env s policy uri aw
                  ah).1.ref_count (s.n_handles + 1) = 2)
          ∧ (policy ≠ MxStTextureCachePolicy.MX_ST_TEXTURE_CACHE_POLICY_FOREVER →
              (mx_st_texture_cache_load_uri_sync_to_cogl_texture env s policy uri aw
                  ah).1.keyed_cache = s.keyed_cache
              ∧ (mx_st_texture_cache_load_uri_sync_to_cogl_texture env s policy uri aw
                  ah).1.ref_count (s.n_handles + 1) = 1))
      ∧ ((env.impl_load_pixbuf_file uri aw ah).1 = none →
          (mx_st_texture_cache_load_uri_sync_to_cogl_texture env s policy uri aw ah).2.1
            = COGL_INVALID_HANDLE
          ∧ (mx_st_texture_cache_load_uri_sync_to_cogl_texture env s policy uri aw
              ah).1.keyed_cache = s.keyed_cache)) := by
  constructor
  · intro h hl hne
    rw [st_sync_hit env s policy uri aw ah h hl hne]
    have hne2 : ¬ h = 0 := hne
    simp [cogl_handle_ref, hne, hne2]
  · intro hmiss
    have hdec : ∀ p : MxStTextureCachePolicy,
        (mx_st_texture_cache_load_uri_sync_to_cogl_texture env s p uri aw ah).1.decodes
          = s.decodes + 1 := by
      intro p
      cases hp : (env.impl_load_pixbuf_file uri aw ah).1 with
      | none => rw [st_sync_miss_not_decoded env s p uri aw ah hmiss hp]
      | some pixbuf =>
        unfold mx_st_texture_cache_load_uri_sync_to_cogl_texture
        simp only [hmiss, if_true, hp]
        by_cases hpol : p = MxStTextureCachePolicy.MX_ST_TEXTURE_CACHE_POLICY_FOREVER
        · simp only [hpol, if_true]
          rw [decodes_keyed_cache_insert]
          show (cogl_handle_ref _ _).decodes = s.decodes + 1
          rw [decodes_cogl_handle_ref]
          rfl
        · simp [hpol, pixbuf_to_cogl_handle]
    refine ⟨hdec policy, ?_, ?_, ?_⟩
    · intro other
      refine ⟨?_, by rw [hdec other, hdec policy], ?_⟩
      · cases hp : (env.impl_load_pixbuf_file uri aw ah).1 with
        | none =>
          rw [st_sync_miss_not_decoded env s other uri aw ah hmiss hp,
            st_sync_miss_not_decoded env s policy uri aw ah hmiss hp]
        | some pixbuf =>
          rw [(st_sync_miss_decoded env s other uri aw ah pixbuf hmiss hp).1,
            (st_sync_miss_decoded env s policy uri aw ah pixbuf hmiss hp).1]
      · cases hp : (env.impl_load_pixbuf_file uri aw ah).1 with
        | none =>
          rw [st_sync_miss_not_decoded env s other uri aw ah hmiss hp,
            st_sync_miss_not_decoded env s policy uri aw ah hmiss hp]
        | some pixbuf =>
          rw [(st_sync_miss_decoded env s other uri aw ah pixbuf hmiss hp).2.1,
            (st_sync_miss_decoded env s policy uri aw ah pixbuf hmiss hp).2.1]
    · intro pixbuf hp
      obtain ⟨h1, h2, h3, h4⟩ := st_sync_miss_decoded env s policy uri aw ah pixbuf hmiss hp
      refine ⟨by rw [h1], h2, ?_, ?_⟩
      · intro hpol
        rw [h3, h4, if_pos hpol, if_pos hpol]
        exact ⟨rfl, g_hash_table_lookup_insert_self _ _ _, rfl⟩
      · intro hpol
        rw [h3, h4, if_neg hpol, if_neg hpol]
        exact ⟨rfl, rfl⟩
    · intro hp
      rw [st_sync_miss_not_decoded env s policy uri aw ah hmiss hp]
      exact ⟨rfl, rfl⟩

/-- C15 amended, applied: with an empty cache and policy NONE the readable
`file:///tmp/a.png` is decoded into the new handle 1, which is returned and not
inserted. -/
theorem st_load_uri_sync_lookup_ignores_policy_witness :
    (mx_st_texture_cache_load_uri_sync_to_cogl_texture sample_env
        (mx_st_texture_cache_init World.initial)
        MxStTextureCachePolicy.MX_ST_TEXTURE_CACHE_POLICY_NONE
        "file:///tmp/a.png" (-1) (-1)).2.1 = 1
    ∧ (mx_st_texture_cache_load_uri_sync_to_cogl_texture sample_env
        (mx_st_texture_cache_init World.initial)
        MxStTextureCachePolicy.MX_ST_TEXTURE_CACHE_POLICY_NONE
        "file:///tmp/a.png" (-1) (-1)).1.keyed_cache = []
    ∧ (mx_st_texture_cache_load_uri_sync_to_cogl_texture sample_env
        (mx_st_texture_cache_init World.initial)
        MxStTextureCachePolicy.MX_ST_TEXTURE_CACHE_POLICY_NONE
        "file:///tmp/a.png" (-1) (-1)).1.ref_count 1 = 1 :=
  ⟨(((st_load_uri_sync_lookup_ignores_policy sample_env
        (mx_st_texture_cache_init World.initial)
        MxStTextureCachePolicy.MX_ST_TEXTURE_CACHE_POLICY_NONE
        "file:///tmp/a.png" (-1) (-1)).2 (by decide)).2.2.1 sample_pixbuf (by decide)).1,
   ((((st_load_uri_sync_lookup_ignores_policy sample_env
        (mx_st_texture_cache_init World.initial)
        MxStTextureCachePolicy.MX_ST_TEXTURE_CACHE_POLICY_NONE
        "file:///tmp/a.png" (-1) (-1)).2 (by decide)).2.2.1 sample_pixbuf
          (by decide)).2.2.2 (by decide)).1,
   ((((st_load_uri_sync_lookup_ignores_policy sample_env
        (mx_st_texture_cache_init World.initial)
        MxStTextureCachePolicy.MX_ST_TEXTURE_CACHE_POLICY_NONE
        "file:///tmp/a.png" (-1) (-1)).2 (by decide)).2.2.1 sample_pixbuf
          (by decide)).2.2.2 (by decide)).2⟩

/-! ## The size computed by `compute_pixbuf_scale` -/

theorem compute_pixbuf_scale_true_bounds (width height aw ah nw nh : Int)
    (h : (Mx.compute_pixbuf_scale width height aw ah nw nh).1 = true) :
    0 < (Mx.compute_pixbuf_scale width height aw ah nw nh).2.1
    ∧ (Mx.compute_pixbuf_scale width height aw ah nw nh).2.1 < width
    ∧ 0 < (Mx.compute_pixbuf_scale width height aw ah nw nh).2.2
    ∧ (Mx.compute_pixbuf_scale width height aw ah nw nh).2.2 < height := by
  unfold Mx.compute_pixbuf_scale at h ⊢
  by_cases h0 : width = 0 ∨ height = 0
  · rw [if_pos h0] at h
    simp at h
  · rw [if_neg h0] at h ⊢
    have aux : ∀ sc : Int × Int,
        (if sc.1 > 0 ∧ sc.2 > 0 ∧ sc.1 < width ∧ sc.2 < height
          then ((true, sc.1, sc.2) : Bool × Int × Int) else (false, nw, nh)).1 = true →
        0 < (if sc.1 > 0 ∧ sc.2 > 0 ∧ sc.1 < width ∧ sc.2 < height
          then ((true, sc.1, sc.2) : Bool × Int × Int) else (false, nw, nh)).2.1
        ∧ (if sc.1 > 0 ∧ sc.2 > 0 ∧ sc.1 < width ∧ sc.2 < height
          then ((true, sc.1, sc.2) : Bool × Int × Int) else (false, nw, nh)).2.1 < width
        ∧ 0 < (if sc.1 > 0 ∧ sc.2 > 0 ∧ sc.1 < width ∧ sc.2 < height
          then ((true, sc.1, sc.2) : Bool × Int × Int) else (false, nw, nh)).2.2
        ∧ (if sc.1 > 0 ∧ sc.2 > 0 ∧ sc.1 < width ∧ sc.2 < height
          then ((true, sc.1, sc.2) : Bool × Int × Int) else (false, nw, nh)).2.2 < height := by
      intro sc hsc
      by_cases hc : sc.1 > 0 ∧ sc.2 > 0 ∧ sc.1 < width ∧ sc.2 < height
      · rw [if_pos hc]
        exact ⟨hc.1, hc.2.2.1, hc.2.1, hc.2.2.2⟩
      · rw [if_neg hc] at hsc
        simp at hsc
    exact aux _ h

/-- C16. Whenever `compute_pixbuf_scale` (either copy) returns TRUE, for any
inputs, its outputs satisfy `0 < new_width < width` and
`0 < new_height < height`; hence the size the loader decodes at - the size
`on_image_size_prepared` sets, or the natural size when it sets none - is at
most the natural size in both dimensions. -/
theorem compute_pixbuf_scale_never_upscales (width height aw ah nw nh : Int) :
    ((Mx.compute_pixbuf_scale width height aw ah nw nh).1 = true →
      0 < (Mx.compute_pixbuf_scale width height aw ah nw nh).2.1
      ∧ (Mx.compute_pixbuf_scale width height aw ah nw nh).2.1 < width
      ∧ 0 < (Mx.compute_pixbuf_scale width height aw ah nw nh).2.2
      ∧ (Mx.compute_pixbuf_scale width height aw ah nw nh).2.2 < height)
    ∧ ((St.compute_pixbuf_scale width height aw ah nw nh).1 = true →
      0 < (St.compute_pixbuf_scale width height aw ah nw nh).2.1
      ∧ (St.compute_pixbuf_scale width height aw ah nw nh).2.1 < width
      ∧ 0 < (St.compute_pixbuf_scale width height aw ah nw nh).2.2
      ∧ (St.compute_pixbuf_scale width height aw ah nw nh).2.2 < height)
    ∧ (loader_decode_size width height
          (Mx.on_image_size_prepared width height { width := aw, height := ah })).1 ≤ width
    ∧ (loader_decode_size width height
          (Mx.on_image_size_prepared width height { width := aw, height := ah })).2 ≤ height
    ∧ (loader_decode_size width height
          (St.on_image_size_prepared width height { width := aw, height := ah })).1 ≤ width
    ∧ (loader_decode_size width height
          (St.on_image_size_prepared width height { width := aw, height := ah })).2 ≤ height := by
  have hst : ∀ a b : Int, St.compute_pixbuf_scale width height aw ah a b
      = Mx.compute_pixbuf_scale width height aw ah a b := fun _ _ => rfl
  have hsz : (loader_decode_size width height
        (Mx.on_image_size_prepared width height { width := aw, height := ah })).1 ≤ width
      ∧ (loader_decode_size width height
        (Mx.on_image_size_prepared width height { width := aw, height := ah })).2 ≤ height := by
    unfold loader_decode_size Mx.on_image_size_prepared
    simp only
    cases hr : (Mx.compute_pixbuf_scale width height aw ah 0 0).1 with
    | false => simp
    | true =>
      have hb := compute_pixbuf_scale_true_bounds width height aw ah 0 0 hr
      simp only [if_true, Option.getD_some]
      exact ⟨le_of_lt hb.2.1, le_of_lt hb.2.2.2⟩
  have hsz2 : (loader_decode_size width height
        (St.on_image_size_prepared width height { width := aw, height := ah })).1 ≤ width
      ∧ (loader_decode_size width height
        (St.on_image_size_prepared width height { width := aw, height := ah })).2 ≤ height := hsz
  exact ⟨compute_pixbuf_scale_true_bounds width height aw ah nw nh,
    by rw [hst]; exact compute_pixbuf_scale_true_bounds width height aw ah nw nh,
    hsz.1, hsz.2, hsz2.1, hsz2.2⟩

theorem compute_pixbuf_scale_in_box (width height aw ah nw nh : Int)
    (hw : 0 < width) (hh : 0 < height) (haw : 0 ≤ aw) (hah : 0 ≤ ah)
    (hf1 : fits_int (ah * width)) (hf2 : fits_int (aw * height)) :
    Mx.compute_pixbuf_scale width height aw ah nw nh
      = if 0 < min aw (ah * width / height) ∧ 0 < min ah (aw * height / width)
            ∧ min aw (ah * width / height) < width ∧ min ah (aw * height / width) < height
        then (true, min aw (ah * width / height), min ah (aw * height / width))
        else (false, nw, nh) := by
  have h0 : ¬ (width = 0 ∨ height = 0) := by omega
  have e1 : Int.tdiv (ah * width) height = ah * width / height :=
    Int.tdiv_eq_ediv (Int.mul_nonneg hah (le_of_lt hw)) (le_of_lt hh)
  have e2 : Int.tdiv (aw * height) width = aw * height / width :=
    Int.tdiv_eq_ediv (Int.mul_nonneg haw (le_of_lt hh)) (le_of_lt hw)
  unfold Mx.compute_pixbuf_scale
  rw [if_neg h0]
  simp only [ge_iff_le, haw, hah, and_self, if_true, int_mul, int_div, wrap_int_of_fits _ hf1,
    wrap_int_of_fits _ hf2, MIN_eq_min, e1, e2, gt_iff_lt]

/-- C17, as stated, fails: an image of natural size 1000 by 1 in an available
box of 10 by 10 gives the candidate height `(10 * 1) / 1000 = 0`, so
`compute_pixbuf_scale` returns FALSE and the loader decodes at 1000 by 1,
wider than the box. -/
theorem decode_size_can_exceed_box :
    (Mx.compute_pixbuf_scale 1000 1 10 10 0 0).1 = false
    ∧ loader_decode_size 1000 1 (Mx.on_image_size_prepared 1000 1 { width := 10, height := 10 })
        = (1000, 1)
    ∧ ¬ ((loader_decode_size 1000 1
          (Mx.on_image_size_prepared 1000 1 { width := 10, height := 10 })).1 ≤ 10) := by
  refine ⟨by decide, by decide, by decide⟩

/-- C17, amended. For every natural size `width, height > 0` and available size
`aw, ah > 0` whose products fit an `int`: whenever `compute_pixbuf_scale`
returns TRUE its outputs are at most `aw` and `ah`; and the size the loader
decodes at is at most `aw` wide and `ah` high exactly when neither candidate
dimension truncates to zero, that is when `height ≤ ah * width` and
`width ≤ aw * height`.  Otherwise `compute_pixbuf_scale` returns FALSE and the
natural size, which exceeds the box, is kept. -/
theorem decode_size_fits_box_iff (width height aw ah : Int)
    (hw : 0 < width) (hh : 0 < height) (haw : 0 < aw) (hah : 0 < ah)
    (hf1 : fits_int (ah * width)) (hf2 : fits_int (aw * height)) :
    (∀ nw nh : Int, (Mx.compute_pixbuf_scale width height aw ah nw nh).1 = true →
      (Mx.compute_pixbuf_scale width height aw ah nw nh).2.1 ≤ aw
      ∧ (Mx.compute_pixbuf_scale width height aw ah nw nh).2.2 ≤ ah)
    ∧ (((loader_decode_size width height
            (Mx.on_image_size_prepared width height { width := aw, height := ah })).1 ≤ aw
        ∧ (loader_decode_size width height
            (Mx.on_image_size_prepared width height { width := aw, height := ah })).2 ≤ ah)
      ↔ (height ≤ ah * width ∧ width ≤ aw * height))
    ∧ (¬ (height ≤ ah * width ∧ width ≤ aw * height) →
        (Mx.compute_pixbuf_scale width height aw ah 0 0).1 = false
        ∧ loader_decode_size width height
            (Mx.on_image_size_prepared width height { width := aw, height := ah })
          = (width, height)) := by
  have hq1 : 1 ≤ ah * width / height ↔ height ≤ ah * width := by
    rw [Int.le_ediv_iff_mul_le hh, one_mul]
  have hq2 : 1 ≤ aw * height / width ↔ width ≤ aw * height := by
    rw [Int.le_ediv_iff_mul_le hw, one_mul]
  have hq3 : ah * width / height < width ↔ ah < height := by
    rw [Int.ediv_lt_iff_lt_mul hh, mul_comm width height]
    exact mul_lt_mul_right hw
  have hq4 : aw * height / width < height ↔ aw < width := by
    rw [Int.ediv_lt_iff_lt_mul hw, mul_comm height width]
    exact mul_lt_mul_right hh
  have hm1 : height ≤ ah → height ≤ ah * width := fun h =>
    le_trans h (le_mul_of_one_le_right (le_of_lt hah) hw)
  have hm2 : width ≤ aw → width ≤ aw * height := fun h =>
    le_trans h (le_mul_of_one_le_right (le_of_lt haw) hh)
  have hval := fun nw nh => compute_pixbuf_scale_in_box width height aw ah nw nh hw hh
    (le_of_lt haw) (le_of_lt hah) hf1 hf2
  refine ⟨?_, ?_, ?_⟩
  · intro nw nh htrue
    rw [hval nw nh] at htrue ⊢
    split at htrue
    · rename_i hc
      rw [if_pos hc]
      exact ⟨min_le_left _ _, min_le_left _ _⟩
    · simp at htrue
  · unfold loader_decode_size Mx.on_image_size_prepared
    simp only [hval 0 0]
    by_cases hc : 0 < min aw (ah * width / height) ∧ 0 < min ah (aw * height / width)
        ∧ min aw (ah * width / height) < width ∧ min ah (aw * height / width) < height
    · simp only [if_pos hc, if_true, Option.getD_some]
      constructor
      · intro _
        constructor
        · apply hq1.mp
          have := hc.1
          omega
        · apply hq2.mp
          have := hc.2.1
          omega
      · intro _
        exact ⟨min_le_left _ _, min_le_left _ _⟩
    · simp only [if_neg hc, Bool.false_eq_true, if_false, Option.getD_none]
      constructor
      · intro hfit
        exact ⟨hm1 hfit.2, hm2 hfit.1⟩
      · intro hP
        have h1 := hq1.mpr hP.1
        have h2 := hq2.mpr hP.2
        by_cases ha : aw < width
        · exfalso
          apply hc
          have := hq4.mpr ha
          omega
        · by_cases hb : ah < height
          · exfalso
            apply hc
            have := hq3.mpr hb
            omega
          · omega
  · intro hnot
    have hc : ¬ (0 < min aw (ah * width / height) ∧ 0 < min ah (aw * height / width)
        ∧ min aw (ah * width / height) < width ∧ min ah (aw * height / width) < height) := by
      intro hc
      apply hnot
      constructor
      · apply hq1.mp
        have := hc.1
        omega
      · apply hq2.mp
        have := hc.2.1
        omega
    unfold loader_decode_size Mx.on_image_size_prepared
    simp only [hval 0 0, if_neg hc, Bool.false_eq_true, if_false, Option.getD_none, and_self]

/-- C17 amended, applied: 1920 by 1080 in a 640 by 480 box is decoded at 640 by
360. -/
theorem decode_size_fits_box_iff_witness :
    (0 : Int) < 1920 ∧ (0 : Int) < 1080 ∧ (0 : Int) < 640 ∧ (0 : Int) < 480
    ∧ fits_int (480 * 1920) ∧ fits_int (640 * 1080)
    ∧ loader_decode_size 1920 1080
        (Mx.on_image_size_prepared 1920 1080 { width := 640, height := 480 }) = (640, 360)
    ∧ (((loader_decode_size 1920 1080
            (Mx.on_image_size_prepared 1920 1080 { width := 640, height := 480 })).1 ≤ 640
        ∧ (loader_decode_size 1920 1080
            (Mx.on_image_size_prepared 1920 1080 { width := 640, height := 480 })).2 ≤ 480)
      ↔ ((1080 : Int) ≤ 480 * 1920 ∧ (1920 : Int) ≤ 640 * 1080)) :=
  ⟨by decide, by decide, by decide, by decide, by decide, by decide, by decide,
   (decode_size_fits_box_iff 1920 1080 640 480 (by decide) (by decide) (by decide) (by decide)
      (by decide) (by decide)).2.1⟩

/-! ## Cache keys -/

theorem digit_char_value : ∀ d : Nat, d < 10 → (digit_char d).toNat - 48 = d := by
  unfold digit_char
  decide

theorem digit_char_ne_comma : ∀ d : Nat, d < 10 → digit_char d ≠ ',' := by
  unfold digit_char
  decide

theorem digit_char_ne_minus : ∀ d : Nat, d < 10 → digit_char d ≠ '-' := by
  unfold digit_char
  decide

theorem decimal_nat_chars (n : Nat) :
    ∀ c ∈ decimal_nat n, ∃ d : Nat, d < 10 ∧ c = digit_char d := by
  intro c hc
  unfold decimal_nat at hc
  split at hc
  · simp only [List.mem_singleton] at hc
    exact ⟨0, by decide, by rw [hc]; rfl⟩
  · simp only [List.mem_map, List.mem_reverse] at hc
    obtain ⟨d, hd, rfl⟩ := hc
    exact ⟨d, Nat.digits_lt_base (by decide) hd, rfl⟩

theorem decimal_nat_value (n : Nat) :
    Nat.ofDigits 10 ((decimal_nat n).map (fun c => c.toNat - 48)).reverse = n := by
  unfold decimal_nat
  split
  · rename_i h0
    subst h0
    rfl
  · have hmap : ((Nat.digits 10 n).reverse.map digit_char).map (fun c => c.toNat - 48)
        = (Nat.digits 10 n).reverse := by
      rw [List.map_map]
      conv_rhs => rw [← List.map_id (Nat.digits 10 n).reverse]
      apply List.map_congr_left
      intro d hd
      exact digit_char_value d (Nat.digits_lt_base (by decide) (List.mem_reverse.mp hd))
    rw [hmap, List.reverse_reverse, Nat.ofDigits_digits]

theorem decimal_nat_injective (m n : Nat) (h : decimal_nat m = decimal_nat n) : m = n := by
  rw [← decimal_nat_value m, ← decimal_nat_value n, h]

theorem decimal_nat_ne_nil (n : Nat) : decimal_nat n ≠ [] := by
  unfold decimal_nat
  split
  · simp
  · rename_i h0
    intro h
    simp only [List.map_eq_nil_iff, List.reverse_eq_nil_iff] at h
    exact h0 (Nat.digits_eq_nil_iff_eq_zero.mp h)

theorem decimal_nat_head_ne_minus (n : Nat) (l : List Char) : decimal_nat n ≠ '-' :: l := by
  intro h
  have hmem : '-' ∈ decimal_nat n := by rw [h]; exact List.mem_cons_self _ _
  obtain ⟨d, hd, hc⟩ := decimal_nat_chars n _ hmem
  exact digit_char_ne_minus d hd hc.symm

theorem decimal_chars_injective (m n : Int) (h : decimal_chars m = decimal_chars n) :
    m = n := by
  unfold decimal_chars at h
  by_cases hm : m < 0 <;> by_cases hn : n < 0
  · rw [if_pos hm, if_pos hn] at h
    have := decimal_nat_injective _ _ (List.cons.inj h).2
    omega
  · rw [if_pos hm, if_neg hn] at h
    exact absurd h.symm (decimal_nat_head_ne_minus _ _)
  · rw [if_neg hm, if_pos hn] at h
    exact absurd h (decimal_nat_head_ne_minus _ _)
  · rw [if_neg hm, if_neg hn] at h
    have := decimal_nat_injective _ _ h
    omega

theorem decimal_chars_no_comma (n : Int) : ',' ∉ decimal_chars n := by
  intro hmem
  unfold decimal_chars at hmem
  have hnat : ',' ∉ decimal_nat n.natAbs := by
    intro h
    obtain ⟨d, hd, hc⟩ := decimal_nat_chars _ _ h
    exact digit_char_ne_comma d hd hc.symm
  split at hmem
  · rw [List.mem_cons] at hmem
    rcases hmem with h | h
    · exact absurd h (by decide)
    · exact hnat h
  · exact hnat hmem

theorem append_cons_injective {α : Type} (c : α) :
    ∀ (l1 l2 r1 r2 : List α), c ∉ r1 → c ∉ r2 →
      l1 ++ c :: r1 = l2 ++ c :: r2 → l1 = l2 ∧ r1 = r2
  | [], [], _, _, _, _, h => ⟨rfl, (List.cons.inj h).2⟩
  | [], x :: l2, r1, r2, h1, _, h => by
    have h3 := (List.cons.inj h).2
    exact absurd (by rw [h3]; simp) h1
  | x :: l1, [], r1, r2, _, h2, h => by
    have h3 := (List.cons.inj h).2
    exact absurd (by rw [← h3]; simp) h2
  | x :: l1, y :: l2, r1, r2, h1, h2, h => by
    have hh := List.cons.inj h
    obtain ⟨e1, e2⟩ := append_cons_injective c l1 l2 r1 r2 h1 h2 hh.2
    exact ⟨by rw [hh.1, e1], e2⟩

theorem sized_key_injective (u1 u2 : String) (n1 n2 : Int)
    (h : u1.data ++ (',' :: 's' :: 'i' :: 'z' :: 'e' :: '=' :: decimal_chars n1)
        = u2.data ++ (',' :: 's' :: 'i' :: 'z' :: 'e' :: '=' :: decimal_chars n2)) :
    u1 = u2 ∧ n1 = n2 := by
  have hno : ∀ n : Int, ',' ∉ 's' :: 'i' :: 'z' :: 'e' :: '=' :: decimal_chars n := by
    intro n hmem
    simp only [List.mem_cons] at hmem
    rcases hmem with h | h | h | h | h | h
    · exact absurd h (by decide)
    · exact absurd h (by decide)
    · exact absurd h (by decide)
    · exact absurd h (by decide)
    · exact absurd h (by decide)
    · exact decimal_chars_no_comma n h
  obtain ⟨e1, e2⟩ := append_cons_injective ',' _ _ _ _ (hno n1) (hno n2) h
  simp only [List.cons.injEq, true_and] at e2
  exact ⟨String.ext e1, decimal_chars_injective _ _ e2⟩

/-- C18. The cache-key constructors are jointly injective: two requests - a
URI, a URI for cairo, a compat URI, a raw checksum, a compressed checksum
with size, a thumbnail URI with size - get the same key only if they are in
the same namespace and have the same parameters, for every string (a URI may
itself contain `,size=`) and every integer size. -/
theorem cache_key_injective : Function.Injective cache_key := by
  intro a b h
  have h2 := congrArg String.data h
  cases a <;> cases b <;>
    simp only [cache_key, CACHE_PREFIX_URI, CACHE_PREFIX_URI_FOR_CAIRO, CACHE_PREFIX_COMPAT,
      CACHE_PREFIX_RAW_CHECKSUM, CACHE_PREFIX_COMPRESSED_CHECKSUM, CACHE_PREFIX_THUMBNAIL_URI,
      String.data_append, decimal] at h2 <;>
    first
    | (exfalso; simp at h2; done)
    | skip
  · simp at h2
    rw [String.ext h2]
  · simp at h2
    rw [String.ext h2]
  · simp at h2
    rw [String.ext h2]
  · simp at h2
    rw [String.ext h2]
  · simp only [List.append_assoc] at h2
    simp at h2
    obtain ⟨e1, e2⟩ := sized_key_injective _ _ _ _ h2
    rw [e1, e2]
  · simp only [List.append_assoc] at h2
    simp at h2
    obtain ⟨e1, e2⟩ := sized_key_injective _ _ _ _ h2
    rw [e1, e2]

/-- C18, applied: a thumbnail URI that itself ends in `,size=1`, and the keys
of the loads modelled above. -/
theorem cache_key_injective_witness :
    cache_key (KeyRequest.thumbnail_uri "a,size=1" 2)
      = cache_key (KeyRequest.thumbnail_uri "a,size=1" 2)
    ∧ KeyRequest.thumbnail_uri "a,size=1" 2 = KeyRequest.thumbnail_uri "a,size=1" 2
    ∧ cache_key (KeyRequest.thumbnail_uri "a" 12) ≠ cache_key (KeyRequest.thumbnail_uri "a,size=1" 2)
    ∧ (∀ u : String, cache_key (KeyRequest.uri u) = "uri:" ++ u)
    ∧ decimal (-12) = "-12" :=
  ⟨rfl, cache_key_injective rfl,
   fun h => absurd (cache_key_injective h) (by decide),
   fun _ => rfl,
   by
    have hd : Nat.digits 10 12 = [2, 1] := by norm_num
    simp [decimal, decimal_chars, decimal_nat, hd, digit_char]⟩

/-! ## `mx_st_texture_cache_load_from_raw` -/

/-- C19, as stated, fails: two `mx_st_texture_cache_load_from_raw` requests with
the same byte buffer 7, the first 16 by 16 with alpha and rowstride 64, the
second 8 by 32 without alpha and rowstride 24, share the cache entry
`raw-checksum:checksum=...`: only one texture is created, with the first
request's parameters, and the second actor shows it. -/
theorem load_from_raw_same_bytes_share_entry :
    ((mx_st_texture_cache_load_from_raw sample_checksum
        (mx_st_texture_cache_load_from_raw sample_checksum
          (mx_st_texture_cache_init World.initial) 7 true 16 16 64).1
        7 false 8 32 24).1.actors 1).cogl_texture = 1
    ∧ ((mx_st_texture_cache_load_from_raw sample_checksum
        (mx_st_texture_cache_load_from_raw sample_checksum
          (mx_st_texture_cache_init World.initial) 7 true 16 16 64).1
        7 false 8 32 24).1.actors 0).cogl_texture = 1
    ∧ (mx_st_texture_cache_load_from_raw sample_checksum
        (mx_st_texture_cache_load_from_raw sample_checksum
          (mx_st_texture_cache_init World.initial) 7 true 16 16 64).1
        7 false 8 32 24).1.created
      = [(1, { width := 16, height := 16, has_alpha := true, rowstride := 64, pixels := 7 },
          false)]
    ∧ ¬ ((mx_st_texture_cache_load_from_raw sample_checksum
        (mx_st_texture_cache_load_from_raw sample_checksum
          (mx_st_texture_cache_init World.initial) 7 true 16 16 64).1
        7 false 8 32 24).1.created.map (fun e => e.2.1.width) = [16, 8]) := by
  refine ⟨by decide, by decide, by decide, by decide⟩

theorem created_cogl_handle_ref (w : World) (h : CoglHandle) :
    (cogl_handle_ref w h).created = w.created ∧ (cogl_handle_ref w h).n_handles = w.n_handles
    ∧ (cogl_handle_ref w h).n_actors = w.n_actors := by
  unfold cogl_handle_ref
  split <;> exact ⟨rfl, rfl, rfl⟩

theorem created_cogl_handle_unref (w : World) (h : CoglHandle) :
    (cogl_handle_unref w h).created = w.created
    ∧ (cogl_handle_unref w h).n_handles = w.n_handles
    ∧ (cogl_handle_unref w h).n_actors = w.n_actors := by
  unfold cogl_handle_unref
  split <;> exact ⟨rfl, rfl, rfl⟩

theorem created_set_texture_cogl_texture (w : World) (t : Nat) (h : CoglHandle) :
    (set_texture_cogl_texture w t h).created = w.created
    ∧ (set_texture_cogl_texture w t h).n_handles = w.n_handles
    ∧ (set_texture_cogl_texture w t h).n_actors = w.n_actors := by
  unfold set_texture_cogl_texture set_opacity clutter_texture_set_cogl_texture
  split
  · simp only [(created_cogl_handle_unref _ _).1, (created_cogl_handle_unref _ _).2.1,
      (created_cogl_handle_unref _ _).2.2, (created_cogl_handle_ref _ _).1,
      (created_cogl_handle_ref _ _).2.1, (created_cogl_handle_ref _ _).2.2, and_self]
  · exact ⟨rfl, rfl, rfl⟩

theorem world_keyed_cache_insert (s : MxStTextureCache) (key : String) (h : CoglHandle) :
    (keyed_cache_insert s key h).created = s.created
    ∧ (keyed_cache_insert s key h).n_handles = s.n_handles
    ∧ (keyed_cache_insert s key h).n_actors = s.n_actors
    ∧ (keyed_cache_insert s key h).actors = s.actors
    ∧ (keyed_cache_insert s key h).keyed_cache = g_hash_table_insert s.keyed_cache key h := by
  unfold keyed_cache_insert
  cases g_hash_table_lookup s.keyed_cache key with
  | none => exact ⟨rfl, rfl, rfl, rfl, rfl⟩
  | some old =>
    exact ⟨(created_cogl_handle_unref _ _).1, (created_cogl_handle_unref _ _).2.1,
      (created_cogl_handle_unref _ _).2.2, actors_cogl_handle_unref _ _, rfl⟩

theorem load_from_raw_miss (ck : Nat → String) (s : MxStTextureCache) (data : Nat)
    (has_alpha : Bool) (width height rowstride : Int)
    (hmiss : (g_hash_table_lookup s.keyed_cache
        (CACHE_PREFIX_RAW_CHECKSUM ++ "checksum=" ++ ck data)).getD COGL_INVALID_HANDLE
        = COGL_INVALID_HANDLE) :
    (mx_st_texture_cache_load_from_raw ck s data has_alpha width height rowstride).2 = s.n_actors
    ∧ g_hash_table_lookup
        (mx_st_texture_cache_load_from_raw ck s data has_alpha width height rowstride).1.keyed_cache
        (CACHE_PREFIX_RAW_CHECKSUM ++ "checksum=" ++ ck data) = some (s.n_handles + 1)
    ∧ ((mx_st_texture_cache_load_from_raw ck s data has_alpha width height rowstride).1.actors
        s.n_actors).cogl_texture = s.n_handles + 1
    ∧ (mx_st_texture_cache_load_from_raw ck s data has_alpha width height rowstride).1.created
        = s.created ++ [(s.n_handles + 1,
            { width := width, height := height, has_alpha := has_alpha,
              rowstride := rowstride, pixels := data }, false)]
    ∧ (mx_st_texture_cache_load_from_raw ck s data has_alpha width height rowstride).1.n_handles
        = s.n_handles + 1
    ∧ (mx_st_texture_cache_load_from_raw ck s data has_alpha width height rowstride).1.n_actors
        = s.n_actors + 1 := by
  have hne : s.n_handles + 1 ≠ COGL_INVALID_HANDLE := by simp [COGL_INVALID_HANDLE]
  unfold mx_st_texture_cache_load_from_raw
  simp only [create_default_texture, hmiss, if_true, cogl_texture_new_from_data]
  refine ⟨trivial, ?_, ?_, ?_, ?_, ?_⟩
  · show g_hash_table_lookup (keyed_cache_insert _ _ _).keyed_cache _ = _
    rw [(world_keyed_cache_insert _ _ _).2.2.2.2]
    exact g_hash_table_lookup_insert_self _ _ _
  · show ((set_texture_cogl_texture _ _ _).actors _).cogl_texture = _
    rw [actors_set_texture_cogl_texture _ _ _ _ hne, if_pos rfl]
  · show (set_texture_cogl_texture _ _ _).created = _
    rw [(created_set_texture_cogl_texture _ _ _).1]
    show (keyed_cache_insert _ _ _).created = _
    rw [(world_keyed_cache_insert _ _ _).1]
  · show (set_texture_cogl_texture _ _ _).n_handles = _
    rw [(created_set_texture_cogl_texture _ _ _).2.1]
    show (keyed_cache_insert _ _ _).n_handles = _
    rw [(world_keyed_cache_insert _ _ _).2.1]
  · show (set_texture_cogl_texture _ _ _).n_actors = _
    rw [(created_set_texture_cogl_texture _ _ _).2.2]
    show (keyed_cache_insert _ _ _).n_actors = _
    rw [(world_keyed_cache_insert _ _ _).2.2.1]

theorem load_from_raw_hit (ck : Nat → String) (s : MxStTextureCache) (data : Nat)
    (has_alpha : Bool) (width height rowstride : Int) (t : CoglHandle)
    (hhit : g_hash_table_lookup s.keyed_cache
        (CACHE_PREFIX_RAW_CHECKSUM ++ "checksum=" ++ ck data) = some t)
    (hne : t ≠ COGL_INVALID_HANDLE) :
    (mx_st_texture_cache_load_from_raw ck s data has_alpha width height rowstride).2 = s.n_actors
    ∧ (mx_st_texture_cache_load_from_raw ck s data has_alpha width height rowstride).1.keyed_cache
        = s.keyed_cache
    ∧ (∀ a : Nat,
        (mx_st_texture_cache_load_from_raw ck s data has_alpha width height rowstride).1.actors a
        = if a = s.n_actors then { cogl_texture := t, opacity := 255, keep_aspect_ratio := true }
          else s.actors a)
    ∧ (mx_st_texture_cache_load_from_raw ck s data has_alpha width height rowstride).1.created
        = s.created
    ∧ (mx_st_texture_cache_load_from_raw ck s data has_alpha width height rowstride).1.n_handles
        = s.n_handles := by
  unfold mx_st_texture_cache_load_from_raw
  simp only [create_default_texture, hhit, Option.getD_some, if_neg hne]
  refine ⟨trivial, trivial, ?_, ?_, ?_⟩
  · intro a
    show (set_texture_cogl_texture _ _ _).actors a = _
    rw [actors_set_texture_cogl_texture _ _ _ _ hne]
    by_cases ha : a = s.n_actors
    · simp [ha]
    · simp [ha, Function.update_noteq ha]
  · show (set_texture_cogl_texture _ _ _).created = _
    rw [(created_set_texture_cogl_texture _ _ _).1]
  · show (set_texture_cogl_texture _ _ _).n_handles = _
    rw [(created_set_texture_cogl_texture _ _ _).2.1]

/-- C19, amended. `mx_st_texture_cache_load_from_raw` keys its entry by the
checksum of the bytes alone.  Two requests with the same byte buffer, made on
a cache that does not hold the key yet, share one cache entry whatever their
width, height, rowstride and alpha flag: exactly one texture is created, with
the first request's parameters, and both returned actors (two different
actors) show it.  Requests whose checksums differ get different keys. -/
theorem load_from_raw_keyed_by_checksum (ck : Nat → String) (s : MxStTextureCache)
    (data : Nat) (alpha1 alpha2 : Bool) (w1 h1 rs1 w2 h2 rs2 : Int)
    (habs : g_hash_table_lookup s.keyed_cache
        (CACHE_PREFIX_RAW_CHECKSUM ++ "checksum=" ++ ck data) = none) :
    (mx_st_texture_cache_load_from_raw ck s data alpha1 w1 h1 rs1).2
      ≠ (mx_st_texture_cache_load_from_raw ck
          (mx_st_texture_cache_load_from_raw ck s data alpha1 w1 h1 rs1).1
          data alpha2 w2 h2 rs2).2
    ∧ ((mx_st_texture_cache_load_from_raw ck
          (mx_st_texture_cache_load_from_raw ck s data alpha1 w1 h1 rs1).1
          data alpha2 w2 h2 rs2).1.actors
        (mx_st_texture_cache_load_from_raw ck s data alpha1 w1 h1 rs1).2).cogl_texture
      = s.n_handles + 1
    ∧ ((mx_st_texture_cache_load_from_raw ck
          (mx_st_texture_cache_load_from_raw ck s data alpha1 w1 h1 rs1).1
          data alpha2 w2 h2 rs2).1.actors
        (mx_st_texture_cache_load_from_raw ck
          (mx_st_texture_cache_load_from_raw ck s data alpha1 w1 h1 rs1).1
          data alpha2 w2 h2 rs2).2).cogl_texture
      = s.n_handles + 1
    ∧ (mx_st_texture_cache_load_from_raw ck
          (mx_st_texture_cache_load_from_raw ck s data alpha1 w1 h1 rs1).1
          data alpha2 w2 h2 rs2).1.created
      = s.created ++ [(s.n_handles + 1,
          { width := w1, height := h1, has_alpha := alpha1, rowstride := rs1, pixels := data },
          false)]
    ∧ (mx_st_texture_cache_load_from_raw ck
          (mx_st_texture_cache_load_from_raw ck s data alpha1 w1 h1 rs1).1
          data alpha2 w2 h2 rs2).1.n_handles = s.n_handles + 1
    ∧ (∀ d1 d2 : Nat, ck d1 ≠ ck d2 →
        CACHE_PREFIX_RAW_CHECKSUM ++ "checksum=" ++ ck d1
          ≠ CACHE_PREFIX_RAW_CHECKSUM ++ "checksum=" ++ ck d2) := by
  have hmiss : (g_hash_table_lookup s.keyed_cache
      (CACHE_PREFIX_RAW_CHECKSUM ++ "checksum=" ++ ck data)).getD COGL_INVALID_HANDLE
      = COGL_INVALID_HANDLE := by rw [habs]; rfl
  obtain ⟨m1, m2, m3, m4, m5, m6⟩ := load_from_raw_miss ck s data alpha1 w1 h1 rs1 hmiss
  have hne : s.n_handles + 1 ≠ COGL_INVALID_HANDLE := by simp [COGL_INVALID_HANDLE]
  obtain ⟨k1, _, k3, k4, k5⟩ := load_from_raw_hit ck
    (mx_st_texture_cache_load_from_raw ck s data alpha1 w1 h1 rs1).1 data alpha2 w2 h2 rs2
    (s.n_handles + 1) m2 hne
  refine ⟨?_, ?_, ?_, ?_, ?_, ?_⟩
  · rw [k1, m1, m6]
    omega
  · rw [k3, m1, m6, if_neg (by omega)]
    exact m3
  · rw [k3, k1, if_pos rfl]
  · rw [k4, m4]
  · rw [k5, m5]
  · intro d1 d2 hck hkey
    have h2 := congrArg String.data hkey
    simp [CACHE_PREFIX_RAW_CHECKSUM, String.data_append] at h2
    exact hck (String.ext h2)

/-- C19 amended, applied: the 16 by 16 and the 8 by 32 request for buffer 7 on an
empty cache. -/
theorem load_from_raw_keyed_by_checksum_witness :
    g_hash_table_lookup (mx_st_texture_cache_init World.initial).keyed_cache
        (CACHE_PREFIX_RAW_CHECKSUM ++ "checksum=" ++ sample_checksum 7) = none
    ∧ (mx_st_texture_cache_load_from_raw sample_checksum
          (mx_st_texture_cache_load_from_raw sample_checksum
            (mx_st_texture_cache_init World.initial) 7 true 16 16 64).1
          7 false 8 32 24).1.n_handles = (mx_st_texture_cache_init World.initial).n_handles + 1 :=
  ⟨rfl,
   (load_from_raw_keyed_by_checksum sample_checksum (mx_st_texture_cache_init World.initial)
      7 true false 16 16 64 8 32 24 rfl).2.2.2.2.1⟩

/-! ## The texture built by `pixbuf_to_cogl_handle` -/

/-- C20. For every pixbuf of width `w > 0` and height `h > 0` (both `int`s):
without padding, or when `w = h`, the texture is exactly `w` by `h`; with
padding and `w ≠ h` the texture is a square of side `s = max w h`, the source
is written at offset `((s - w) / 2, (s - h) / 2)` with its own size, the
written region lies inside the square, one of the two offsets is 0, and in
each axis the margin after the image exceeds the margin before it by 0 or 1. -/
theorem pixbuf_to_cogl_handle_placement (pixbuf : GdkPixbuf) (add_padding : Bool)
    (hw : 0 < pixbuf.width) (hh : 0 < pixbuf.height)
    (hfw : fits_int pixbuf.width) (hfh : fits_int pixbuf.height) :
    ((add_padding = false ∨ pixbuf.width = pixbuf.height) →
      (pixbuf_to_cogl_handle_layout pixbuf add_padding).width = pixbuf.width
      ∧ (pixbuf_to_cogl_handle_layout pixbuf add_padding).height = pixbuf.height
      ∧ (pixbuf_to_cogl_handle_layout pixbuf add_padding).dst_x = 0
      ∧ (pixbuf_to_cogl_handle_layout pixbuf add_padding).dst_y = 0)
    ∧ ((add_padding = true ∧ pixbuf.width ≠ pixbuf.height) →
      (pixbuf_to_cogl_handle_layout pixbuf add_padding).width = max pixbuf.width pixbuf.height
      ∧ (pixbuf_to_cogl_handle_layout pixbuf add_padding).height
          = max pixbuf.width pixbuf.height
      ∧ (pixbuf_to_cogl_handle_layout pixbuf add_padding).dst_x
          = (max pixbuf.width pixbuf.height - pixbuf.width) / 2
      ∧ (pixbuf_to_cogl_handle_layout pixbuf add_padding).dst_y
          = (max pixbuf.width pixbuf.height - pixbuf.height) / 2
      ∧ 0 ≤ (pixbuf_to_cogl_handle_layout pixbuf add_padding).dst_x
      ∧ 0 ≤ (pixbuf_to_cogl_handle_layout pixbuf add_padding).dst_y
      ∧ (pixbuf_to_cogl_handle_layout pixbuf add_padding).dst_x + pixbuf.width
          ≤ max pixbuf.width pixbuf.height
      ∧ (pixbuf_to_cogl_handle_layout pixbuf add_padding).dst_y + pixbuf.height
          ≤ max pixbuf.width pixbuf.height
      ∧ ((pixbuf_to_cogl_handle_layout pixbuf add_padding).dst_x = 0
          ∨ (pixbuf_to_cogl_handle_layout pixbuf add_padding).dst_y = 0)
      ∧ 0 ≤ (max pixbuf.width pixbuf.height
              - ((pixbuf_to_cogl_handle_layout pixbuf add_padding).dst_x + pixbuf.width))
            - (pixbuf_to_cogl_handle_layout pixbuf add_padding).dst_x
      ∧ (max pixbuf.width pixbuf.height
              - ((pixbuf_to_cogl_handle_layout pixbuf add_padding).dst_x + pixbuf.width))
            - (pixbuf_to_cogl_handle_layout pixbuf add_padding).dst_x ≤ 1
      ∧ 0 ≤ (max pixbuf.width pixbuf.height
              - ((pixbuf_to_cogl_handle_layout pixbuf add_padding).dst_y + pixbuf.height))
            - (pixbuf_to_cogl_handle_layout pixbuf add_padding).dst_y
      ∧ (max pixbuf.width pixbuf.height
              - ((pixbuf_to_cogl_handle_layout pixbuf add_padding).dst_y + pixbuf.height))
            - (pixbuf_to_cogl_handle_layout pixbuf add_padding).dst_y ≤ 1
      ∧ (pixbuf_to_cogl_handle_layout pixbuf add_padding).dst_width = pixbuf.width
      ∧ (pixbuf_to_cogl_handle_layout pixbuf add_padding).dst_height = pixbuf.height) := by
  unfold fits_int G_MININT G_MAXINT at hfw hfh
  constructor
  · intro hcase
    have hc : (!add_padding || decide (pixbuf.width = pixbuf.height)) = true := by
      rcases hcase with h | h <;> simp [h]
    simp [pixbuf_to_cogl_handle_layout, hc]
  · intro hcase
    obtain ⟨hp, hne⟩ := hcase
    have hc : ¬ ((!add_padding || decide (pixbuf.width = pixbuf.height)) = true) := by
      simp [hp, hne]
    have hmax : MAX pixbuf.width pixbuf.height = max pixbuf.width pixbuf.height := by
      unfold MAX
      split <;> omega
    simp only [pixbuf_to_cogl_handle_layout, if_neg hc, hmax, to_guint, wrap_int]
    refine ⟨?_, ?_, ?_, ?_, ?_, ?_, ?_, ?_, ?_, ?_, ?_, ?_, ?_, trivial, trivial⟩ <;> omega

/-- C20, applied: `sample_pixbuf`, 64 by 48, padded into a square of side 64 at
offset (0, 8). -/
theorem pixbuf_to_cogl_handle_placement_witness :
    0 < sample_pixbuf.width ∧ 0 < sample_pixbuf.height
    ∧ fits_int sample_pixbuf.width ∧ fits_int sample_pixbuf.height
    ∧ pixbuf_to_cogl_handle_layout sample_pixbuf true
        = { width := 64, height := 64, dst_x := 0, dst_y := 8, dst_width := 64,
            dst_height := 48, has_alpha := true }
    ∧ (pixbuf_to_cogl_handle_layout sample_pixbuf true).dst_y + sample_pixbuf.height
        ≤ max sample_pixbuf.width sample_pixbuf.height :=
  ⟨by decide, by decide, by decide, by decide, by decide,
   ((pixbuf_to_cogl_handle_placement sample_pixbuf true (by decide) (by decide) (by decide)
      (by decide)).2 ⟨rfl, by decide⟩).2.2.2.2.2.2.2.1⟩

/-! ## Aspect ratio and symmetry of `compute_pixbuf_scale` -/

theorem mx_compute_pixbuf_scale_eq_candidate (width height aw ah nw nh : Int) :
    Mx.compute_pixbuf_scale width height aw ah nw nh
      = if width = 0 ∨ height = 0 then (false, nw, nh)
        else if (compute_pixbuf_scale_candidate width height aw ah).1 > 0
            ∧ (compute_pixbuf_scale_candidate width height aw ah).2 > 0
            ∧ (compute_pixbuf_scale_candidate width height aw ah).1 < width
            ∧ (compute_pixbuf_scale_candidate width height aw ah).2 < height
        then (true, (compute_pixbuf_scale_candidate width height aw ah).1,
              (compute_pixbuf_scale_candidate width height aw ah).2)
        else (false, nw, nh) := rfl

theorem st_compute_pixbuf_scale_eq_candidate (width height aw ah nw nh : Int) :
    St.compute_pixbuf_scale width height aw ah nw nh
      = if width = 0 ∨ height = 0 then (false, nw, nh)
        else if (compute_pixbuf_scale_candidate width height aw ah).1 > 0
            ∧ (compute_pixbuf_scale_candidate width height aw ah).2 > 0
            ∧ (compute_pixbuf_scale_candidate width height aw ah).1 < width
            ∧ (compute_pixbuf_scale_candidate width height aw ah).2 < height
        then (true, (compute_pixbuf_scale_candidate width height aw ah).1,
              (compute_pixbuf_scale_candidate width height aw ah).2)
        else (false, nw, nh) := rfl

theorem compute_pixbuf_scale_candidate_swap (width height aw ah : Int) :
    compute_pixbuf_scale_candidate height width ah aw
      = ((compute_pixbuf_scale_candidate width height aw ah).2,
         (compute_pixbuf_scale_candidate width height aw ah).1) := by
  unfold compute_pixbuf_scale_candidate
  by_cases h1 : aw ≥ 0 <;> by_cases h2 : ah ≥ 0 <;> simp [h1, h2]

theorem candidate_in_box (width height aw ah : Int)
    (hw : 0 < width) (hh : 0 < height) (haw : 0 ≤ aw) (hah : 0 ≤ ah)
    (hf1 : fits_int (ah * width)) (hf2 : fits_int (aw * height)) :
    int_div (int_mul ah width) height = ah * width / height
    ∧ int_div (int_mul aw height) width = aw * height / width
    ∧ compute_pixbuf_scale_candidate width height aw ah
        = (min aw (ah * width / height), min ah (aw * height / width)) := by
  have e1 : int_div (int_mul ah width) height = ah * width / height := by
    unfold int_div int_mul
    rw [wrap_int_of_fits _ hf1]
    exact Int.tdiv_eq_ediv (Int.mul_nonneg hah (le_of_lt hw)) (le_of_lt hh)
  have e2 : int_div (int_mul aw height) width = aw * height / width := by
    unfold int_div int_mul
    rw [wrap_int_of_fits _ hf2]
    exact Int.tdiv_eq_ediv (Int.mul_nonneg haw (le_of_lt hh)) (le_of_lt hw)
  refine ⟨e1, e2, ?_⟩
  unfold compute_pixbuf_scale_candidate
  rw [if_pos ⟨haw, hah⟩, e1, e2, MIN_eq_min, MIN_eq_min]

theorem floor_quotient_bounds (a b : Int) (hb : 0 < b) :
    a / b * b ≤ a ∧ a < (a / b + 1) * b :=
  ⟨Int.ediv_mul_le a (ne_of_gt hb), Int.lt_ediv_add_one_mul_self a hb⟩

/-- C28. Aspect ratio is kept up to integer truncation: for positive natural
sizes, non-negative available sizes and products that fit an `int`,
`aw < (ah*width)/height` implies `(aw*height)/width < ah`; the candidate of
`compute_pixbuf_scale` is `(aw, (aw*height)/width)` or `((ah*width)/height, ah)`;
`|sw*height - sh*width| < max width height`; and whenever either copy of
`compute_pixbuf_scale` returns TRUE its outputs are that candidate. -/
theorem compute_pixbuf_scale_keeps_aspect (width height aw ah : Int)
    (hw : 0 < width) (hh : 0 < height) (haw : 0 ≤ aw) (hah : 0 ≤ ah)
    (hf1 : fits_int (ah * width)) (hf2 : fits_int (aw * height)) :
    (aw < int_div (int_mul ah width) height → int_div (int_mul aw height) width < ah)
    ∧ (compute_pixbuf_scale_candidate width height aw ah
          = (aw, int_div (int_mul aw height) width)
        ∨ compute_pixbuf_scale_candidate width height aw ah
          = (int_div (int_mul ah width) height, ah))
    ∧ |(compute_pixbuf_scale_candidate width height aw ah).1 * height
        - (compute_pixbuf_scale_candidate width height aw ah).2 * width| < max width height
    ∧ (∀ nw nh, (Mx.compute_pixbuf_scale width height aw ah nw nh).1 = true →
        (Mx.compute_pixbuf_scale width height aw ah nw nh).2
          = compute_pixbuf_scale_candidate width height aw ah)
    ∧ (∀ nw nh, (St.compute_pixbuf_scale width height aw ah nw nh).1 = true →
        (St.compute_pixbuf_scale width height aw ah nw nh).2
          = compute_pixbuf_scale_candidate width height aw ah) := by
  obtain ⟨e1, e2, ec⟩ := candidate_in_box width height aw ah hw hh haw hah hf1 hf2
  obtain ⟨b1, b2⟩ := floor_quotient_bounds (ah * width) height hh
  obtain ⟨b3, b4⟩ := floor_quotient_bounds (aw * height) width hw
  rw [e1, e2, ec]
  generalize hq1 : ah * width / height = q1 at b1 b2
  generalize hq2 : aw * height / width = q2 at b3 b4
  have key1 : aw < q1 → q2 < ah := by
    intro h
    by_contra hc
    have h1 : (aw + 1) * height ≤ q1 * height :=
      mul_le_mul_of_nonneg_right (by omega) (le_of_lt hh)
    have h2 : ah * width ≤ q2 * width :=
      mul_le_mul_of_nonneg_right (by omega) (le_of_lt hw)
    nlinarith
  have key2 : q1 < aw → ah ≤ q2 := by
    intro h
    by_contra hc
    have h1 : (q1 + 1) * height ≤ aw * height :=
      mul_le_mul_of_nonneg_right (by omega) (le_of_lt hh)
    have h2 : (q2 + 1) * width ≤ ah * width :=
      mul_le_mul_of_nonneg_right (by omega) (le_of_lt hw)
    nlinarith
  refine ⟨key1, ?_, ?_, ?_, ?_⟩
  · rcases lt_trichotomy aw q1 with h | h | h
    · left
      have := key1 h
      rw [min_eq_left (le_of_lt h), min_eq_right (le_of_lt this)]
    · rcases le_total ah q2 with h2 | h2
      · right
        rw [min_eq_right (le_of_eq h.symm), min_eq_left h2]
      · left
        rw [min_eq_left (le_of_eq h), min_eq_right h2]
    · right
      have := key2 h
      rw [min_eq_right (le_of_lt h), min_eq_left this]
  · have hm1 : width ≤ max width height := le_max_left _ _
    have hm2 : height ≤ max width height := le_max_right _ _
    rw [abs_lt]
    rcases le_total aw q1 with h | h
    · rw [min_eq_left h]
      rcases le_total ah q2 with h2 | h2
      · rw [min_eq_left h2]
        have h3 : aw * height ≤ q1 * height :=
          mul_le_mul_of_nonneg_right h (le_of_lt hh)
        have h4 : ah * width ≤ q2 * width :=
          mul_le_mul_of_nonneg_right h2 (le_of_lt hw)
        constructor <;> nlinarith
      · rw [min_eq_right h2]
        constructor <;> nlinarith
    · rw [min_eq_right h]
      rcases le_total ah q2 with h2 | h2
      · rw [min_eq_left h2]
        constructor <;> nlinarith
      · rw [min_eq_right h2]
        have h3 : q1 * height ≤ aw * height :=
          mul_le_mul_of_nonneg_right h (le_of_lt hh)
        have h4 : q2 * width ≤ ah * width :=
          mul_le_mul_of_nonneg_right h2 (le_of_lt hw)
        constructor <;> nlinarith
  · intro nw nh htrue
    rw [mx_compute_pixbuf_scale_eq_candidate, ec, hq1, hq2] at htrue ⊢
    split at htrue
    · simp at htrue
    · split at htrue
      · rename_i hc
        rw [if_neg (by omega), if_pos hc]
      · simp at htrue
  · intro nw nh htrue
    rw [st_compute_pixbuf_scale_eq_candidate, ec, hq1, hq2] at htrue ⊢
    split at htrue
    · simp at htrue
    · split at htrue
      · rename_i hc
        rw [if_neg (by omega), if_pos hc]
      · simp at htrue

/-- C28, applied: natural size 10 by 11 and available size 7 by 9. -/
theorem compute_pixbuf_scale_keeps_aspect_witness :
    (7 < int_div (int_mul 9 10) 11 → int_div (int_mul 7 11) 10 < 9)
    ∧ (compute_pixbuf_scale_candidate 10 11 7 9 = (7, int_div (int_mul 7 11) 10)
        ∨ compute_pixbuf_scale_candidate 10 11 7 9 = (int_div (int_mul 9 10) 11, 9))
    ∧ |(compute_pixbuf_scale_candidate 10 11 7 9).1 * 11
        - (compute_pixbuf_scale_candidate 10 11 7 9).2 * 10| < max 10 11
    ∧ (∀ nw nh, (Mx.compute_pixbuf_scale 10 11 7 9 nw nh).1 = true →
        (Mx.compute_pixbuf_scale 10 11 7 9 nw nh).2 = compute_pixbuf_scale_candidate 10 11 7 9)
    ∧ (∀ nw nh, (St.compute_pixbuf_scale 10 11 7 9 nw nh).1 = true →
        (St.compute_pixbuf_scale 10 11 7 9 nw nh).2 = compute_pixbuf_scale_candidate 10 11 7 9) :=
  compute_pixbuf_scale_keeps_aspect 10 11 7 9 (by decide) (by decide) (by decide) (by decide)
    (by decide) (by decide)

theorem mx_compute_pixbuf_scale_swap (width height aw ah nw nh : Int) :
    Mx.compute_pixbuf_scale height width ah aw nh nw
      = ((Mx.compute_pixbuf_scale width height aw ah nw nh).1,
         (Mx.compute_pixbuf_scale width height aw ah nw nh).2.2,
         (Mx.compute_pixbuf_scale width height aw ah nw nh).2.1) := by
  rw [mx_compute_pixbuf_scale_eq_candidate, mx_compute_pixbuf_scale_eq_candidate,
    compute_pixbuf_scale_candidate_swap]
  by_cases h0 : width = 0 ∨ height = 0
  · rw [if_pos h0, if_pos (Or.symm h0)]
  · rw [if_neg h0, if_neg (fun h => h0 (Or.symm h))]
    by_cases hc : (compute_pixbuf_scale_candidate width height aw ah).1 > 0
        ∧ (compute_pixbuf_scale_candidate width height aw ah).2 > 0
        ∧ (compute_pixbuf_scale_candidate width height aw ah).1 < width
        ∧ (compute_pixbuf_scale_candidate width height aw ah).2 < height
    · rw [if_pos hc, if_pos ⟨hc.2.1, hc.1, hc.2.2.2, hc.2.2.1⟩]
    · rw [if_neg hc, if_neg (fun h => hc ⟨h.2.1, h.1, h.2.2.2, h.2.2.1⟩)]

theorem st_compute_pixbuf_scale_eq_mx (width height aw ah nw nh : Int) :
    St.compute_pixbuf_scale width height aw ah nw nh
      = Mx.compute_pixbuf_scale width height aw ah nw nh := rfl

theorem compute_pixbuf_scale_candidate_square (size aw ah : Int) (hs : size ≠ 0)
    (hf1 : 0 ≤ aw → fits_int (aw * size)) (hf2 : 0 ≤ ah → fits_int (ah * size)) :
    (compute_pixbuf_scale_candidate size size aw ah).1
      = (compute_pixbuf_scale_candidate size size aw ah).2 := by
  have e : ∀ a : Int, fits_int (a * size) → int_div (int_mul a size) size = a := by
    intro a hf
    unfold int_div int_mul
    rw [wrap_int_of_fits _ hf]
    exact Int.mul_tdiv_cancel a hs
  unfold compute_pixbuf_scale_candidate
  by_cases h1 : aw ≥ 0 <;> by_cases h2 : ah ≥ 0
  · rw [if_pos ⟨h1, h2⟩, e aw (hf1 h1), e ah (hf2 h2), MIN_eq_min, MIN_eq_min]
    exact min_comm aw ah
  · rw [if_neg (fun h => h2 h.2), if_pos h1, e aw (hf1 h1)]
  · rw [if_neg (fun h => h1 h.1), if_neg h1, if_pos h2, e ah (hf2 h2)]
  · rw [if_neg (fun h => h1 h.1), if_neg h1, if_neg h2]

theorem mx_compute_pixbuf_scale_square (size aw ah nw nh : Int)
    (hf1 : 0 ≤ aw → fits_int (aw * size)) (hf2 : 0 ≤ ah → fits_int (ah * size)) :
    Mx.compute_pixbuf_scale size size ah aw nw nh
      = Mx.compute_pixbuf_scale size size aw ah nw nh := by
  by_cases hs : size = 0
  · rw [mx_compute_pixbuf_scale_eq_candidate, mx_compute_pixbuf_scale_eq_candidate,
      if_pos (Or.inl hs), if_pos (Or.inl hs)]
  · have hsq := compute_pixbuf_scale_candidate_square size aw ah hs hf1 hf2
    rw [mx_compute_pixbuf_scale_eq_candidate, mx_compute_pixbuf_scale_eq_candidate,
      compute_pixbuf_scale_candidate_swap]
    simp only [hsq]

/-! ## Sliced images -/

theorem load_sliced_image_row_ends (width height grid_width grid_height y : Int)
    (hg : 0 < grid_height) :
    ∀ (fuel : Nat) (x : Int) (res : List SubPixbuf), (width - x).toNat ≤ fuel →
      load_sliced_image_row width height grid_width grid_height y fuel x res ≠ none := by
  intro fuel
  induction fuel with
  | zero =>
    intro x res hf
    unfold load_sliced_image_row
    rw [if_neg (by omega)]
    simp
  | succ fuel ih =>
    intro x res hf
    unfold load_sliced_image_row
    split
    · split
      · simp
      · exact ih _ _ (by omega)
    · simp

theorem load_sliced_image_row_ok (width height grid_width grid_height y : Int)
    (hg : 0 < grid_height) :
    ∀ (fuel : Nat) (x : Int) (res res' : List SubPixbuf),
      load_sliced_image_row width height grid_width grid_height y fuel x res = some (.ok res') →
      ∀ k : Nat, x + k * grid_height < width →
        x + k * grid_height + grid_width ≤ width ∧ y + grid_height ≤ height := by
  intro fuel
  induction fuel with
  | zero =>
    intro x res res' h k hk
    unfold load_sliced_image_row at h
    have hx : ¬ x < width := by
      intro hx
      rw [if_pos hx] at h
      exact absurd h (by simp)
    have : 0 ≤ (k : Int) * grid_height := Int.mul_nonneg (Int.ofNat_nonneg k) (le_of_lt hg)
    omega
  | succ fuel ih =>
    intro x res res' h k hk
    have hnn : 0 ≤ (k : Int) * grid_height := Int.mul_nonneg (Int.ofNat_nonneg k) (le_of_lt hg)
    unfold load_sliced_image_row at h
    by_cases hx : x < width
    · rw [if_pos hx] at h
      cases hsub : gdk_pixbuf_new_subpixbuf width height x y grid_width grid_height with
      | none =>
        rw [hsub] at h
        simp at h
      | some pixbuf =>
        rw [hsub] at h
        simp only at h
        cases k with
        | zero =>
          unfold gdk_pixbuf_new_subpixbuf at hsub
          split at hsub
          · rename_i hc
            simp only [Nat.cast_zero, zero_mul, add_zero]
            exact ⟨hc.2.1, hc.2.2.2⟩
          · simp at hsub
        | succ k =>
          have hk' : x + grid_height + (k : Int) * grid_height < width := by
            have e : ((k + 1 : Nat) : Int) * grid_height = grid_height + (k : Int) * grid_height := by
              push_cast
              ring
            rw [e] at hk
            omega
          have := ih _ _ _ h k hk'
          have e : ((k + 1 : Nat) : Int) * grid_height = grid_height + (k : Int) * grid_height := by
            push_cast
            ring
          rw [e]
          constructor
          · omega
          · exact this.2
    · omega

theorem load_sliced_image_row_fault (width height grid_width grid_height y : Int) :
    ∀ (fuel : Nat) (x : Int) (res : List SubPixbuf) (e : Fault),
      load_sliced_image_row width height grid_width grid_height y fuel x res = some (.error e) →
      e = Fault.assertion_failed := by
  intro fuel
  induction fuel with
  | zero =>
    intro x res e h
    unfold load_sliced_image_row at h
    split at h <;> simp at h
  | succ fuel ih =>
    intro x res e h
    unfold load_sliced_image_row at h
    split at h
    · split at h
      · simp at h
        exact h.symm
      · exact ih _ _ _ h
    · simp at h

theorem load_sliced_image_rows_ends (width height grid_width grid_height : Int)
    (hgw : 0 < grid_width) (hgh : 0 < grid_height) :
    ∀ (fuel : Nat) (y : Int) (res : List SubPixbuf),
      (height - y).toNat + width.toNat ≤ fuel →
      load_sliced_image_rows width height grid_width grid_height fuel y res ≠ none := by
  intro fuel
  induction fuel with
  | zero =>
    intro y res hf
    unfold load_sliced_image_rows
    rw [if_neg (by omega)]
    simp
  | succ fuel ih =>
    intro y res hf
    unfold load_sliced_image_rows
    split
    · have hrow := load_sliced_image_row_ends width height grid_width grid_height y hgh
        (fuel + 1) 0 res (by omega)
      split
      · rename_i hnone
        exact absurd hnone hrow
      · simp
      · exact ih _ _ (by omega)
    · simp

theorem load_sliced_image_rows_fault (width height grid_width grid_height : Int) :
    ∀ (fuel : Nat) (y : Int) (res : List SubPixbuf) (e : Fault),
      load_sliced_image_rows width height grid_width grid_height fuel y res = some (.error e) →
      e = Fault.assertion_failed := by
  intro fuel
  induction fuel with
  | zero =>
    intro y res e h
    unfold load_sliced_image_rows at h
    split at h <;> simp at h
  | succ fuel ih =>
    intro y res e h
    unfold load_sliced_image_rows at h
    split at h
    · split at h
      · simp at h
      · rename_i e' hrow
        simp at h
        rw [← h]
        exact load_sliced_image_row_fault _ _ _ _ _ _ _ _ _ hrow
      · exact ih _ _ _ h
    · simp at h

theorem load_sliced_image_rows_ok (width height grid_width grid_height : Int)
    (hgw : 0 < grid_width) (hgh : 0 < grid_height) :
    ∀ (fuel : Nat) (y : Int) (res res' : List SubPixbuf),
      load_sliced_image_rows width height grid_width grid_height fuel y res = some (.ok res') →
      ∀ k : Nat, y + k * grid_width < height →
        ∀ j : Nat, (j : Int) * grid_height < width →
          j * grid_height + grid_width ≤ width ∧ y + k * grid_width + grid_height ≤ height := by
  intro fuel
  induction fuel with
  | zero =>
    intro y res res' h k hk
    unfold load_sliced_image_rows at h
    have hy : ¬ y < height := by
      intro hy
      rw [if_pos hy] at h
      exact absurd h (by simp)
    have : 0 ≤ (k : Int) * grid_width := Int.mul_nonneg (Int.ofNat_nonneg k) (le_of_lt hgw)
    omega
  | succ fuel ih =>
    intro y res res' h k hk j hj
    have hnn : 0 ≤ (k : Int) * grid_width := Int.mul_nonneg (Int.ofNat_nonneg k) (le_of_lt hgw)
    unfold load_sliced_image_rows at h
    by_cases hy : y < height
    · rw [if_pos hy] at h
      split at h
      · simp at h
      · simp at h
      · rename_i res1 hrow
        cases k with
        | zero =>
          have := load_sliced_image_row_ok width height grid_width grid_height y hgh _ _ _ _
            hrow j (by omega)
          simp only [Nat.cast_zero, zero_mul, add_zero]
          constructor
          · omega
          · exact this.2
        | succ k =>
          have e : ((k + 1 : Nat) : Int) * grid_width = grid_width + (k : Int) * grid_width := by
            push_cast
            ring
          rw [e] at hk ⊢
          have := ih _ _ _ h k (by omega) j hj
          constructor
          · exact this.1
          · omega
    · omega

theorem last_multiple_below (limit step : Int) (hl : 0 < limit) (hs : 0 < step) :
    ∃ k : Nat, (k : Int) * step < limit ∧ limit ≤ (k : Int) * step + step := by
  obtain ⟨b1, b2⟩ := floor_quotient_bounds (limit - 1) step hs
  have hq : 0 ≤ (limit - 1) / step := Int.ediv_nonneg (by omega) (le_of_lt hs)
  refine ⟨((limit - 1) / step).toNat, ?_, ?_⟩
  · rw [Int.toNat_of_nonneg hq]
    omega
  · rw [Int.toNat_of_nonneg hq]
    have e : ((limit - 1) / step + 1) * step = (limit - 1) / step * step + step := by ring
    omega

theorem load_sliced_image_non_square_grid (width height grid_width grid_height : Int)
    (hw : 0 < width) (hh : 0 < height) (hgw : 0 < grid_width) (hgh : 0 < grid_height)
    (hne : grid_width ≠ grid_height) (fuel : Nat) (hf : height.toNat + width.toNat ≤ fuel) :
    load_sliced_image fuel (some (width, height)) grid_width grid_height
      = some (.error Fault.assertion_failed) := by
  show load_sliced_image_rows width height grid_width grid_height fuel 0 []
    = some (.error Fault.assertion_failed)
  cases hres : load_sliced_image_rows width height grid_width grid_height fuel 0 [] with
  | none =>
    exact absurd hres
      (load_sliced_image_rows_ends width height grid_width grid_height hgw hgh fuel 0 []
        (by omega))
  | some r =>
    cases r with
    | error e =>
      rw [load_sliced_image_rows_fault _ _ _ _ _ _ _ _ hres]
    | ok res' =>
      exfalso
      have hok := load_sliced_image_rows_ok width height grid_width grid_height hgw hgh
        fuel 0 [] res' hres
      rcases lt_or_gt_of_ne hne with hlt | hgt
      · obtain ⟨k, hk1, hk2⟩ := last_multiple_below height grid_width hh hgw
        have := (hok k (by omega) 0 (by simpa using hw)).2
        omega
      · obtain ⟨j, hj1, hj2⟩ := last_multiple_below width grid_height hw hgh
        have := (hok 0 (by simpa using hh) j hj1).1
        omega

theorem load_sliced_image_row_square (height g y : Int) (hg : 0 < g) (hy : 0 ≤ y)
    (hyh : y + g ≤ height) :
    ∀ (m i0 : Nat) (res : List SubPixbuf) (fuel : Nat), m ≤ fuel →
      load_sliced_image_row (((i0 + m : Nat) : Int) * g) height g g y fuel ((i0 : Int) * g) res
        = some (.ok (res ++ (List.range' i0 m).map
            (fun (i : Nat) => ({ src_x := (i : Int) * g, src_y := y, width := g, height := g } :
              SubPixbuf)))) := by
  intro m
  induction m with
  | zero =>
    intro i0 res fuel _
    have hx : ¬ ((i0 : Int) * g < ((i0 + 0 : Nat) : Int) * g) := by simp
    cases fuel with
    | zero =>
      unfold load_sliced_image_row
      rw [if_neg hx]
      simp
    | succ fuel =>
      unfold load_sliced_image_row
      rw [if_neg hx]
      simp
  | succ m ih =>
    intro i0 res fuel hf
    cases fuel with
    | zero => omega
    | succ fuel =>
      have hi0 : 0 ≤ (i0 : Int) * g := Int.mul_nonneg (Int.ofNat_nonneg i0) (le_of_lt hg)
      have hm : 0 ≤ (m : Int) * g := Int.mul_nonneg (Int.ofNat_nonneg m) (le_of_lt hg)
      have ew : ((i0 + (m + 1) : Nat) : Int) * g = (i0 : Int) * g + (m : Int) * g + g := by
        push_cast
        ring
      have hx : (i0 : Int) * g < ((i0 + (m + 1) : Nat) : Int) * g := by
        rw [ew]
        omega
      unfold load_sliced_image_row
      rw [if_pos hx]
      have hsub : gdk_pixbuf_new_subpixbuf (((i0 + (m + 1) : Nat) : Int) * g) height
          ((i0 : Int) * g) y g g
          = some { src_x := (i0 : Int) * g, src_y := y, width := g, height := g } := by
        unfold gdk_pixbuf_new_subpixbuf
        rw [if_pos]
        rw [ew]
        exact ⟨hi0, by omega, hy, hyh⟩
      rw [hsub]
      simp only
      have e1 : (i0 : Int) * g + g = ((i0 + 1 : Nat) : Int) * g := by
        push_cast
        ring
      have e2 : i0 + (m + 1) = (i0 + 1) + m := by omega
      rw [e1, e2, ih (i0 + 1) _ fuel (by omega), List.range'_succ]
      simp

theorem load_sliced_image_rows_square (g : Int) (hg : 0 < g) (n : Nat) :
    ∀ (m j0 : Nat) (res : List SubPixbuf) (fuel : Nat), m + n ≤ fuel →
      load_sliced_image_rows ((n : Int) * g) (((j0 + m : Nat) : Int) * g) g g fuel
          ((j0 : Int) * g) res
        = some (.ok (res ++ (List.range' j0 m).flatMap (fun (j : Nat) =>
            (List.range n).map (fun (i : Nat) =>
              ({ src_x := (i : Int) * g, src_y := (j : Int) * g, width := g, height := g } :
                SubPixbuf))))) := by
  intro m
  induction m with
  | zero =>
    intro j0 res fuel _
    have hy : ¬ ((j0 : Int) * g < ((j0 + 0 : Nat) : Int) * g) := by simp
    cases fuel with
    | zero =>
      unfold load_sliced_image_rows
      rw [if_neg hy]
      simp
    | succ fuel =>
      unfold load_sliced_image_rows
      rw [if_neg hy]
      simp
  | succ m ih =>
    intro j0 res fuel hf
    cases fuel with
    | zero => omega
    | succ fuel =>
      have hj0 : 0 ≤ (j0 : Int) * g := Int.mul_nonneg (Int.ofNat_nonneg j0) (le_of_lt hg)
      have hm : 0 ≤ (m : Int) * g := Int.mul_nonneg (Int.ofNat_nonneg m) (le_of_lt hg)
      have eh : ((j0 + (m + 1) : Nat) : Int) * g = (j0 : Int) * g + (m : Int) * g + g := by
        push_cast
        ring
      have hy : (j0 : Int) * g < ((j0 + (m + 1) : Nat) : Int) * g := by
        rw [eh]
        omega
      have hrow := load_sliced_image_row_square (((j0 + (m + 1) : Nat) : Int) * g) g
        ((j0 : Int) * g) hg hj0 (by rw [eh]; omega) n 0 res (fuel + 1) (by omega)
      simp only [Nat.zero_add, Nat.cast_zero, zero_mul] at hrow
      unfold load_sliced_image_rows
      rw [if_pos hy, hrow]
      simp only
      have e1 : (j0 : Int) * g + g = ((j0 + 1 : Nat) : Int) * g := by
        push_cast
        ring
      have e2 : j0 + (m + 1) = (j0 + 1) + m := by omega
      rw [e1, e2, ih (j0 + 1) _ fuel (by omega), List.range'_succ, List.range_eq_range']
      simp

theorem multiple_as_nat (g v : Int) (hg : 0 < g) (hv : 0 ≤ v) (hd : g ∣ v) :
    v = (((v / g).toNat : Nat) : Int) * g ∧ (v / g).toNat ≤ v.toNat := by
  obtain ⟨a, ha⟩ := hd
  have hq : v / g = a := by
    rw [ha]
    exact Int.mul_ediv_cancel_left a (ne_of_gt hg)
  have ha0 : 0 ≤ a := by
    by_contra hneg
    have : g * a < 0 := Int.mul_neg_of_pos_of_neg hg (by omega)
    omega
  rw [hq, Int.toNat_of_nonneg ha0]
  constructor
  · rw [ha]
    ring
  · have : a ≤ g * a := by nlinarith
    omega

theorem load_sliced_image_square_grid (width height g : Int) (hg : 0 < g)
    (hw : 0 ≤ width) (hh : 0 ≤ height) (hdw : g ∣ width) (hdh : g ∣ height)
    (fuel : Nat) (hf : height.toNat + width.toNat ≤ fuel) :
    load_sliced_image fuel (some (width, height)) g g
      = some (.ok (spec_load_sliced_image width height g g)) := by
  obtain ⟨ew, hn⟩ := multiple_as_nat g width hg hw hdw
  obtain ⟨eh, hm⟩ := multiple_as_nat g height hg hh hdh
  have h := load_sliced_image_rows_square g hg (width / g).toNat (height / g).toNat 0 []
    fuel (by omega)
  simp only [Nat.zero_add, Nat.cast_zero, zero_mul, List.nil_append] at h
  rw [← ew, ← eh] at h
  show load_sliced_image_rows width height g g fuel 0 [] = _
  rw [h]
  unfold spec_load_sliced_image
  simp only [List.range_eq_range']

/-- C21, on the code: the loops of `load_sliced_image` step
`y` by `grid_width` and `x` by `grid_height`.  For every image of positive
size and every grid of positive cells with `grid_width ≠ grid_height`, the
loops end (with enough fuel) in a failure of the assertion that the
sub-pixbuf is non-NULL; for a 4 by 2 image and a 2 by 1 grid, and a 2 by 4
image and a 1 by 2 grid, the rectangles that the documentation describes all
lie inside the image.  For a square grid that divides the image the result is
the documented list. -/
theorem load_sliced_image_swapped_steps :
    load_sliced_image 8 (some (4, 2)) 2 1 = some (.error Fault.assertion_failed)
    ∧ spec_load_sliced_image 4 2 2 1
        = [⟨0, 0, 2, 1⟩, ⟨2, 0, 2, 1⟩, ⟨0, 1, 2, 1⟩, ⟨2, 1, 2, 1⟩]
    ∧ (∀ r ∈ spec_load_sliced_image 4 2 2 1,
        gdk_pixbuf_new_subpixbuf 4 2 r.src_x r.src_y r.width r.height = some r)
    ∧ load_sliced_image 8 (some (2, 4)) 1 2 = some (.error Fault.assertion_failed)
    ∧ (∀ r ∈ spec_load_sliced_image 2 4 1 2,
        gdk_pixbuf_new_subpixbuf 2 4 r.src_x r.src_y r.width r.height = some r)
    ∧ (∀ (width height grid_width grid_height : Int) (fuel : Nat),
        0 < width → 0 < height → 0 < grid_width → 0 < grid_height →
        grid_width ≠ grid_height → height.toNat + width.toNat ≤ fuel →
        load_sliced_image fuel (some (width, height)) grid_width grid_height
          = some (.error Fault.assertion_failed))
    ∧ (∀ (width height g : Int) (fuel : Nat),
        0 < g → 0 ≤ width → 0 ≤ height → g ∣ width → g ∣ height →
        height.toNat + width.toNat ≤ fuel →
        load_sliced_image fuel (some (width, height)) g g
          = some (.ok (spec_load_sliced_image width height g g))) := by
  refine ⟨rfl, by decide, by decide, rfl, by decide, ?_, ?_⟩
  · intro width height grid_width grid_height fuel hw hh hgw hgh hne hf
    exact load_sliced_image_non_square_grid width height grid_width grid_height hw hh hgw hgh
      hne fuel hf
  · intro width height g fuel hg hw hh hdw hdh hf
    exact load_sliced_image_square_grid width height g hg hw hh hdw hdh fuel hf

/-! ## `impl_load_pixbuf_data` -/

theorem st_impl_load_pixbuf_data_eq_mx (image : EncodedImage) (aw ah : Int) :
    St.impl_load_pixbuf_data image aw ah = Mx.impl_load_pixbuf_data image aw ah := rfl

theorem decode_size_square_swap (size aw ah : Int) :
    loader_decode_size size size (Mx.on_image_size_prepared size size ⟨ah, aw⟩)
      = ((loader_decode_size size size (Mx.on_image_size_prepared size size ⟨aw, ah⟩)).2,
         (loader_decode_size size size (Mx.on_image_size_prepared size size ⟨aw, ah⟩)).1) := by
  unfold loader_decode_size Mx.on_image_size_prepared
  simp only [mx_compute_pixbuf_scale_swap size size aw ah 0 0]
  cases (Mx.compute_pixbuf_scale size size aw ah 0 0).1 <;> simp

theorem impl_load_pixbuf_data_value (image : EncodedImage) (aw ah : Int)
    (hq : image.quarter_turn = true) (hok : image.failure = none) :
    Mx.impl_load_pixbuf_data image aw ah
      = if (loader_decode_size image.width image.height
              (Mx.on_image_size_prepared image.width image.height ⟨aw, ah⟩)).1
            ≠ (loader_decode_size image.width image.height
              (Mx.on_image_size_prepared image.width image.height ⟨aw, ah⟩)).2
        then { pixbuf := some (spec_decode_swapped image aw ah), error := none,
               loader_runs := 2 }
        else { pixbuf := some
                 ((loader_decode_size image.width image.height
                    (Mx.on_image_size_prepared image.width image.height ⟨aw, ah⟩)).2,
                  (loader_decode_size image.width image.height
                    (Mx.on_image_size_prepared image.width image.height ⟨aw, ah⟩)).1),
               error := none, loader_runs := 1 } := by
  unfold Mx.impl_load_pixbuf_data spec_decode_swapped gdk_pixbuf_loader_run
    gdk_pixbuf_apply_embedded_orientation
  simp only [hq, hok, if_true]

theorem impl_load_pixbuf_data_square_natural (image : EncodedImage) (aw ah : Int)
    (hq : image.quarter_turn = true) (hok : image.failure = none)
    (hsquare : image.width = image.height) :
    (Mx.impl_load_pixbuf_data image aw ah).pixbuf = some (spec_decode_swapped image aw ah) := by
  rw [impl_load_pixbuf_data_value image aw ah hq hok]
  generalize hf : loader_decode_size image.width image.height
    (Mx.on_image_size_prepared image.width image.height ⟨aw, ah⟩) = first
  by_cases hsq : first.1 = first.2
  · have hne : ¬ first.1 ≠ first.2 := fun h => h hsq
    rw [if_neg hne]
    have hs := decode_size_square_swap image.width aw ah
    unfold spec_decode_swapped gdk_pixbuf_apply_embedded_orientation
    rw [← hsquare] at hf ⊢
    rw [hs, hf, hq, if_pos rfl]
    show some (first.2, first.1) = some (first.1, first.2)
    rw [hsq]
  · have hne : first.1 ≠ first.2 := hsq
    rw [if_pos hne]

/-- C29, as stated, fails: for the square natural size 100000 by 100000 and the
available size 50000 by 60000 the product `60000 * 100000` does not fit an
`int`; with the wrapped products `compute_pixbuf_scale` returns TRUE with
(17050, 7050), and with the available sizes exchanged TRUE with (7050, 17050):
the result changes. -/
theorem compute_pixbuf_scale_square_wrapped_products :
    ¬ fits_int (60000 * 100000)
    ∧ Mx.compute_pixbuf_scale 100000 100000 50000 60000 0 0 = (true, 17050, 7050)
    ∧ Mx.compute_pixbuf_scale 100000 100000 60000 50000 0 0 = (true, 7050, 17050)
    ∧ Mx.compute_pixbuf_scale 100000 100000 60000 50000 0 0
        ≠ Mx.compute_pixbuf_scale 100000 100000 50000 60000 0 0
    ∧ St.compute_pixbuf_scale 100000 100000 60000 50000 0 0
        ≠ St.compute_pixbuf_scale 100000 100000 50000 60000 0 0 := by
  decide

/-- C29, amended. `compute_pixbuf_scale` is symmetric under exchanging the two
axes: for all inputs (wrapped products included) either copy returns TRUE with
`(a, b)` for `(width, height, aw, ah)` exactly when it returns TRUE with
`(b, a)` for `(height, width, ah, aw)`; and for a square natural size whose
products `aw * size` and `ah * size` fit an `int` the whole result is the same
when the available width and height are exchanged.  For a square natural size
with a quarter-turn orientation `impl_load_pixbuf_data` (either copy) returns
the dimensions of the decode with the available sizes exchanged, whether the
width-changed test makes it reload or not. -/
theorem compute_pixbuf_scale_axes_symmetric :
    (∀ width height aw ah nw nh a b : Int,
      (Mx.compute_pixbuf_scale width height aw ah nw nh = (true, a, b)
        ↔ Mx.compute_pixbuf_scale height width ah aw nh nw = (true, b, a))
      ∧ (St.compute_pixbuf_scale width height aw ah nw nh = (true, a, b)
        ↔ St.compute_pixbuf_scale height width ah aw nh nw = (true, b, a)))
    ∧ (∀ size aw ah nw nh : Int,
        (0 ≤ aw → fits_int (aw * size)) → (0 ≤ ah → fits_int (ah * size)) →
        Mx.compute_pixbuf_scale size size ah aw nw nh
          = Mx.compute_pixbuf_scale size size aw ah nw nh
        ∧ St.compute_pixbuf_scale size size ah aw nw nh
          = St.compute_pixbuf_scale size size aw ah nw nh)
    ∧ (∀ (image : EncodedImage) (aw ah : Int),
        image.quarter_turn = true → image.failure = none → image.width = image.height →
        (Mx.impl_load_pixbuf_data image aw ah).pixbuf = some (spec_decode_swapped image aw ah)
        ∧ (St.impl_load_pixbuf_data image aw ah).pixbuf
            = some (spec_decode_swapped image aw ah)) := by
  have key : ∀ width height aw ah nw nh a b : Int,
      (Mx.compute_pixbuf_scale width height aw ah nw nh = (true, a, b)
        ↔ Mx.compute_pixbuf_scale height width ah aw nh nw = (true, b, a)) := by
    intro width height aw ah nw nh a b
    rw [mx_compute_pixbuf_scale_swap width height aw ah nw nh]
    constructor
    · intro h
      rw [h]
    · intro h
      have h1 := congrArg Prod.fst h
      have h2 := congrArg (fun p => p.2.1) h
      have h3 := congrArg (fun p => p.2.2) h
      simp only at h1 h2 h3
      exact Prod.ext h1 (Prod.ext h3 h2)
  refine ⟨fun width height aw ah nw nh a b => ⟨key width height aw ah nw nh a b, ?_⟩, ?_, ?_⟩
  · simp only [st_compute_pixbuf_scale_eq_mx]
    exact key width height aw ah nw nh a b
  · intro size aw ah nw nh hf1 hf2
    simp only [st_compute_pixbuf_scale_eq_mx]
    exact ⟨mx_compute_pixbuf_scale_square size aw ah nw nh hf1 hf2,
      mx_compute_pixbuf_scale_square size aw ah nw nh hf1 hf2⟩
  · intro image aw ah hq hok hsquare
    rw [st_impl_load_pixbuf_data_eq_mx]
    exact ⟨impl_load_pixbuf_data_square_natural image aw ah hq hok hsquare,
      impl_load_pixbuf_data_square_natural image aw ah hq hok hsquare⟩

/-- C29 amended, applied: natural size 100 by 100 with the available sizes 50 by
80 and 80 by 50 gives (50, 50) both times. -/
theorem compute_pixbuf_scale_axes_symmetric_witness :
    Mx.compute_pixbuf_scale 100 100 80 50 0 0 = Mx.compute_pixbuf_scale 100 100 50 80 0 0
    ∧ Mx.compute_pixbuf_scale 100 100 50 80 0 0 = (true, 50, 50) :=
  ⟨(compute_pixbuf_scale_axes_symmetric.2.1 100 50 80 0 0 (fun _ => by decide)
      (fun _ => by decide)).1, by decide⟩

/-- C27, as stated, fails: a 10 by 11 image with a quarter-turn
orientation, asked for at 5 by 100, is decoded once at 5 by 5 and returned at
that size, while decoding it with the available sizes exchanged and applying
the orientation gives 5 by 4. -/
theorem impl_load_pixbuf_data_square_first_decode :
    Mx.impl_load_pixbuf_data ⟨10, 11, true, none⟩ 5 100
      = { pixbuf := some (5, 5), error := none, loader_runs := 1 }
    ∧ St.impl_load_pixbuf_data ⟨10, 11, true, none⟩ 5 100
      = { pixbuf := some (5, 5), error := none, loader_runs := 1 }
    ∧ spec_decode_swapped ⟨10, 11, true, none⟩ 5 100 = (5, 4) := by
  decide

/-- C27, amended. For every decodable image whose embedded orientation is a
quarter turn, every natural size and every available size: when the first
decode is not square, or the natural size is square, `impl_load_pixbuf_data`
(either copy) returns a pixbuf of the dimensions of one decode with the
available width and height exchanged followed by the orientation; when the
first decode is square it is returned after one run of the decoder; the
decoder runs twice when the first decode is not square and never more than
twice. -/
theorem impl_load_pixbuf_data_quarter_turn (image : EncodedImage) (aw ah : Int)
    (hq : image.quarter_turn = true) (hok : image.failure = none) :
    (((loader_decode_size image.width image.height
          (Mx.on_image_size_prepared image.width image.height ⟨aw, ah⟩)).1
        ≠ (loader_decode_size image.width image.height
          (Mx.on_image_size_prepared image.width image.height ⟨aw, ah⟩)).2
        ∨ image.width = image.height) →
      (Mx.impl_load_pixbuf_data image aw ah).pixbuf = some (spec_decode_swapped image aw ah))
    ∧ ((loader_decode_size image.width image.height
          (Mx.on_image_size_prepared image.width image.height ⟨aw, ah⟩)).1
        ≠ (loader_decode_size image.width image.height
          (Mx.on_image_size_prepared image.width image.height ⟨aw, ah⟩)).2 →
      (Mx.impl_load_pixbuf_data image aw ah).loader_runs = 2)
    ∧ ((loader_decode_size image.width image.height
          (Mx.on_image_size_prepared image.width image.height ⟨aw, ah⟩)).1
        = (loader_decode_size image.width image.height
          (Mx.on_image_size_prepared image.width image.height ⟨aw, ah⟩)).2 →
      (Mx.impl_load_pixbuf_data image aw ah).pixbuf
          = some (loader_decode_size image.width image.height
              (Mx.on_image_size_prepared image.width image.height ⟨aw, ah⟩))
        ∧ (Mx.impl_load_pixbuf_data image aw ah).loader_runs = 1)
    ∧ (Mx.impl_load_pixbuf_data image aw ah).loader_runs ≤ 2
    ∧ (Mx.impl_load_pixbuf_data image aw ah).error = none
    ∧ St.impl_load_pixbuf_data image aw ah = Mx.impl_load_pixbuf_data image aw ah := by
  rw [st_impl_load_pixbuf_data_eq_mx, impl_load_pixbuf_data_value image aw ah hq hok]
  generalize hf : loader_decode_size image.width image.height
    (Mx.on_image_size_prepared image.width image.height ⟨aw, ah⟩) = first
  by_cases hsq : first.1 = first.2
  · have hne : ¬ first.1 ≠ first.2 := fun h => h hsq
    rw [if_neg hne]
    refine ⟨?_, fun h => absurd hsq h, fun _ => ⟨?_, rfl⟩, Nat.le_succ 1, rfl, rfl⟩
    · intro h
      rcases h with h | h
      · exact absurd hsq h
      · have hs := decode_size_square_swap image.width aw ah
        unfold spec_decode_swapped gdk_pixbuf_apply_embedded_orientation
        rw [← h] at hf ⊢
        rw [hs, hf, hq, if_pos rfl]
        show some (first.2, first.1) = some (first.1, first.2)
        rw [hsq]
    · show some (first.2, first.1) = some first
      rw [← hsq]
      exact congrArg some (Prod.ext rfl hsq)
  · have hne : first.1 ≠ first.2 := hsq
    rw [if_pos hne]
    exact ⟨fun _ => rfl, fun _ => rfl, fun h => absurd h hsq, le_refl 2, rfl, rfl⟩

/-- C27 amended, applied: a 200 by 100 image with a quarter turn asked for at 50
by 80 is decoded twice and returned at 40 by 80. -/
theorem impl_load_pixbuf_data_quarter_turn_witness :
    (((loader_decode_size 200 100 (Mx.on_image_size_prepared 200 100 ⟨50, 80⟩)).1
        ≠ (loader_decode_size 200 100 (Mx.on_image_size_prepared 200 100 ⟨50, 80⟩)).2
        ∨ (200 : Int) = 100) →
      (Mx.impl_load_pixbuf_data ⟨200, 100, true, none⟩ 50 80).pixbuf
        = some (spec_decode_swapped ⟨200, 100, true, none⟩ 50 80))
    ∧ (Mx.impl_load_pixbuf_data ⟨200, 100, true, none⟩ 50 80).pixbuf = some (40, 80)
    ∧ (Mx.impl_load_pixbuf_data ⟨200, 100, true, none⟩ 50 80).loader_runs = 2 :=
  ⟨(impl_load_pixbuf_data_quarter_turn ⟨200, 100, true, none⟩ 50 80 rfl rfl).1,
    by decide, by decide⟩

/-! ## A texture bound to a pixbuf property -/

theorem reset_texture_none (w : World) (bind : MxTextureCachePropertyBind) :
    ((mx_texture_cache_reset_texture w bind none).actors bind.texture).opacity = 0 := by
  simp [mx_texture_cache_reset_texture, clutter_actor_set_opacity]

theorem reset_texture_some (w : World) (bind : MxTextureCachePropertyBind)
    (pixbuf : GdkPixbuf) :
    ((mx_texture_cache_reset_texture w bind (some pixbuf)).actors bind.texture).opacity = 255
    ∧ ((mx_texture_cache_reset_texture w bind (some pixbuf)).actors bind.texture).cogl_texture
        = (mx_texture_cache_reset_texture w bind (some pixbuf)).n_handles
    ∧ (mx_texture_cache_reset_texture w bind (some pixbuf)).created
        = w.created
          ++ [((mx_texture_cache_reset_texture w bind (some pixbuf)).n_handles, pixbuf, false)]
    ∧ (mx_texture_cache_reset_texture w bind (some pixbuf)).n_handles = w.n_handles + 1 := by
  simp [mx_texture_cache_reset_texture, clutter_actor_set_opacity, pixbuf_to_cogl_handle,
    clutter_texture_set_cogl_texture, cogl_is_texture, COGL_INVALID_HANDLE, cogl_handle_unref,
    cogl_handle_ref]
  split <;> simp

/-- C24. For the actor returned by `mx_texture_cache_bind_pixbuf_property`,
right after creation and right after every change notification delivered
while the handler is connected (the actor is alive): if the value of the
property is empty the opacity of the actor is 0; otherwise the actor shows a
texture newly made from that value (the last handle created, from that pixbuf
without padding) and its opacity is 255.  Notifications keep the binding and
the connection. -/
theorem bound_texture_tracks_property :
    (∀ (w : World) (object : Nat),
      (mx_texture_cache_bind_pixbuf_property w object none).connected = true
      ∧ (((mx_texture_cache_bind_pixbuf_property w object none).world.actors
          (mx_texture_cache_bind_pixbuf_property w object none).bind.texture).opacity = 0))
    ∧ (∀ (w : World) (object : Nat) (pixbuf : GdkPixbuf),
      (mx_texture_cache_bind_pixbuf_property w object (some pixbuf)).connected = true
      ∧ ((mx_texture_cache_bind_pixbuf_property w object (some pixbuf)).world.actors
          (mx_texture_cache_bind_pixbuf_property w object (some pixbuf)).bind.texture).opacity
        = 255
      ∧ ((mx_texture_cache_bind_pixbuf_property w object (some pixbuf)).world.actors
          (mx_texture_cache_bind_pixbuf_property w object (some pixbuf)).bind.texture).cogl_texture
        = (mx_texture_cache_bind_pixbuf_property w object (some pixbuf)).world.n_handles
      ∧ (mx_texture_cache_bind_pixbuf_property w object (some pixbuf)).world.created
        = w.created
          ++ [((mx_texture_cache_bind_pixbuf_property w object (some pixbuf)).world.n_handles,
                pixbuf, false)])
    ∧ (∀ (b : BoundProperty), b.connected = true →
      ((notify_property b none).world.actors b.bind.texture).opacity = 0)
    ∧ (∀ (b : BoundProperty) (pixbuf : GdkPixbuf), b.connected = true →
      ((notify_property b (some pixbuf)).world.actors b.bind.texture).opacity = 255
      ∧ ((notify_property b (some pixbuf)).world.actors b.bind.texture).cogl_texture
        = (notify_property b (some pixbuf)).world.n_handles
      ∧ (notify_property b (some pixbuf)).world.created
        = b.world.created ++ [((notify_property b (some pixbuf)).world.n_handles, pixbuf, false)])
    ∧ (∀ (b : BoundProperty) (value : Option GdkPixbuf),
      (notify_property b value).bind = b.bind
      ∧ (notify_property b value).connected = b.connected) := by
  refine ⟨?_, ?_, ?_, ?_, ?_⟩
  · intro w object
    exact ⟨rfl, reset_texture_none _ _⟩
  · intro w object pixbuf
    have h := reset_texture_some (clutter_texture_new w).1
      { texture := (clutter_texture_new w).2, source := object, weakref_active := true } pixbuf
    exact ⟨rfl, h.1, h.2.1, h.2.2.1⟩
  · intro b hc
    unfold notify_property mx_texture_cache_on_pixbuf_notify
    rw [if_pos hc]
    exact reset_texture_none _ _
  · intro b pixbuf hc
    unfold notify_property mx_texture_cache_on_pixbuf_notify
    rw [if_pos hc]
    have h := reset_texture_some b.world b.bind pixbuf
    exact ⟨h.1, h.2.1, h.2.2.1⟩
  · intro b value
    unfold notify_property
    split <;> exact ⟨rfl, rfl⟩

/-! ## Thumbnails -/

/-- C25. `impl_load_thumbnail`, for a URI and modification time with no
existing thumbnail: with a valid failed-thumbnail marker the result is failure
with the error set, the factory is untouched and the thumbnailer is not run;
when generation is attempted (no marker, the file can be thumbnailed) and
fails, the error is set, a failed-thumbnail marker exists afterwards, and the
next request for the same URI short-circuits without running the thumbnailer. -/
theorem impl_load_thumbnail_failed_marker (env : ThumbnailEnv) (f : ThumbnailFactory)
    (uri mime_type : String) (size : Nat)
    (hno : gnome_desktop_thumbnail_factory_lookup f uri (thumbnail_mtime env uri) = none) :
    (gnome_desktop_thumbnail_factory_has_valid_failed_thumbnail f uri (thumbnail_mtime env uri)
        = true →
      impl_load_thumbnail env f uri mime_type size = (f, none, some "Has failed thumbnail"))
    ∧ (gnome_desktop_thumbnail_factory_has_valid_failed_thumbnail f uri (thumbnail_mtime env uri)
        = false →
      env.can_thumbnail uri mime_type (thumbnail_mtime env uri) = true →
      env.generate_thumbnail uri mime_type = none →
      (impl_load_thumbnail env f uri mime_type size).2
          = (none, some "Failed to generate thumbnail")
        ∧ (impl_load_thumbnail env f uri mime_type size).1.generated = f.generated + 1
        ∧ gnome_desktop_thumbnail_factory_has_valid_failed_thumbnail
            (impl_load_thumbnail env f uri mime_type size).1 uri (thumbnail_mtime env uri) = true
        ∧ ∀ (mime_type' : String) (size' : Nat),
            impl_load_thumbnail env (impl_load_thumbnail env f uri mime_type size).1 uri
                mime_type' size'
              = ((impl_load_thumbnail env f uri mime_type size).1, none,
                  some "Has failed thumbnail")) := by
  constructor
  · intro hf
    unfold impl_load_thumbnail
    simp only [hno, hf, if_true]
  · intro hf hcan hgen
    have hval : impl_load_thumbnail env f uri mime_type size
        = ({ f with generated := f.generated + 1,
                    failed := (uri, thumbnail_mtime env uri) :: f.failed },
            none, some "Failed to generate thumbnail") := by
      unfold impl_load_thumbnail
      simp only [hno, hf, hcan, if_true, gnome_desktop_thumbnail_factory_generate_thumbnail,
        hgen, gnome_desktop_thumbnail_factory_create_failed_thumbnail]
      simp
    rw [hval]
    refine ⟨rfl, rfl, ?_, ?_⟩
    · simp [gnome_desktop_thumbnail_factory_has_valid_failed_thumbnail]
    · intro mime_type' size'
      have hno' : gnome_desktop_thumbnail_factory_lookup
          { f with generated := f.generated + 1,
                   failed := (uri, thumbnail_mtime env uri) :: f.failed }
          uri (thumbnail_mtime env uri) = none := hno
      unfold impl_load_thumbnail
      simp only [hno']
      simp [gnome_desktop_thumbnail_factory_has_valid_failed_thumbnail]

/-- C25, applied: a text file whose thumbnailer produces nothing, requested
twice from a new factory. -/
theorem impl_load_thumbnail_failed_marker_witness :
    (impl_load_thumbnail sample_thumbnail_env ⟨[], [], 0⟩ "file:///tmp/a.txt" "text/plain" 64).2
      = (none, some "Failed to generate thumbnail")
    ∧ impl_load_thumbnail sample_thumbnail_env
        (impl_load_thumbnail sample_thumbnail_env ⟨[], [], 0⟩ "file:///tmp/a.txt"
          "text/plain" 64).1 "file:///tmp/a.txt" "text/plain" 64
      = (⟨[], [("file:///tmp/a.txt", 7)], 1⟩, none, some "Has failed thumbnail") := by
  have h := (impl_load_thumbnail_failed_marker sample_thumbnail_env ⟨[], [], 0⟩
    "file:///tmp/a.txt" "text/plain" 64 (by decide)).2 (by decide) (by decide) (by decide)
  exact ⟨h.1, by decide⟩

/-! ## Reading a meta texture -/

/-- C26, on the code: whenever the entry that
`mx_texture_cache_get_item` finds has a meta map without `ident`, both
`mx_texture_cache_get_meta_cogl_texture` and `mx_texture_cache_get_meta_texture`
dereference NULL instead of returning NULL; such a state arises from two
public calls (`mx_texture_cache_load` with key `compat:`, then
`mx_texture_cache_insert_meta` for identifier 7), after which asking for
identifier 8, which `mx_texture_cache_contains_meta` reports absent, faults. -/
theorem get_meta_texture_missing_ident_faults :
    (∀ (env : Env) (s : MxTextureCache) (uri : String) (ident : Nat) (key : String)
        (item : MxTextureCacheItem) (entries : GHashTable Nat MxTextureCacheMetaEntry),
      (mx_texture_cache_get_item env s uri true).2 = some (key, item) →
      item.meta = some entries → g_hash_table_lookup entries ident = none →
      mx_texture_cache_get_meta_cogl_texture env s uri ident = .error Fault.null_dereference
      ∧ mx_texture_cache_get_meta_texture env s uri ident = .error Fault.null_dereference)
    ∧ mx_texture_cache_contains_meta sample_env sample_cache_after_insert_meta
        "file:///tmp/a.png" 7 = true
    ∧ mx_texture_cache_contains_meta sample_env sample_cache_after_insert_meta
        "file:///tmp/a.png" 8 = false
    ∧ mx_texture_cache_get_meta_cogl_texture sample_env sample_cache_after_insert_meta
        "file:///tmp/a.png" 8 = .error Fault.null_dereference
    ∧ mx_texture_cache_get_meta_texture sample_env sample_cache_after_insert_meta
        "file:///tmp/a.png" 8 = .error Fault.null_dereference := by
  refine ⟨?_, by decide, by decide, rfl, rfl⟩
  intro env s uri ident key item entries hitem hmeta hlookup
  unfold mx_texture_cache_get_meta_cogl_texture mx_texture_cache_get_meta_texture
  simp only [hitem, hmeta, hlookup]
  exact ⟨trivial, trivial⟩

/-! ## The legacy cache file -/

theorem load_cache_loop_cache_trailing (env : Env) (full_texture : CoglHandle)
    (trailing : MxTextureCacheItem → MxTextureCacheItem) (records : List MxTextureCacheItem) :
    ∀ s : MxTextureCache,
      (mx_texture_cache_load_cache_loop env full_texture trailing records s).cache
        = (mx_texture_cache_load_cache_loop env full_texture (fun buffer => buffer) records s).cache := by
  induction records with
  | nil => intro s; rfl
  | cons element rest ih =>
    intro s
    unfold mx_texture_cache_load_cache_loop
    split
    · exact ih _
    · split
      · exact ih _
      · exact ih _

theorem load_cache_loop_keeps_present (env : Env) (full_texture : CoglHandle)
    (trailing : MxTextureCacheItem → MxTextureCacheItem) (records : List MxTextureCacheItem) :
    ∀ (s : MxTextureCache) (k : String) (v : MxTextureCacheItem),
      g_hash_table_lookup s.cache k = some v →
      g_hash_table_lookup
        (mx_texture_cache_load_cache_loop env full_texture trailing records s).cache k = some v := by
  induction records with
  | nil => intro s k v h; exact h
  | cons element rest ih =>
    intro s k v h
    unfold mx_texture_cache_load_cache_loop
    split
    · exact ih _ k v h
    · rename_i uri _
      split
      · exact ih _ k v h
      · rename_i habs
        apply ih
        have hne : k ≠ uri := by
          intro e
          rw [e] at h
          rw [h] at habs
          exact habs rfl
        show g_hash_table_lookup (g_hash_table_insert s.cache uri _) k = some v
        rw [g_hash_table_lookup_insert_of_ne _ _ _ _ hne]
        exact h

theorem load_cache_loop_added (env : Env) (full_texture : CoglHandle)
    (trailing : MxTextureCacheItem → MxTextureCacheItem) (records : List MxTextureCacheItem) :
    ∀ (s : MxTextureCache) (k : String) (v : MxTextureCacheItem),
      g_hash_table_lookup
        (mx_texture_cache_load_cache_loop env full_texture trailing records s).cache k = some v →
      g_hash_table_lookup s.cache k = some v
      ∨ ∃ element ∈ records, mx_texture_cache_filename_to_uri env element.filename = some k
          ∧ v.posX = element.posX ∧ v.posY = element.posY
          ∧ v.width = element.width ∧ v.height = element.height := by
  induction records with
  | nil => intro s k v h; exact Or.inl h
  | cons element rest ih =>
    intro s k v h
    unfold mx_texture_cache_load_cache_loop at h
    split at h
    · rcases ih _ k v h with h1 | ⟨e, he, h2⟩
      · exact Or.inl h1
      · exact Or.inr ⟨e, List.mem_cons_of_mem _ he, h2⟩
    · rename_i uri huri
      split at h
      · rcases ih _ k v h with h1 | ⟨e, he, h2⟩
        · exact Or.inl h1
        · exact Or.inr ⟨e, List.mem_cons_of_mem _ he, h2⟩
      · rcases ih _ k v h with h1 | ⟨e, he, h2⟩
        · by_cases hk : k = uri
          · right
            refine ⟨element, List.mem_cons_self _ _, ?_⟩
            change g_hash_table_lookup (g_hash_table_insert s.cache uri _) k = some v at h1
            rw [hk, g_hash_table_lookup_insert_self] at h1
            have hv := Option.some.inj h1
            rw [hk, huri, ← hv]
            exact ⟨rfl, rfl, rfl, rfl, rfl⟩
          · left
            change g_hash_table_lookup (g_hash_table_insert s.cache uri _) k = some v at h1
            rw [g_hash_table_lookup_insert_of_ne _ _ _ _ hk] at h1
            exact h1
        · exact Or.inr ⟨e, List.mem_cons_of_mem _ he, h2⟩

/-- C22, on the code: the test after the first `fread` is
`ret < 0`, which a count of 0 or 1 never meets, so a file with no complete
first record is not left alone: for a file cut off inside its first record
whose bytes fill `filename`, and for an empty file when the uninitialised
`head` holds a file name, the image named there is decoded and registered in
a cache that was empty.  When the first record is complete the claim holds:
the table is the one obtained from the file cut back to its last complete
record. -/
theorem load_cache_reads_incomplete_first_record :
    (mx_texture_cache_init sample_world).cache = []
    ∧ (mx_texture_cache_load_cache sample_env (mx_texture_cache_init sample_world)
        (some sample_truncated_cache_file) mx_texture_cache_item_new).cache
      = [("file:///tmp/a.png", { mx_texture_cache_item_new with ptr := 3 })]
    ∧ (mx_texture_cache_load_cache sample_env (mx_texture_cache_init sample_world)
        (some sample_empty_cache_file)
        { mx_texture_cache_item_new with filename := "/tmp/a.png" }).cache
      = [("file:///tmp/a.png", { mx_texture_cache_item_new with ptr := 3 })]
    ∧ (∀ (env : Env) (s : MxTextureCache) (f : CacheFile) (head : MxTextureCacheItem),
        f.records ≠ [] →
        (mx_texture_cache_load_cache env s (some f) head).cache
          = (mx_texture_cache_load_cache env s
              (some { f with trailing := fun buffer => buffer }) head).cache) := by
  refine ⟨rfl, by decide, by decide, ?_⟩
  intro env s f head hne
  cases hrec : f.records with
  | nil => exact absurd hrec hne
  | cons r rest =>
    unfold mx_texture_cache_load_cache
    simp only [hrec]
    split
    · rfl
    · split
      · rfl
      · split
        · rfl
        · split
          · rfl
          · exact load_cache_loop_cache_trailing env _ f.trailing rest _

/-- C23, on the code: the head of the file is looked up by
its file name, not by its URI, and `mx_texture_cache_get_cogl_texture` then
stores a newly decoded item under the URI: a cache that holds texture 1 under
`file:///tmp/a.png` holds texture 3 under that key after loading a cache file
whose head names `/tmp/a.png`.  The loop over the records does keep every key
that is present, and each entry it adds has the rectangle of a record. -/
theorem load_cache_overrides_backing_texture :
    g_hash_table_lookup
        (mx_texture_cache_insert sample_env (mx_texture_cache_init sample_world)
          "/tmp/a.png" 1).cache "file:///tmp/a.png"
      = some { mx_texture_cache_item_new with ptr := 1 }
    ∧ g_hash_table_lookup
        (mx_texture_cache_load_cache sample_env
          (mx_texture_cache_insert sample_env (mx_texture_cache_init sample_world)
            "/tmp/a.png" 1)
          (some sample_cache_file) mx_texture_cache_item_new).cache "file:///tmp/a.png"
      = some { mx_texture_cache_item_new with ptr := 3 }
    ∧ (∀ (env : Env) (full_texture : CoglHandle)
        (trailing : MxTextureCacheItem → MxTextureCacheItem)
        (records : List MxTextureCacheItem) (s : MxTextureCache) (k : String)
        (v : MxTextureCacheItem),
        (g_hash_table_lookup s.cache k = some v →
          g_hash_table_lookup
            (mx_texture_cache_load_cache_loop env full_texture trailing records s).cache k
            = some v)
        ∧ (g_hash_table_lookup
            (mx_texture_cache_load_cache_loop env full_texture trailing records s).cache k
            = some v →
          g_hash_table_lookup s.cache k = some v
          ∨ ∃ element ∈ records,
              mx_texture_cache_filename_to_uri env element.filename = some k
              ∧ v.posX = element.posX ∧ v.posY = element.posY
              ∧ v.width = element.width ∧ v.height = element.height)) := by
  refine ⟨by decide, by decide, ?_⟩
  intro env full_texture trailing records s k v
  exact ⟨load_cache_loop_keeps_present env full_texture trailing records s k v,
    load_cache_loop_added env full_texture trailing records s k v⟩

/-! ## The theme context -/

theorem theme_context_changed_fields {R : Type} (s : ThemeState R) :
    (mx_st_theme_context_changed s).context = { s.context with root_node := none }
    ∧ (mx_st_theme_context_changed s).changed_emitted = s.changed_emitted + 1
    ∧ (mx_st_theme_context_changed s).nodes = s.nodes := by
  unfold mx_st_theme_context_changed
  cases s.context.root_node <;> exact ⟨rfl, rfl, rfl⟩

theorem set_theme_fields {R : Type} (s : ThemeState R) (theme : Option Nat)
    (h : s.context.theme ≠ theme) :
    (mx_st_theme_context_set_theme s theme).context
        = { s.context with theme := theme, root_node := none }
    ∧ (mx_st_theme_context_set_theme s theme).changed_emitted = s.changed_emitted + 1
    ∧ (mx_st_theme_context_set_theme s theme).nodes = s.nodes := by
  unfold mx_st_theme_context_set_theme
  rw [if_pos h]
  simp only [theme_context_changed_fields]
  cases hold : s.context.theme <;> cases theme <;> exact ⟨rfl, rfl, rfl⟩

theorem root_node_cleared_has_current_theme {R : Type} (s : ThemeState R)
    (h : s.context.root_node = none) : root_node_has_current_theme s := by
  intro node hn
  rw [h] at hn
  exact absurd hn (by simp)

theorem get_root_node_keeps_invariant {R : Type} (s : ThemeState R)
    (h : root_node_has_current_theme s) :
    root_node_has_current_theme (mx_st_theme_context_get_root_node s).1 := by
  unfold mx_st_theme_context_get_root_node
  cases hr : s.context.root_node with
  | some node => exact h
  | none =>
    intro node hn
    simp only [mx_st_theme_node_new] at hn ⊢
    have e : node = s.nodes.length := (Option.some.inj hn).symm
    rw [e]
    simp

theorem theme_context_call_keeps_invariant {R : Type} (double_eq : R → R → Bool)
    (default_resolution : R) (s : ThemeState R) (c : ThemeContextCall R)
    (h : root_node_has_current_theme s) :
    root_node_has_current_theme (theme_context_call double_eq default_resolution s c) := by
  cases c with
  | set_theme theme =>
    by_cases ht : s.context.theme ≠ theme
    · apply root_node_cleared_has_current_theme
      show (mx_st_theme_context_set_theme s theme).context.root_node = none
      rw [(set_theme_fields s theme ht).1]
    · show root_node_has_current_theme (mx_st_theme_context_set_theme s theme)
      unfold mx_st_theme_context_set_theme
      rw [if_neg ht]
      exact h
  | set_resolution resolution =>
    show root_node_has_current_theme (mx_st_theme_context_set_resolution double_eq s resolution)
    unfold mx_st_theme_context_set_resolution
    split
    · exact h
    · apply root_node_cleared_has_current_theme
      rw [(theme_context_changed_fields _).1]
  | set_default_resolution =>
    show root_node_has_current_theme
      (mx_st_theme_context_set_default_resolution double_eq default_resolution s)
    unfold mx_st_theme_context_set_default_resolution
    split
    · exact h
    · apply root_node_cleared_has_current_theme
      rw [(theme_context_changed_fields _).1]
  | set_font font =>
    show root_node_has_current_theme (mx_st_theme_context_set_font s font)
    unfold mx_st_theme_context_set_font
    split
    · exact h
    · apply root_node_cleared_has_current_theme
      rw [(theme_context_changed_fields _).1]
  | get_root_node => exact get_root_node_keeps_invariant s h

theorem theme_context_foldl_keeps_invariant {R : Type} (double_eq : R → R → Bool)
    (default_resolution : R) (calls : List (ThemeContextCall R)) :
    ∀ s : ThemeState R, root_node_has_current_theme s →
      root_node_has_current_theme
        (calls.foldl (theme_context_call double_eq default_resolution) s) := by
  induction calls with
  | nil => intro s h; exact h
  | cons c rest ih =>
    intro s h
    exact ih _ (theme_context_call_keeps_invariant double_eq default_resolution s c h)

/-- C30. `mx_st_theme_context_set_theme`, `set_resolution` and
`set_default_resolution` called with a value equal to the current one (for the
resolution: `==` to it) leave the whole state unchanged and emit no "changed";
called with a different value they store it, drop the cached root node and
emit "changed" exactly once.  In every state reached from a new context by
calls of the setters and of `mx_st_theme_context_get_root_node`, a cached root
node was created with the current theme, and a second `get_root_node` call
right after a first returns the same node and changes nothing. -/
theorem theme_context_invalidation {R : Type} (double_eq : R → R → Bool)
    (default_resolution : R) :
    (∀ (s : ThemeState R) (theme : Option Nat),
      (s.context.theme = theme → mx_st_theme_context_set_theme s theme = s)
      ∧ (s.context.theme ≠ theme →
          (mx_st_theme_context_set_theme s theme).context
              = { s.context with theme := theme, root_node := none }
          ∧ (mx_st_theme_context_set_theme s theme).changed_emitted = s.changed_emitted + 1))
    ∧ (∀ (s : ThemeState R) (resolution : R),
      (double_eq resolution s.context.resolution = true →
          mx_st_theme_context_set_resolution double_eq s resolution = s)
      ∧ (double_eq resolution s.context.resolution = false →
          (mx_st_theme_context_set_resolution double_eq s resolution).context
              = { s.context with resolution := resolution, root_node := none }
          ∧ (mx_st_theme_context_set_resolution double_eq s resolution).changed_emitted
              = s.changed_emitted + 1))
    ∧ (∀ (s : ThemeState R),
      (double_eq s.context.resolution default_resolution = true →
          mx_st_theme_context_set_default_resolution double_eq default_resolution s = s)
      ∧ (double_eq s.context.resolution default_resolution = false →
          (mx_st_theme_context_set_default_resolution double_eq default_resolution s).context
              = { s.context with resolution := default_resolution, root_node := none }
          ∧ (mx_st_theme_context_set_default_resolution double_eq default_resolution
                s).changed_emitted
              = s.changed_emitted + 1))
    ∧ (∀ calls : List (ThemeContextCall R),
      root_node_has_current_theme (theme_context_run double_eq default_resolution calls))
    ∧ (∀ s : ThemeState R,
      mx_st_theme_context_get_root_node (mx_st_theme_context_get_root_node s).1
        = ((mx_st_theme_context_get_root_node s).1, (mx_st_theme_context_get_root_node s).2)) := by
  refine ⟨?_, ?_, ?_, ?_, ?_⟩
  · intro s theme
    constructor
    · intro h
      unfold mx_st_theme_context_set_theme
      rw [if_neg (fun hne => hne h)]
    · intro h
      exact ⟨(set_theme_fields s theme h).1, (set_theme_fields s theme h).2.1⟩
  · intro s resolution
    constructor
    · intro h
      unfold mx_st_theme_context_set_resolution
      rw [if_pos h]
    · intro h
      unfold mx_st_theme_context_set_resolution
      rw [h]
      exact ⟨(theme_context_changed_fields _).1, (theme_context_changed_fields _).2.1⟩
  · intro s
    constructor
    · intro h
      unfold mx_st_theme_context_set_default_resolution
      rw [if_pos h]
    · intro h
      unfold mx_st_theme_context_set_default_resolution
      rw [h]
      exact ⟨(theme_context_changed_fields _).1, (theme_context_changed_fields _).2.1⟩
  · intro calls
    exact theme_context_foldl_keeps_invariant double_eq default_resolution calls _
      (root_node_cleared_has_current_theme _ rfl)
  · intro s
    unfold mx_st_theme_context_get_root_node
    cases hr : s.context.root_node with
    | some node => simp [hr]
    | none => rfl

/-- Two runs of a new context with resolution 96: setting the resolution to 96
again keeps the root node 0, setting it to 72 makes the next
`mx_st_theme_context_get_root_node` create node 1. -/
theorem theme_context_invalidation_example :
    (theme_context_run (fun a b : Int => decide (a = b)) 96
        [.set_theme (some 1), .get_root_node, .set_resolution 96, .get_root_node]).context.root_node
      = some 0
    ∧ (theme_context_run (fun a b : Int => decide (a = b)) 96
        [.set_theme (some 1), .get_root_node, .set_resolution 96, .get_root_node]).changed_emitted
      = 1
    ∧ (theme_context_run (fun a b : Int => decide (a = b)) 96
        [.set_theme (some 1), .get_root_node, .set_resolution 72, .get_root_node]).context.root_node
      = some 1
    ∧ (theme_context_run (fun a b : Int => decide (a = b)) 96
        [.set_theme (some 1), .get_root_node, .set_resolution 72, .get_root_node]).nodes
      = [some 1, some 1] := by
  decide
